import Mathlib

/-!
# Dodgeball: a shallow embedding of `script.js`

The simulation core of `src/script.js` is translated function by function.

* Numbers are elements of an arbitrary linearly ordered field `K` with a floor
  function (the exact-arithmetic reading of JavaScript numbers; `K = ℝ` is the
  intended instance, `K = ℚ` is executable).
* `Math.sqrt`, `Math.cos`, `Math.sin`, `Math.PI`, `Math.random()` and
  `Date.now()` come from an environment `Env K`.  The `n`-th call of
  `Math.random()` returns `E.random n`, the `n`-th call of `Date.now()`
  returns `E.dateNow n`; the two call counters are part of the world state.
* The global variables of the script form the record `World K`.
* `World.trace` is a ghost log of calls (`Enemy.update`, `gameOver()`, spawns,
  pick-ups).  Nothing reads it; it only lets statements talk about which
  calls happened in a frame.
* Rendering (`draw`), DOM updates and frame scheduling
  (`requestAnimationFrame`, `cancelAnimationFrame`) do not touch the
  simulation state and are left out.
-/

namespace Dodgeball

/-! ## Data model -/

/-- A plain 2D vector object with fields x and y. -/
structure Vec (K : Type) where
  x : K
  y : K

/-- The Math and Date services the script calls. -/
structure Env (K : Type) where
  sqrt : K → K
  cos : K → K
  sin : K → K
  pi : K
  random : Nat → K
  dateNow : Nat → K

/-- The three values the variable gameState takes: start, playing, gameOver. -/
inductive GameState where
  | start
  | playing
  | gameOver
  deriving DecidableEq, Repr

/-- Fields of class Player. -/
structure Player (K : Type) where
  x : K
  y : K
  radius : K
  color : String

/-- Fields of class Enemy. -/
structure Enemy (K : Type) where
  radius : K
  color : String
  x : K
  y : K
  vx : K
  vy : K
  speed : K

/-- Fields of class PowerUp; type is the string the constructor was given. -/
structure PowerUp (K : Type) where
  type : String
  radius : K
  x : K
  y : K
  color : String
  life : K

/-- Fields of class Particle. -/
structure Particle (K : Type) where
  x : K
  y : K
  color : String
  vx : K
  vy : K
  life : K
  radius : K
  initialLife : K

/-- Ghost log entries: which calls happened, in order. -/
inductive Event (K : Type) where
  /-- Enemy.update was called from the enemy loop at this index on this enemy
  (the enemy as it was before the call). -/
  | enemyUpdate (index : Nat) (enemy : Enemy K)
  /-- The function gameOver was called; the argument is timeSurvived / 10. -/
  | gameOver (finalTime : K)
  /-- An enemy was constructed and pushed (line 386). -/
  | enemySpawn (enemy : Enemy K)
  /-- PowerUp.update was called from the power-up loop at this index
  (the power-up as it was before the call). -/
  | powerupUpdate (index : Nat) (powerup : PowerUp K)
  /-- The player-power-up collision branch was taken (lines 364-373). -/
  | pickup (powerup : PowerUp K)
  /-- A power-up was constructed and pushed (line 400). -/
  | powerupSpawn (powerup : PowerUp K)

/-- The global variables of the script that the simulation reads or writes. -/
structure World (K : Type) where
  /-- canvas.width -/
  canvasWidth : K
  /-- canvas.height -/
  canvasHeight : K
  lastUpdateTime : K
  gameState : GameState
  /-- The variable player; it is undefined until the first startGame, and update only
  reads it in the playing state, which only startGame enters. -/
  player : Player K
  enemies : List (Enemy K)
  powerups : List (PowerUp K)
  particles : List (Particle K)
  score : K
  startTime : K
  timeSurvived : K
  lastSpawnTime : K
  currentSpawnInterval : K
  shieldTimer : K
  slowTimer : K
  mousePos : Vec K
  /-- The object keys: a key name is held when its entry is true. -/
  keys : String → Bool
  /-- CONFIG.ENEMY_BASE_SPEED, the one CONFIG entry the script assigns to (line 391). -/
  ENEMY_BASE_SPEED : K
  /-- Ghost: number of Math.random() calls made so far. -/
  randomCalls : Nat
  /-- Ghost: number of Date.now() calls made so far. -/
  dateNowCalls : Nat
  /-- Ghost: log of calls. -/
  trace : List (Event K)

variable {K : Type} [LinearOrderedField K] [FloorRing K]

/-! ## Configuration (lines 3-20, 46) -/

def CONFIG.PLAYER_RADIUS : K := 15
def CONFIG.ENEMY_RADIUS : K := 10
/-- The value CONFIG.ENEMY_BASE_SPEED is initialised with. -/
def CONFIG.ENEMY_BASE_SPEED_INITIAL : K := 1.5
def CONFIG.ENEMY_MAX_SPEED : K := 8
def CONFIG.HOMING_STRENGTH : K := 0.03
def CONFIG.HOMING_NOISE_FACTOR : K := 0.05
def CONFIG.MAX_ENEMIES : Nat := 100
def CONFIG.SPAWN_INTERVAL_MS : K := 1500
def CONFIG.MIN_SPAWN_INTERVAL_MS : K := 300
def CONFIG.DIFFICULTY_FACTOR : K := 0.98
def CONFIG.SHIELD_DURATION_S : K := 5
def CONFIG.SLOW_DURATION_S : K := 5
def CONFIG.POWERUP_SPAWN_CHANCE : K := 0.005
def CONFIG.PARTICLE_COUNT_COLLISION : Nat := 20
def CONFIG.PARTICLE_COUNT_POWERUP : Nat := 10
def CONFIG.MAX_PARTICLES : Nat := 300
def KEYBOARD_SPEED : K := 4

/-! ## Utility functions (lines 62-87) -/

/-- Math.random(): the next draw of the environment. -/
def random (E : Env K) (w : World K) : K × World K :=
  (E.random w.randomCalls, { w with randomCalls := w.randomCalls + 1 })

/-- Date.now(): the next clock reading of the environment. -/
def dateNow (E : Env K) (w : World K) : K × World K :=
  (E.dateNow w.dateNowCalls, { w with dateNowCalls := w.dateNowCalls + 1 })

/-- Lines 62-73; the container's client size is an input.  The guard `if (player)` is
always taken here: a world of the model always holds a player (see World.player). -/
def resizeCanvas (clientWidth clientHeight : K) (w : World K) : World K :=
  let w := { w with canvasWidth := clientWidth, canvasHeight := clientHeight }
  { w with player := { w.player with x := w.canvasWidth / 2, y := w.canvasHeight / 2 } }

/-- Lines 75-77. -/
def randomInt (E : Env K) (min max : K) (w : World K) : K × World K :=
  let r := random E w
  (((Int.floor (r.1 * (max - min + 1)) : Int) : K) + min, r.2)

/-- Lines 79-81. -/
def distance (E : Env K) (x1 y1 x2 y2 : K) : K :=
  E.sqrt ((x2 - x1) ^ 2 + (y2 - y1) ^ 2)

/-- Lines 83-87. -/
def normalize (E : Env K) (v : Vec K) : Vec K :=
  let mag := E.sqrt (v.x * v.x + v.y * v.y)
  if mag = 0 then { x := 0, y := 0 }
  else { x := v.x / mag, y := v.y / mag }

/-! ## Game objects (lines 91-302) -/

/-- Lines 92-97. -/
def Player.new (x y : K) : Player K :=
  { x := x, y := y, radius := CONFIG.PLAYER_RADIUS, color := "#4CAF50" }

/-- Lines 104-109: the sum of the direction flags of the held keys. -/
def keyDirection (w : World K) : Vec K :=
  let dx : K := 0
  let dy : K := 0
  let dy := if w.keys "w" || w.keys "W" || w.keys "ArrowUp" then dy - 1 else dy
  let dy := if w.keys "s" || w.keys "S" || w.keys "ArrowDown" then dy + 1 else dy
  let dx := if w.keys "a" || w.keys "A" || w.keys "ArrowLeft" then dx - 1 else dx
  let dx := if w.keys "d" || w.keys "D" || w.keys "ArrowRight" then dx + 1 else dx
  { x := dx, y := dy }

/-- Lines 100-123: the player before the final clamp. -/
def Player.moved (E : Env K) (w : World K) : Player K :=
  let targetX := w.mousePos.x
  let targetY := w.mousePos.y
  let d := keyDirection w
  let p := w.player
  if d.x ≠ 0 ∨ d.y ≠ 0 then
    let dir := normalize E { x := d.x, y := d.y }
    let p := { p with x := p.x + dir.x * KEYBOARD_SPEED }
    let p := { p with y := p.y + dir.y * KEYBOARD_SPEED }
    -- targetX = this.x; targetY = this.y: assignments to locals that are not read again
    p
  else
    let p := { p with x := p.x + (targetX - p.x) * 0.2 }
    let p := { p with y := p.y + (targetY - p.y) * 0.2 }
    p

/-- Lines 99-128: Player.update. -/
def Player.update (E : Env K) (w : World K) : World K :=
  let p := Player.moved E w
  let p := { p with x := max p.radius (min (w.canvasWidth - p.radius) p.x) }
  let p := { p with y := max p.radius (min (w.canvasHeight - p.radius) p.y) }
  { w with player := p }

/-- Lines 149-179: the Enemy constructor. -/
def Enemy.new (E : Env K) (w : World K) : Enemy K × World K :=
  let radius : K := CONFIG.ENEMY_RADIUS
  let s := randomInt E 0 3 w
  let side := s.1
  let w := s.2
  let pos : (K × K) × World K :=
    if side = 0 then
      let r := randomInt E 0 w.canvasWidth w
      ((r.1, -radius), r.2)
    else if side = 1 then
      let r := randomInt E 0 w.canvasHeight w
      ((w.canvasWidth + radius, r.1), r.2)
    else if side = 2 then
      let r := randomInt E 0 w.canvasWidth w
      ((r.1, w.canvasHeight + radius), r.2)
    else
      let r := randomInt E 0 w.canvasHeight w
      ((-radius, r.1), r.2)
  let x := pos.1.1
  let y := pos.1.2
  let w := pos.2
  let dirX := w.canvasWidth / 2 - x
  let dirY := w.canvasHeight / 2 - y
  let initialDir := normalize E { x := dirX, y := dirY }
  ({ radius := radius, color := "#F44336", x := x, y := y,
     vx := initialDir.x * w.ENEMY_BASE_SPEED,
     vy := initialDir.y * w.ENEMY_BASE_SPEED,
     speed := w.ENEMY_BASE_SPEED }, w)

/-- Lines 181-208: Enemy.update; reads player and slowTimer, draws two noise values. -/
def Enemy.update (E : Env K) (e : Enemy K) (w : World K) : Enemy K × World K :=
  let dx := w.player.x - e.x
  let dy := w.player.y - e.y
  let targetDir := normalize E { x := dx, y := dy }
  let r1 := random E w
  let noiseX := (r1.1 - 0.5) * CONFIG.HOMING_NOISE_FACTOR
  let r2 := random E r1.2
  let noiseY := (r2.1 - 0.5) * CONFIG.HOMING_NOISE_FACTOR
  let w := r2.2
  let targetDir : Vec K := { x := targetDir.x + noiseX, y := targetDir.y + noiseY }
  let targetDir := normalize E targetDir
  let vx := e.vx * (1 - CONFIG.HOMING_STRENGTH) + targetDir.x * e.speed * CONFIG.HOMING_STRENGTH
  let vy := e.vy * (1 - CONFIG.HOMING_STRENGTH) + targetDir.y * e.speed * CONFIG.HOMING_STRENGTH
  let currentVel := normalize E { x := vx, y := vy }
  let vx := currentVel.x * e.speed
  let vy := currentVel.y * e.speed
  let speedMultiplier : K := if w.slowTimer > 0 then 0.5 else 1.0
  ({ e with vx := vx, vy := vy, x := e.x + vx * speedMultiplier, y := e.y + vy * speedMultiplier }, w)

/-- Lines 226-233: the PowerUp constructor. -/
def PowerUp.new (E : Env K) (type : String) (w : World K) : PowerUp K × World K :=
  let radius : K := 12
  let rx := randomInt E radius (w.canvasWidth - radius) w
  let ry := randomInt E radius (rx.2.canvasHeight - radius) rx.2
  ({ type := type, radius := radius, x := rx.1, y := ry.1,
     color := if type = "slow" then "#2196F3" else "#FFC107", life := 10000 }, ry.2)

/-- Lines 235-237. -/
def PowerUp.update (p : PowerUp K) (deltaTime : K) : PowerUp K :=
  { p with life := p.life - deltaTime }

/-- Lines 257-266: the Particle constructor (life || 1000 replaces a zero life). -/
def Particle.new (E : Env K) (x y : K) (color : String) (velX velY life : K) (w : World K) :
    Particle K × World K :=
  let life := if life = 0 then 1000 else life
  let r := randomInt E 1 3 w
  ({ x := x, y := y, color := color, vx := velX, vy := velY, life := life,
     radius := r.1, initialLife := life }, r.2)

/-- Lines 268-275. -/
def Particle.update (p : Particle K) (deltaTime : K) : Particle K :=
  let p := { p with x := p.x + p.vx }
  let p := { p with y := p.y + p.vy }
  let p := { p with life := p.life - deltaTime }
  let p := { p with vx := p.vx * 0.98 }
  { p with vy := p.vy * 0.98 }

/-- One turn of the for loop of createParticleBurst (lines 290-296): the new particle. -/
def burstParticle (E : Env K) (x y : K) (color : String) (w : World K) : Particle K × World K :=
  let r1 := random E w
  let angle := r1.1 * E.pi * 2
  let r2 := random E r1.2
  let speed := r2.1 * 3 + 1
  let vx := E.cos angle * speed
  let vy := E.sin angle * speed
  let life := randomInt E 500 1500 r2.2
  Particle.new E x y color vx vy life.1 life.2

/-- The for loop of createParticleBurst (lines 289-297): count pushes. -/
def pushParticles (E : Env K) (x y : K) (color : String) : Nat → World K → World K
  | 0, w => w
  | count + 1, w =>
    let p := burstParticle E x y color w
    pushParticles E x y color count { p.2 with particles := p.2.particles ++ [p.1] }

/-- The while loop of createParticleBurst (lines 299-301): shift while longer than MAX_PARTICLES. -/
def shiftParticles {α : Type} : List α → List α
  | [] => []
  | p :: ps => if (p :: ps).length > CONFIG.MAX_PARTICLES then shiftParticles ps else p :: ps

/-- Lines 288-302. -/
def createParticleBurst (E : Env K) (x y : K) (count : Nat) (color : String) (w : World K) :
    World K :=
  let w := pushParticles E x y color count w
  { w with particles := shiftParticles w.particles }

/-! ## Game logic (lines 307-450) -/

/-- Lines 307-319 (the DOM call on line 318 is left out). -/
def initGame (E : Env K) (w : World K) : World K :=
  let w := { w with player := Player.new (w.canvasWidth / 2) (w.canvasHeight / 2) }
  let w := { w with enemies := [] }
  let w := { w with powerups := [] }
  let w := { w with particles := [] }
  let w := { w with score := 0 }
  let now := dateNow E w
  let w := { now.2 with startTime := now.1 }
  let w := { w with lastSpawnTime := w.startTime }
  let w := { w with currentSpawnInterval := CONFIG.SPAWN_INTERVAL_MS }
  let w := { w with shieldTimer := 0 }
  { w with slowTimer := 0 }

/-- Lines 436-450: gameOver; of the DOM updates only the exposed final time is logged. -/
def gameOver (w : World K) : World K :=
  let w := { w with gameState := GameState.gameOver }
  let finalTime := w.timeSurvived / 10
  { w with trace := w.trace ++ [Event.gameOver finalTime] }

/-- One turn of Array.prototype.forEach at index k: the callback is called only when
index k is still present in the array when its turn comes. -/
def forEachStep {σ α : Type} (arr : σ → List α) (cb : α → Nat → σ → σ) (k : Nat) (s : σ) : σ :=
  match (arr s)[k]? with
  | some a => cb a k s
  | none => s

/-- Array.prototype.forEach on an array that lives in the state, started at index k
with n indices still to visit: the index runs upward one by one. -/
def forEachFrom {σ α : Type} (arr : σ → List α) (cb : α → Nat → σ → σ) : Nat → Nat → σ → σ
  | 0, _, s => s
  | n + 1, k, s => forEachFrom arr cb n (k + 1) (forEachStep arr cb k s)

/-- Array.prototype.forEach: the length is read once, before the first turn. -/
def forEach {σ α : Type} (arr : σ → List α) (cb : α → Nat → σ → σ) (s : σ) : σ :=
  forEachFrom arr cb (arr s).length 0 s

/-- The callback of enemies.forEach (lines 336-351). -/
def enemyCallback (E : Env K) (enemy : Enemy K) (index : Nat) (w : World K) : World K :=
  let w := { w with trace := w.trace ++ [Event.enemyUpdate index enemy] }
  let u := Enemy.update E enemy w
  let enemy := u.1
  -- the enemy object is mutated in place: the array entry changes with it
  let w := { u.2 with enemies := u.2.enemies.set index enemy }
  if distance E w.player.x w.player.y enemy.x enemy.y < w.player.radius + enemy.radius then
    if w.shieldTimer > 0 then
      let w := createParticleBurst E enemy.x enemy.y CONFIG.PARTICLE_COUNT_COLLISION "#FFC107" w
      { w with enemies := w.enemies.eraseIdx index }
    else
      let w := createParticleBurst E w.player.x w.player.y
        (CONFIG.PARTICLE_COUNT_COLLISION * 2) "#F44336" w
      gameOver w
  else w

/-- The callback of powerups.forEach (lines 354-374). -/
def powerupCallback (E : Env K) (deltaTime : K) (powerup : PowerUp K) (index : Nat)
    (w : World K) : World K :=
  let w := { w with trace := w.trace ++ [Event.powerupUpdate index powerup] }
  let powerup := powerup.update deltaTime
  let w := { w with powerups := w.powerups.set index powerup }
  if powerup.life ≤ 0 then
    { w with powerups := w.powerups.eraseIdx index }
  else if distance E w.player.x w.player.y powerup.x powerup.y
      < w.player.radius + powerup.radius then
    let w := { w with trace := w.trace ++ [Event.pickup powerup] }
    let w :=
      if powerup.type = "shield" then
        let w := { w with shieldTimer := CONFIG.SHIELD_DURATION_S }
        createParticleBurst E powerup.x powerup.y CONFIG.PARTICLE_COUNT_POWERUP "#FFC107" w
      else if powerup.type = "slow" then
        let w := { w with slowTimer := CONFIG.SLOW_DURATION_S }
        createParticleBurst E powerup.x powerup.y CONFIG.PARTICLE_COUNT_POWERUP "#2196F3" w
      else w
    { w with powerups := w.powerups.eraseIdx index }
  else w

/-- The callback of particles.forEach (lines 377-382). -/
def particleCallback (deltaTime : K) (particle : Particle K) (index : Nat) (w : World K) :
    World K :=
  let particle := particle.update deltaTime
  let w := { w with particles := w.particles.set index particle }
  if particle.life ≤ 0 then
    { w with particles := w.particles.eraseIdx index }
  else w

/-- Lines 336-351: update enemies and check collisions. -/
def updateEnemies (E : Env K) (w : World K) : World K :=
  forEach World.enemies (enemyCallback E) w

/-- Lines 354-374: update power-ups. -/
def updatePowerups (E : Env K) (deltaTime : K) (w : World K) : World K :=
  forEach World.powerups (powerupCallback E deltaTime) w

/-- Lines 377-382: update particles. -/
def updateParticles (deltaTime : K) (w : World K) : World K :=
  forEach World.particles (particleCallback deltaTime) w

/-- Lines 385-395: spawn new enemies. -/
def spawnEnemies (E : Env K) (w : World K) : World K :=
  let now := dateNow E w
  let w := now.2
  if now.1 - w.lastSpawnTime > w.currentSpawnInterval ∧ w.enemies.length < CONFIG.MAX_ENEMIES then
    let e := Enemy.new E w
    let w := { e.2 with enemies := e.2.enemies ++ [e.1],
                        trace := e.2.trace ++ [Event.enemySpawn e.1] }
    let now := dateNow E w
    let w := { now.2 with lastSpawnTime := now.1 }
    let interval := max CONFIG.MIN_SPAWN_INTERVAL_MS
      (w.currentSpawnInterval * CONFIG.DIFFICULTY_FACTOR)
    let w := { w with currentSpawnInterval := interval }
    let baseSpeed := min CONFIG.ENEMY_MAX_SPEED (w.ENEMY_BASE_SPEED + 0.005)
    let w := { w with ENEMY_BASE_SPEED := baseSpeed }
    { w with enemies := w.enemies.map (fun e => { e with speed := w.ENEMY_BASE_SPEED }) }
  else w

/-- Lines 398-401: spawn power-ups. -/
def spawnPowerups (E : Env K) (w : World K) : World K :=
  let r := random E w
  let w := r.2
  if r.1 < CONFIG.POWERUP_SPAWN_CHANCE ∧ w.powerups.length < 2 then
    let r := random E w
    let type := if r.1 < 0.5 then "shield" else "slow"
    let p := PowerUp.new E type r.2
    { p.2 with powerups := p.2.powerups ++ [p.1],
               trace := p.2.trace ++ [Event.powerupSpawn p.1] }
  else w

/-- Lines 324-333: the frame up to the enemy loop (clock, score, player, timers). -/
def beginFrame (E : Env K) (timestamp : K) (w : World K) : World K :=
  let deltaTime := timestamp - w.lastUpdateTime
  let w := { w with lastUpdateTime := timestamp }
  let now := dateNow E w
  let w := { now.2 with timeSurvived := ((Int.floor ((now.1 - now.2.startTime) / 100) : Int) : K) }
  let w := Player.update E w
  let w := { w with shieldTimer := max 0 (w.shieldTimer - deltaTime / 1000) }
  { w with slowTimer := max 0 (w.slowTimer - deltaTime / 1000) }

/-- Lines 321-409: update(timestamp), one frame. -/
def update (E : Env K) (timestamp : K) (w : World K) : World K :=
  if w.gameState ≠ GameState.playing then w
  else
    let deltaTime := timestamp - w.lastUpdateTime
    let w := beginFrame E timestamp w
    let w := updateEnemies E w
    let w := updatePowerups E deltaTime w
    let w := updateParticles deltaTime w
    let w := spawnEnemies E w
    spawnPowerups E w

/-- Lines 481-489: startGame; the container size and performance.now() are inputs. -/
def startGame (E : Env K) (clientWidth clientHeight performanceNow : K) (w : World K) :
    World K :=
  let w := { w with gameState := GameState.playing }
  let w := resizeCanvas clientWidth clientHeight w
  let w := initGame E w
  { w with lastUpdateTime := performanceNow }

/-- A run of frames: update is called once for each timestamp, in order. -/
def runFrames (E : Env K) (timestamps : List K) (w : World K) : World K :=
  timestamps.foldl (fun w t => update E t w) w

/-! ## Reading the ghost log -/

/-- The log entries appended since the log had the given length. -/
def eventsSince (before : Nat) (w : World K) : List (Event K) :=
  w.trace.drop before

def Event.isGameOver : Event K → Bool
  | Event.gameOver _ => true
  | _ => false

def Event.isEnemyUpdate : Event K → Bool
  | Event.enemyUpdate _ _ => true
  | _ => false

def Event.isSpawn : Event K → Bool
  | Event.enemySpawn _ => true
  | Event.powerupSpawn _ => true
  | _ => false

/-- The number of gameOver() calls in a log. -/
def gameOverCalls (evs : List (Event K)) : Nat :=
  evs.countP Event.isGameOver

/-- The player and an enemy overlap: distance less than the sum of the radii (line 340). -/
def overlaps (E : Env K) (p : Player K) (e : Enemy K) : Prop :=
  distance E p.x p.y e.x e.y < p.radius + e.radius

instance (E : Env K) (p : Player K) (e : Enemy K) : Decidable (overlaps E p e) := by
  unfold overlaps; infer_instance

/-- The part of a frame a log entry is written by. -/
inductive Phase where
  | enemyLoop
  | powerupLoop
  | spawner
  deriving DecidableEq, Repr

/-- Enemy.update and gameOver() are called from the enemy loop only, PowerUp.update and
pick-ups happen in the power-up loop only, constructors run in the two spawners only. -/
def Event.phase : Event K → Phase
  | Event.enemyUpdate _ _ => Phase.enemyLoop
  | Event.gameOver _ => Phase.enemyLoop
  | Event.powerupUpdate _ _ => Phase.powerupLoop
  | Event.pickup _ => Phase.powerupLoop
  | Event.enemySpawn _ => Phase.spawner
  | Event.powerupSpawn _ => Phase.spawner

/-- The state just before turn n of the enemy loop, when the loop starts from w1. -/
def beforeEnemyTurn (E : Env K) (w1 : World K) (n : Nat) : World K :=
  forEachFrom World.enemies (enemyCallback E) n 0 w1

/-- Turn n of the enemy loop started from w1 calls the callback, and the enemy it is
called on overlaps the player after that enemy's update. -/
def overlapAtTurn (E : Env K) (w1 : World K) (n : Nat) : Prop :=
  match (beforeEnemyTurn E w1 n).enemies[n]? with
  | some e => overlaps E (beforeEnemyTurn E w1 n).player (Enemy.update E e (beforeEnemyTurn E w1 n)).1
  | none => False

instance (E : Env K) (w1 : World K) (n : Nat) : Decidable (overlapAtTurn E w1 n) := by
  unfold overlapAtTurn; split <;> infer_instance

/-- The number of turns of the enemy loop started from w1 whose enemy overlaps the player
after its update. -/
def overlapTurns (E : Env K) (w1 : World K) : Nat :=
  (List.range w1.enemies.length).countP (fun n => decide (overlapAtTurn E w1 n))

/-- The state of a Playing frame just before the two spawners run (after line 382). -/
def beforeSpawners (E : Env K) (timestamp : K) (w : World K) : World K :=
  updateParticles (timestamp - w.lastUpdateTime)
    (updatePowerups E (timestamp - w.lastUpdateTime) (updateEnemies E (beginFrame E timestamp w)))

/-- The sqrt of the environment is a square root: on every non-negative argument it is
non-negative and its square is the argument (Math.sqrt over the reals). -/
def Env.SqrtSpec (E : Env K) : Prop :=
  ∀ x : K, 0 ≤ x → 0 ≤ E.sqrt x ∧ E.sqrt x * E.sqrt x = x

/-! ## Concrete scenarios -/

/-- An environment in which every Math.random() draw is 1/2 and Date.now() always
reads 2000; the Math functions are given. -/
def steadyEnv (sqrt cos sin : K → K) (pi : K) : Env K :=
  { sqrt := sqrt, cos := cos, sin := sin, pi := pi,
    random := fun _ => 1 / 2, dateNow := fun _ => 2000 }

/-- An enemy on the point (100, 100) that moves to the right at speed 1.5. -/
def enemyOnPlayer : Enemy K :=
  { radius := CONFIG.ENEMY_RADIUS, color := "#F44336", x := 100, y := 100,
    vx := 1.5, vy := 0, speed := 1.5 }

/-- A second enemy on the point (100, 100), moving down at speed 1.5. -/
def enemyOnPlayerMovingDown : Enemy K :=
  { radius := CONFIG.ENEMY_RADIUS, color := "#F44336", x := 100, y := 100,
    vx := 0, vy := 1.5, speed := 1.5 }

/-- A playing session on a field of 800 by 600: the player stands on (100, 100), the
pointer rests on the player, no key is held, and the given enemies are alive; the
session started at time 0, the last update was at time 0. -/
def arena (shieldTimer : K) (enemies : List (Enemy K)) : World K :=
  { canvasWidth := 800, canvasHeight := 600, lastUpdateTime := 0,
    gameState := GameState.playing, player := Player.new 100 100, enemies := enemies,
    powerups := [], particles := [], score := 0, startTime := 0, timeSurvived := 0,
    lastSpawnTime := 0, currentSpawnInterval := CONFIG.SPAWN_INTERVAL_MS,
    shieldTimer := shieldTimer, slowTimer := 0, mousePos := { x := 100, y := 100 },
    keys := fun _ => false, ENEMY_BASE_SPEED := CONFIG.ENEMY_BASE_SPEED_INITIAL,
    randomCalls := 0, dateNowCalls := 0, trace := [] }

/-- A shield power-up lying on the point (100, 100), freshly created. -/
def shieldOnPlayer : PowerUp K :=
  { type := "shield", radius := 12, x := 100, y := 100, color := "#FFC107", life := 10000 }

/-- The arena without enemies and with the given power-ups. -/
def arenaWithPowerups (shieldTimer : K) (powerups : List (PowerUp K)) : World K :=
  { arena shieldTimer [] with powerups := powerups }

/-- The values of the global variables once the page has loaded (lines 25-46, and the
load handler's resizeCanvas): the start screen is up, the lists are empty, the pointer
target is (0, 0), no key is held.  The variable player is still undefined; the record
holds a placeholder that startGame replaces. -/
def initialWorld (clientWidth clientHeight : K) : World K :=
  { canvasWidth := clientWidth, canvasHeight := clientHeight, lastUpdateTime := 0,
    gameState := GameState.start, player := Player.new 0 0, enemies := [], powerups := [],
    particles := [], score := 0, startTime := 0, timeSurvived := 0, lastSpawnTime := 0,
    currentSpawnInterval := CONFIG.SPAWN_INTERVAL_MS, shieldTimer := 0, slowTimer := 0,
    mousePos := { x := 0, y := 0 }, keys := fun _ => false,
    ENEMY_BASE_SPEED := CONFIG.ENEMY_BASE_SPEED_INITIAL,
    randomCalls := 0, dateNowCalls := 0, trace := [] }

/-- A shield power-up as the constructor builds it (radius 12, life 10000), put on a
given point. -/
def shieldAt (x y : K) : PowerUp K :=
  { type := "shield", radius := 12, x := x, y := y, color := "#FFC107", life := 10000 }

/-- A freshly started session (startGame from w0, which supplies the pointer target and
the held keys) into which a single shield power-up has been put on the player's position,
the field centre. -/
def startedWithShield (E : Env K) (clientWidth clientHeight performanceNow : K)
    (w0 : World K) : World K :=
  { startGame E clientWidth clientHeight performanceNow w0 with
    powerups := [shieldAt (clientWidth / 2) (clientHeight / 2)] }

/-- Math.random() returns numbers from 0 (inclusive) up to 1 (exclusive). -/
def Env.RandomSpec (E : Env K) : Prop :=
  ∀ n : Nat, 0 ≤ E.random n ∧ E.random n < 1

/-- The arena with the pointer target at (200, 100) and the listed keys held. -/
def arenaWithKeys (held : List String) : World K :=
  { arena 0 [] with mousePos := { x := 200, y := 100 }, keys := fun k => held.contains k }

/-- No key is held. -/
def noKeyHeld (w : World K) : Prop := ∀ k : String, w.keys k = false

/-- At least one of the twelve directional keys of lines 106-109 is held. -/
def directionalKeyHeld (w : World K) : Prop :=
  w.keys "w" ∨ w.keys "W" ∨ w.keys "ArrowUp" ∨ w.keys "s" ∨ w.keys "S" ∨ w.keys "ArrowDown" ∨
  w.keys "a" ∨ w.keys "A" ∨ w.keys "ArrowLeft" ∨ w.keys "d" ∨ w.keys "D" ∨ w.keys "ArrowRight"

/-- The two power-up timers lie between 0 and their full durations. -/
def timersInRange (w : World K) : Prop :=
  0 ≤ w.shieldTimer ∧ w.shieldTimer ≤ CONFIG.SHIELD_DURATION_S ∧
  0 ≤ w.slowTimer ∧ w.slowTimer ≤ CONFIG.SLOW_DURATION_S

/-- The timestamps of a run of frames never go back: the first is not before the given
start, every later one is not before the one preceding it. -/
def framesInOrder (start : K) (timestamps : List K) : Prop :=
  List.Chain (fun a b => a ≤ b) start timestamps

/-- A clock that stands still at 2000 and a Math.random() that returns 0 on every fourth
call (calls 0, 4, 8, ...) and 1/2 on all others. -/
def spawningEnv (sqrt cos sin : K → K) (pi : K) : Env K :=
  { sqrt := sqrt, cos := cos, sin := sin, pi := pi,
    random := fun n => if n % 4 = 0 then 0 else 1 / 2, dateNow := fun _ => 2000 }

/-- A slow power-up as the constructor builds it (radius 12, life 10000), put on a
given point. -/
def slowAt (x y : K) : PowerUp K :=
  { type := "slow", radius := 12, x := x, y := y, color := "#2196F3", life := 10000 }

/-! ## Closed forms used in statements -/

/-- The particle that one turn of the loop of createParticleBurst builds when
Math.random() has been called i times before: it uses draws i, i+1, i+2, i+3. -/
def particleAt (E : Env K) (x y : K) (color : String) (i : Nat) : Particle K :=
  (burstParticle E x y color
    { canvasWidth := 0, canvasHeight := 0, lastUpdateTime := 0, gameState := GameState.start,
      player := Player.new 0 0, enemies := [], powerups := [], particles := [], score := 0,
      startTime := 0, timeSurvived := 0, lastSpawnTime := 0, currentSpawnInterval := 0,
      shieldTimer := 0, slowTimer := 0, mousePos := { x := 0, y := 0 }, keys := fun _ => false,
      ENEMY_BASE_SPEED := 0, randomCalls := i, dateNowCalls := 0, trace := [] }).1

/-- The particles that createParticleBurst pushes, in order, when Math.random()
has been called i times before. -/
def burstList (E : Env K) (x y : K) (color : String) : Nat → Nat → List (Particle K)
  | 0, _ => []
  | count + 1, i => particleAt E x y color i :: burstList E x y color count (i + 4)

/-- The enemy that Enemy.update produces from e for a given player, slow timer and
pair of noise draws. -/
def Enemy.steered (E : Env K) (e : Enemy K) (player : Player K) (slowTimer r1 r2 : K) : Enemy K :=
  (Enemy.update (K := K)
    { E with random := fun n => if n = 0 then r1 else r2 } e
    { canvasWidth := 0, canvasHeight := 0, lastUpdateTime := 0, gameState := GameState.start,
      player := player, enemies := [], powerups := [], particles := [], score := 0,
      startTime := 0, timeSurvived := 0, lastSpawnTime := 0, currentSpawnInterval := 0,
      shieldTimer := 0, slowTimer := slowTimer, mousePos := { x := 0, y := 0 },
      keys := fun _ => false, ENEMY_BASE_SPEED := 0, randomCalls := 0, dateNowCalls := 0,
      trace := [] }).1

/-! ## Lemmas and theorems -/

set_option linter.unusedSectionVars false

/-! ### Particle bursts -/

theorem burstParticle_eq (E : Env K) (x y : K) (color : String) (w : World K) :
    burstParticle E x y color w =
      (particleAt E x y color w.randomCalls, { w with randomCalls := w.randomCalls + 4 }) := rfl

theorem Enemy.update_eq (E : Env K) (e : Enemy K) (w : World K) :
    Enemy.update E e w =
      (Enemy.steered E e w.player w.slowTimer (E.random w.randomCalls) (E.random (w.randomCalls + 1)),
       { w with randomCalls := w.randomCalls + 2 }) := by
  simp [Enemy.update, Enemy.steered, random, normalize]

theorem pushParticles_eq (E : Env K) (x y : K) (color : String) (count : Nat) (w : World K) :
    pushParticles E x y color count w =
      { w with particles := w.particles ++ burstList E x y color count w.randomCalls,
               randomCalls := w.randomCalls + 4 * count } := by
  induction count generalizing w with
  | zero => simp [pushParticles, burstList]
  | succ n ih =>
    simp only [pushParticles, burstParticle_eq, ih, burstList, List.append_assoc, List.singleton_append]
    congr 1
    omega

theorem burstList_length (E : Env K) (x y : K) (color : String) (count i : Nat) :
    (burstList E x y color count i).length = count := by
  induction count generalizing i with
  | zero => rfl
  | succ n ih => simp [burstList, ih]

theorem burstList_position (E : Env K) (x y : K) (color : String) (count i : Nat) :
    ∀ p ∈ burstList E x y color count i, p.x = x ∧ p.y = y ∧ p.color = color := by
  induction count generalizing i with
  | zero => simp [burstList]
  | succ n ih =>
    intro p hp
    simp only [burstList, List.mem_cons] at hp
    rcases hp with rfl | hp
    · exact ⟨rfl, rfl, rfl⟩
    · exact ih _ p hp

theorem shiftParticles_eq_drop {α : Type} (ps : List α) :
    shiftParticles ps = ps.drop (ps.length - CONFIG.MAX_PARTICLES) := by
  induction ps with
  | nil => simp [shiftParticles]
  | cons p ps ih =>
    unfold shiftParticles
    by_cases h : (p :: ps).length > CONFIG.MAX_PARTICLES
    · rw [if_pos h, ih]
      simp only [List.length_cons] at h ⊢
      have : ps.length + 1 - CONFIG.MAX_PARTICLES = (ps.length - CONFIG.MAX_PARTICLES) + 1 := by omega
      rw [this, List.drop_succ_cons]
    · rw [if_neg h]
      simp only [List.length_cons] at h ⊢
      have : ps.length + 1 - CONFIG.MAX_PARTICLES = 0 := by omega
      rw [this, List.drop_zero]

theorem shiftParticles_length_le {α : Type} (ps : List α) :
    (shiftParticles ps).length ≤ CONFIG.MAX_PARTICLES := by
  rw [shiftParticles_eq_drop, List.length_drop]; omega

theorem createParticleBurst_eq (E : Env K) (x y : K) (count : Nat) (color : String) (w : World K) :
    createParticleBurst E x y count color w =
      { w with particles := shiftParticles (w.particles ++ burstList E x y color count w.randomCalls),
               randomCalls := w.randomCalls + 4 * count } := by
  simp [createParticleBurst, pushParticles_eq]

/-! ### The player -/

theorem Player.update_radius (E : Env K) (w : World K) :
    (Player.update E w).player.radius = w.player.radius := by
  simp only [Player.update, Player.moved]
  split <;> rfl

/-- C1: after Player.update the player lies inside the field shrunk by the radius -/
theorem player_update_within_bounds (E : Env K) (w : World K)
    (hw : 2 * w.player.radius ≤ w.canvasWidth) (hh : 2 * w.player.radius ≤ w.canvasHeight) :
    (Player.update E w).player.radius = w.player.radius ∧
    w.player.radius ≤ (Player.update E w).player.x ∧
    (Player.update E w).player.x ≤ w.canvasWidth - w.player.radius ∧
    w.player.radius ≤ (Player.update E w).player.y ∧
    (Player.update E w).player.y ≤ w.canvasHeight - w.player.radius := by
  have hr : (Player.moved E w).radius = w.player.radius := by
    simp only [Player.moved]; split <;> rfl
  refine ⟨Player.update_radius E w, ?_, ?_, ?_, ?_⟩ <;> simp only [Player.update, hr]
  · exact le_max_left _ _
  · exact max_le (by linarith) (min_le_left _ _)
  · exact le_max_left _ _
  · exact max_le (by linarith) (min_le_left _ _)

/-! ### forEach -/

theorem forEachFrom_add {σ α : Type} (arr : σ → List α) (cb : α → Nat → σ → σ)
    (a b k : Nat) (s : σ) :
    forEachFrom arr cb (a + b) k s = forEachFrom arr cb b (k + a) (forEachFrom arr cb a k s) := by
  induction a generalizing k s with
  | zero => simp [forEachFrom]
  | succ a ih =>
    rw [Nat.add_right_comm]
    simp only [forEachFrom]
    rw [ih]
    congr 1
    omega

theorem forEachFrom_succ_last {σ α : Type} (arr : σ → List α) (cb : α → Nat → σ → σ)
    (n k : Nat) (s : σ) :
    forEachFrom arr cb (n + 1) k s = forEachStep arr cb (k + n) (forEachFrom arr cb n k s) := by
  rw [forEachFrom_add]
  rfl

theorem forEachStep_invariant {σ α : Type} (arr : σ → List α) (cb : α → Nat → σ → σ)
    (P : σ → Prop) (hcb : ∀ a k s, (arr s)[k]? = some a → P s → P (cb a k s))
    (k : Nat) (s : σ) (hs : P s) : P (forEachStep arr cb k s) := by
  unfold forEachStep
  cases h : (arr s)[k]? with
  | none => exact hs
  | some a => exact hcb a k s h hs

theorem forEachFrom_invariant {σ α : Type} (arr : σ → List α) (cb : α → Nat → σ → σ)
    (P : σ → Prop) (hcb : ∀ a k s, (arr s)[k]? = some a → P s → P (cb a k s))
    (n k : Nat) (s : σ) (hs : P s) : P (forEachFrom arr cb n k s) := by
  induction n generalizing k s with
  | zero => exact hs
  | succ n ih => exact ih _ _ (forEachStep_invariant arr cb P hcb k s hs)

theorem forEach_invariant {σ α : Type} (arr : σ → List α) (cb : α → Nat → σ → σ)
    (P : σ → Prop) (hcb : ∀ a k s, (arr s)[k]? = some a → P s → P (cb a k s))
    (s : σ) (hs : P s) : P (forEach arr cb s) :=
  forEachFrom_invariant arr cb P hcb _ _ s hs

/-- The loop from a later turn on: after the first n turns the remaining turns follow. -/
theorem forEach_split {σ α : Type} (arr : σ → List α) (cb : α → Nat → σ → σ)
    (n : Nat) (s : σ) (hn : n ≤ (arr s).length) :
    forEach arr cb s =
      forEachFrom arr cb ((arr s).length - n) n (forEachFrom arr cb n 0 s) := by
  unfold forEach
  have h : (arr s).length = n + ((arr s).length - n) := by omega
  conv_lhs => rw [h]
  rw [forEachFrom_add, Nat.zero_add]

/-! ### Closed forms of the loop callbacks -/

/-- Closed form of the enemy callback. -/
theorem enemyCallback_eq (E : Env K) (enemy : Enemy K) (index : Nat) (w : World K) :
    enemyCallback E enemy index w =
      if overlaps E w.player (Enemy.update E enemy w).1 then
        if w.shieldTimer > 0 then
          { w with
            enemies := (w.enemies.set index (Enemy.update E enemy w).1).eraseIdx index,
            particles := shiftParticles (w.particles ++
              burstList E (Enemy.update E enemy w).1.x (Enemy.update E enemy w).1.y "#FFC107"
                CONFIG.PARTICLE_COUNT_COLLISION (w.randomCalls + 2)),
            randomCalls := w.randomCalls + 2 + 4 * CONFIG.PARTICLE_COUNT_COLLISION,
            trace := w.trace ++ [Event.enemyUpdate index enemy] }
        else
          { w with
            gameState := GameState.gameOver,
            enemies := w.enemies.set index (Enemy.update E enemy w).1,
            particles := shiftParticles (w.particles ++
              burstList E w.player.x w.player.y "#F44336"
                (CONFIG.PARTICLE_COUNT_COLLISION * 2) (w.randomCalls + 2)),
            randomCalls := w.randomCalls + 2 + 4 * (CONFIG.PARTICLE_COUNT_COLLISION * 2),
            trace := w.trace ++ [Event.enemyUpdate index enemy, Event.gameOver (w.timeSurvived / 10)] }
      else
        { w with
          enemies := w.enemies.set index (Enemy.update E enemy w).1,
          randomCalls := w.randomCalls + 2,
          trace := w.trace ++ [Event.enemyUpdate index enemy] } := by
  unfold enemyCallback overlaps
  by_cases h1 : distance E w.player.x w.player.y (Enemy.update E enemy w).1.x (Enemy.update E enemy w).1.y < w.player.radius + (Enemy.update E enemy w).1.radius
  · by_cases h2 : w.shieldTimer > 0
    · simp only [Enemy.update_eq] at h1 ⊢
      simp only [h1, h2, if_true, createParticleBurst_eq]
    · simp only [Enemy.update_eq] at h1 ⊢
      rw [if_pos h1, if_neg h2]
      rw [createParticleBurst_eq]
      unfold gameOver
      simp only [List.append_assoc, List.singleton_append]
      rw [if_pos h1, if_neg h2]
  · simp only [Enemy.update_eq] at h1 ⊢
    simp only [h1, if_false]

/-- Closed form of the power-up callback. -/
theorem powerupCallback_eq (E : Env K) (deltaTime : K) (powerup : PowerUp K) (index : Nat)
    (w : World K) :
    powerupCallback E deltaTime powerup index w =
      if (powerup.update deltaTime).life ≤ 0 then
        { w with
          powerups := (w.powerups.set index (powerup.update deltaTime)).eraseIdx index,
          trace := w.trace ++ [Event.powerupUpdate index powerup] }
      else if distance E w.player.x w.player.y powerup.x powerup.y
          < w.player.radius + powerup.radius then
        if powerup.type = "shield" then
          { w with
            shieldTimer := CONFIG.SHIELD_DURATION_S,
            powerups := (w.powerups.set index (powerup.update deltaTime)).eraseIdx index,
            particles := shiftParticles (w.particles ++
              burstList E powerup.x powerup.y "#FFC107" CONFIG.PARTICLE_COUNT_POWERUP w.randomCalls),
            randomCalls := w.randomCalls + 4 * CONFIG.PARTICLE_COUNT_POWERUP,
            trace := w.trace ++ [Event.powerupUpdate index powerup,
              Event.pickup (powerup.update deltaTime)] }
        else if powerup.type = "slow" then
          { w with
            slowTimer := CONFIG.SLOW_DURATION_S,
            powerups := (w.powerups.set index (powerup.update deltaTime)).eraseIdx index,
            particles := shiftParticles (w.particles ++
              burstList E powerup.x powerup.y "#2196F3" CONFIG.PARTICLE_COUNT_POWERUP w.randomCalls),
            randomCalls := w.randomCalls + 4 * CONFIG.PARTICLE_COUNT_POWERUP,
            trace := w.trace ++ [Event.powerupUpdate index powerup,
              Event.pickup (powerup.update deltaTime)] }
        else
          { w with
            powerups := (w.powerups.set index (powerup.update deltaTime)).eraseIdx index,
            trace := w.trace ++ [Event.powerupUpdate index powerup,
              Event.pickup (powerup.update deltaTime)] }
      else
        { w with
          powerups := w.powerups.set index (powerup.update deltaTime),
          trace := w.trace ++ [Event.powerupUpdate index powerup] } := by
  simp only [powerupCallback, createParticleBurst_eq, PowerUp.update]
  split_ifs <;> simp

/-! ### Which variables each part of the frame assigns -/

theorem enemyCallback_frame (E : Env K) (a : Enemy K) (k : Nat) (w : World K) :
    ∃ gs es ps rc tr, enemyCallback E a k w =
      { w with gameState := gs, enemies := es, particles := ps, randomCalls := rc, trace := tr } := by
  rw [enemyCallback_eq]
  split_ifs <;> exact ⟨_, _, _, _, _, rfl⟩

theorem enemyLoop_frame (E : Env K) (n k : Nat) (w : World K) :
    ∃ gs es ps rc tr, forEachFrom World.enemies (enemyCallback E) n k w =
      { w with gameState := gs, enemies := es, particles := ps, randomCalls := rc, trace := tr } := by
  apply forEachFrom_invariant World.enemies (enemyCallback E)
    (fun s => ∃ gs es ps rc tr, s =
      { w with gameState := gs, enemies := es, particles := ps, randomCalls := rc, trace := tr })
  · rintro a j s - ⟨gs, es, ps, rc, tr, hs⟩
    obtain ⟨gs', es', ps', rc', tr', h⟩ := enemyCallback_frame E a j s
    exact ⟨gs', es', ps', rc', tr', by rw [h, hs]⟩
  · exact ⟨_, _, _, _, _, rfl⟩

theorem powerupCallback_frame (E : Env K) (dt : K) (a : PowerUp K) (k : Nat) (w : World K) :
    ∃ sh sl pu ps rc tr, powerupCallback E dt a k w =
      { w with shieldTimer := sh, slowTimer := sl, powerups := pu, particles := ps,
               randomCalls := rc, trace := tr } := by
  rw [powerupCallback_eq]
  split_ifs <;> exact ⟨_, _, _, _, _, _, rfl⟩

theorem powerupLoop_frame (E : Env K) (dt : K) (n k : Nat) (w : World K) :
    ∃ sh sl pu ps rc tr, forEachFrom World.powerups (powerupCallback E dt) n k w =
      { w with shieldTimer := sh, slowTimer := sl, powerups := pu, particles := ps,
               randomCalls := rc, trace := tr } := by
  apply forEachFrom_invariant World.powerups (powerupCallback E dt)
    (fun s => ∃ sh sl pu ps rc tr, s =
      { w with shieldTimer := sh, slowTimer := sl, powerups := pu, particles := ps,
               randomCalls := rc, trace := tr })
  · rintro a j s - ⟨sh, sl, pu, ps, rc, tr, hs⟩
    obtain ⟨sh', sl', pu', ps', rc', tr', h⟩ := powerupCallback_frame E dt a j s
    exact ⟨sh', sl', pu', ps', rc', tr', by rw [h, hs]⟩
  · exact ⟨_, _, _, _, _, _, rfl⟩

theorem particleCallback_eq (dt : K) (a : Particle K) (k : Nat) (w : World K) :
    particleCallback dt a k w =
      { w with particles :=
          if (a.update dt).life ≤ 0 then (w.particles.set k (a.update dt)).eraseIdx k
          else w.particles.set k (a.update dt) } := by
  by_cases h : (a.update dt).life ≤ 0 <;> simp [particleCallback, h]

theorem particleLoop_frame (dt : K) (n k : Nat) (w : World K) :
    ∃ ps, forEachFrom World.particles (particleCallback dt) n k w = { w with particles := ps } := by
  apply forEachFrom_invariant World.particles (particleCallback dt)
    (fun s => ∃ ps, s = { w with particles := ps })
  · rintro a j s - ⟨ps, hs⟩
    exact ⟨_, by rw [particleCallback_eq, hs]⟩
  · exact ⟨_, rfl⟩

theorem Enemy.new_snd (E : Env K) (w : World K) :
    (Enemy.new E w).2 = { w with randomCalls := w.randomCalls + 2 } := by
  simp only [Enemy.new, randomInt, random]
  split_ifs <;> rfl

theorem PowerUp.new_eq (E : Env K) (type : String) (w : World K) :
    PowerUp.new E type w =
      ((PowerUp.new E type w).1, { w with randomCalls := w.randomCalls + 2 }) := rfl

/-- Closed form of the enemy spawner. -/
theorem spawnEnemies_eq (E : Env K) (w : World K) :
    spawnEnemies E w =
      if E.dateNow w.dateNowCalls - w.lastSpawnTime > w.currentSpawnInterval ∧
          w.enemies.length < CONFIG.MAX_ENEMIES then
        { w with
          enemies := (w.enemies ++ [(Enemy.new E w).1]).map
            (fun e => { e with speed := min CONFIG.ENEMY_MAX_SPEED (w.ENEMY_BASE_SPEED + 0.005) }),
          randomCalls := w.randomCalls + 2,
          dateNowCalls := w.dateNowCalls + 2,
          trace := w.trace ++ [Event.enemySpawn (Enemy.new E w).1],
          lastSpawnTime := E.dateNow (w.dateNowCalls + 1),
          currentSpawnInterval :=
            max CONFIG.MIN_SPAWN_INTERVAL_MS (w.currentSpawnInterval * CONFIG.DIFFICULTY_FACTOR),
          ENEMY_BASE_SPEED := min CONFIG.ENEMY_MAX_SPEED (w.ENEMY_BASE_SPEED + 0.005) }
      else { w with dateNowCalls := w.dateNowCalls + 1 } := by
  have hfst : ∀ d : Nat, (Enemy.new E { w with dateNowCalls := d }).1 = (Enemy.new E w).1 := by
    intro d
    simp only [Enemy.new, randomInt, random]
    split_ifs <;> rfl
  unfold spawnEnemies
  simp only [dateNow, Enemy.new_snd, hfst]

theorem spawnEnemies_frame (E : Env K) (w : World K) :
    ∃ es rc dc tr ls si bs, spawnEnemies E w =
      { w with enemies := es, randomCalls := rc, dateNowCalls := dc, trace := tr,
               lastSpawnTime := ls, currentSpawnInterval := si, ENEMY_BASE_SPEED := bs } := by
  rw [spawnEnemies_eq]
  split_ifs <;> exact ⟨_, _, _, _, _, _, _, rfl⟩

/-- Closed form of the power-up spawner. -/
theorem spawnPowerups_eq (E : Env K) (w : World K) :
    spawnPowerups E w =
      if E.random w.randomCalls < CONFIG.POWERUP_SPAWN_CHANCE ∧ w.powerups.length < 2 then
        { w with
          powerups := w.powerups ++
            [(PowerUp.new E (if E.random (w.randomCalls + 1) < 0.5 then "shield" else "slow")
                { w with randomCalls := w.randomCalls + 2 }).1],
          randomCalls := w.randomCalls + 4,
          trace := w.trace ++
            [Event.powerupSpawn
              (PowerUp.new E (if E.random (w.randomCalls + 1) < 0.5 then "shield" else "slow")
                { w with randomCalls := w.randomCalls + 2 }).1] }
      else { w with randomCalls := w.randomCalls + 1 } := by
  unfold spawnPowerups
  simp only [random]
  rw [PowerUp.new_eq]

theorem spawnPowerups_frame (E : Env K) (w : World K) :
    ∃ pu rc tr, spawnPowerups E w = { w with powerups := pu, randomCalls := rc, trace := tr } := by
  rw [spawnPowerups_eq]
  split_ifs <;> exact ⟨_, _, _, rfl⟩

theorem beginFrame_frame (E : Env K) (t : K) (w : World K) :
    ∃ p ts dc, beginFrame E t w =
      { w with lastUpdateTime := t, dateNowCalls := dc, timeSurvived := ts, player := p,
               shieldTimer := max 0 (w.shieldTimer - (t - w.lastUpdateTime) / 1000),
               slowTimer := max 0 (w.slowTimer - (t - w.lastUpdateTime) / 1000) } :=
  ⟨_, _, _, rfl⟩

/-! ### The log of a frame -/

theorem enemyCallback_trace (E : Env K) (a : Enemy K) (k : Nat) (w : World K) :
    ∃ ext, (enemyCallback E a k w).trace = w.trace ++ ext ∧
      ∀ ev ∈ ext, Event.phase ev = Phase.enemyLoop := by
  rw [enemyCallback_eq]
  split_ifs <;> exact ⟨_, rfl, by simp [Event.phase]⟩

theorem enemyLoop_trace (E : Env K) (n k : Nat) (w : World K) :
    ∃ ext, (forEachFrom World.enemies (enemyCallback E) n k w).trace = w.trace ++ ext ∧
      ∀ ev ∈ ext, Event.phase ev = Phase.enemyLoop := by
  apply forEachFrom_invariant World.enemies (enemyCallback E)
    (fun s => ∃ ext, s.trace = w.trace ++ ext ∧ ∀ ev ∈ ext, Event.phase ev = Phase.enemyLoop)
  · rintro a j s - ⟨ext, hs, hext⟩
    obtain ⟨ext', h, hext'⟩ := enemyCallback_trace E a j s
    refine ⟨ext ++ ext', by rw [h, hs, List.append_assoc], ?_⟩
    intro ev hev
    rcases List.mem_append.1 hev with h | h
    · exact hext ev h
    · exact hext' ev h
  · exact ⟨[], by simp, by simp⟩

theorem powerupCallback_trace (E : Env K) (dt : K) (a : PowerUp K) (k : Nat) (w : World K) :
    ∃ ext, (powerupCallback E dt a k w).trace = w.trace ++ ext ∧
      ∀ ev ∈ ext, Event.phase ev = Phase.powerupLoop := by
  rw [powerupCallback_eq]
  split_ifs <;> exact ⟨_, rfl, by simp [Event.phase]⟩

theorem powerupLoop_trace (E : Env K) (dt : K) (n k : Nat) (w : World K) :
    ∃ ext, (forEachFrom World.powerups (powerupCallback E dt) n k w).trace = w.trace ++ ext ∧
      ∀ ev ∈ ext, Event.phase ev = Phase.powerupLoop := by
  apply forEachFrom_invariant World.powerups (powerupCallback E dt)
    (fun s => ∃ ext, s.trace = w.trace ++ ext ∧ ∀ ev ∈ ext, Event.phase ev = Phase.powerupLoop)
  · rintro a j s - ⟨ext, hs, hext⟩
    obtain ⟨ext', h, hext'⟩ := powerupCallback_trace E dt a j s
    refine ⟨ext ++ ext', by rw [h, hs, List.append_assoc], ?_⟩
    intro ev hev
    rcases List.mem_append.1 hev with h | h
    · exact hext ev h
    · exact hext' ev h
  · exact ⟨[], by simp, by simp⟩

theorem updateParticles_trace (dt : K) (w : World K) :
    (updateParticles dt w).trace = w.trace := by
  obtain ⟨ps, h⟩ := particleLoop_frame dt w.particles.length 0 w
  unfold updateParticles forEach
  rw [h]

theorem spawnEnemies_trace (E : Env K) (w : World K) :
    ∃ ext, (spawnEnemies E w).trace = w.trace ++ ext ∧
      ∀ ev ∈ ext, Event.phase ev = Phase.spawner := by
  rw [spawnEnemies_eq]
  split_ifs
  · exact ⟨_, rfl, by simp [Event.phase]⟩
  · exact ⟨[], by simp, by simp⟩

theorem spawnPowerups_trace (E : Env K) (w : World K) :
    ∃ ext, (spawnPowerups E w).trace = w.trace ++ ext ∧
      ∀ ev ∈ ext, Event.phase ev = Phase.spawner := by
  rw [spawnPowerups_eq]
  by_cases h : E.random w.randomCalls < CONFIG.POWERUP_SPAWN_CHANCE ∧ w.powerups.length < 2
  · rw [if_pos h]
    exact ⟨_, rfl, by simp [Event.phase]⟩
  · rw [if_neg h]
    exact ⟨[], by simp, by simp⟩

theorem beginFrame_trace (E : Env K) (t : K) (w : World K) :
    (beginFrame E t w).trace = w.trace := rfl

/-- One frame in the playing state, as the sequence of its parts. -/
theorem update_playing (E : Env K) (t : K) (w : World K) (h : w.gameState = GameState.playing) :
    update E t w =
      spawnPowerups E (spawnEnemies E (updateParticles (t - w.lastUpdateTime)
        (updatePowerups E (t - w.lastUpdateTime) (updateEnemies E (beginFrame E t w))))) := by
  unfold update
  rw [if_neg (by simp [h])]

/-- The log of a frame: the entries of the enemy loop, then those of the power-up loop,
then those of the spawners. -/
theorem update_trace (E : Env K) (t : K) (w : World K) (h : w.gameState = GameState.playing) :
    ∃ a b c,
      (updateEnemies E (beginFrame E t w)).trace = w.trace ++ a ∧
      (updatePowerups E (t - w.lastUpdateTime) (updateEnemies E (beginFrame E t w))).trace
        = w.trace ++ a ++ b ∧
      (update E t w).trace = w.trace ++ a ++ b ++ c ∧
      (∀ ev ∈ a, Event.phase ev = Phase.enemyLoop) ∧
      (∀ ev ∈ b, Event.phase ev = Phase.powerupLoop) ∧
      (∀ ev ∈ c, Event.phase ev = Phase.spawner) := by
  obtain ⟨a, ha, hpa⟩ := enemyLoop_trace E (beginFrame E t w).enemies.length 0 (beginFrame E t w)
  obtain ⟨b, hb, hpb⟩ := powerupLoop_trace E (t - w.lastUpdateTime)
    (updateEnemies E (beginFrame E t w)).powerups.length 0 (updateEnemies E (beginFrame E t w))
  obtain ⟨c1, hc1, hpc1⟩ := spawnEnemies_trace E (updateParticles (t - w.lastUpdateTime)
    (updatePowerups E (t - w.lastUpdateTime) (updateEnemies E (beginFrame E t w))))
  obtain ⟨c2, hc2, hpc2⟩ := spawnPowerups_trace E (spawnEnemies E (updateParticles (t - w.lastUpdateTime)
    (updatePowerups E (t - w.lastUpdateTime) (updateEnemies E (beginFrame E t w)))))
  have ha' : (updateEnemies E (beginFrame E t w)).trace = w.trace ++ a := by
    rw [← beginFrame_trace E t w]; exact ha
  have hb' : (updatePowerups E (t - w.lastUpdateTime) (updateEnemies E (beginFrame E t w))).trace
      = w.trace ++ a ++ b := by
    rw [← ha']; exact hb
  refine ⟨a, b, c1 ++ c2, ha', hb', ?_, hpa, hpb, ?_⟩
  · rw [update_playing E t w h, hc2, hc1, updateParticles_trace, hb', List.append_assoc _ c1 c2]
  · intro ev hev
    rcases List.mem_append.1 hev with h | h
    · exact hpc1 ev h
    · exact hpc2 ev h

/-! ### The enemy loop, turn by turn -/

theorem beforeEnemyTurn_zero (E : Env K) (w1 : World K) : beforeEnemyTurn E w1 0 = w1 := rfl

theorem beforeEnemyTurn_succ (E : Env K) (w1 : World K) (n : Nat) :
    beforeEnemyTurn E w1 (n + 1) =
      forEachStep World.enemies (enemyCallback E) n (beforeEnemyTurn E w1 n) := by
  unfold beforeEnemyTurn
  rw [forEachFrom_succ_last, Nat.zero_add]

theorem updateEnemies_eq_turn (E : Env K) (w1 : World K) :
    updateEnemies E w1 = beforeEnemyTurn E w1 w1.enemies.length := rfl

theorem beforeEnemyTurn_frame (E : Env K) (w1 : World K) (n : Nat) :
    ∃ gs es ps rc tr, beforeEnemyTurn E w1 n =
      { w1 with gameState := gs, enemies := es, particles := ps, randomCalls := rc, trace := tr } :=
  enemyLoop_frame E n 0 w1

theorem beforeEnemyTurn_shieldTimer (E : Env K) (w1 : World K) (n : Nat) :
    (beforeEnemyTurn E w1 n).shieldTimer = w1.shieldTimer := by
  obtain ⟨gs, es, ps, rc, tr, h⟩ := beforeEnemyTurn_frame E w1 n
  rw [h]

theorem beforeEnemyTurn_player (E : Env K) (w1 : World K) (n : Nat) :
    (beforeEnemyTurn E w1 n).player = w1.player := by
  obtain ⟨gs, es, ps, rc, tr, h⟩ := beforeEnemyTurn_frame E w1 n
  rw [h]

theorem gameOverCalls_append (a b : List (Event K)) :
    gameOverCalls (a ++ b) = gameOverCalls a + gameOverCalls b := by
  simp [gameOverCalls, List.countP_append]

theorem gameOverCalls_of_phase (a : List (Event K))
    (h : ∀ ev ∈ a, Event.phase ev ≠ Phase.enemyLoop) : gameOverCalls a = 0 := by
  unfold gameOverCalls
  rw [List.countP_eq_zero]
  intro ev hev
  have := h ev hev
  cases ev <;> simp_all [Event.isGameOver, Event.phase]

theorem forEachStep_some {σ α : Type} (arr : σ → List α) (cb : α → Nat → σ → σ) (k : Nat)
    (s : σ) (a : α) (h : (arr s)[k]? = some a) : forEachStep arr cb k s = cb a k s := by
  unfold forEachStep; rw [h]

theorem forEachStep_none {σ α : Type} (arr : σ → List α) (cb : α → Nat → σ → σ) (k : Nat)
    (s : σ) (h : (arr s)[k]? = none) : forEachStep arr cb k s = s := by
  unfold forEachStep; rw [h]

theorem overlapAtTurn_some (E : Env K) (w1 : World K) (n : Nat) (e : Enemy K)
    (h : (beforeEnemyTurn E w1 n).enemies[n]? = some e) :
    overlapAtTurn E w1 n ↔
      overlaps E (beforeEnemyTurn E w1 n).player (Enemy.update E e (beforeEnemyTurn E w1 n)).1 := by
  unfold overlapAtTurn; rw [h]

theorem overlapAtTurn_none (E : Env K) (w1 : World K) (n : Nat)
    (h : (beforeEnemyTurn E w1 n).enemies[n]? = none) : ¬ overlapAtTurn E w1 n := by
  unfold overlapAtTurn; rw [h]; exact id

/-- One turn of the enemy loop calls gameOver() once when its enemy overlaps the player
and the shield is off, and not at all otherwise. -/
theorem enemyTurn_gameOverCalls (E : Env K) (w1 : World K) (n : Nat) :
    gameOverCalls (beforeEnemyTurn E w1 (n + 1)).trace =
      gameOverCalls (beforeEnemyTurn E w1 n).trace +
        (if overlapAtTurn E w1 n ∧ ¬ 0 < w1.shieldTimer then 1 else 0) := by
  rw [beforeEnemyTurn_succ]
  cases hget : (beforeEnemyTurn E w1 n).enemies[n]? with
  | none =>
    rw [forEachStep_none _ _ _ _ hget, if_neg (fun h => overlapAtTurn_none E w1 n hget h.1)]
    rfl
  | some e =>
    rw [forEachStep_some _ _ _ _ e hget, enemyCallback_eq, beforeEnemyTurn_shieldTimer]
    by_cases hov : overlaps E (beforeEnemyTurn E w1 n).player (Enemy.update E e (beforeEnemyTurn E w1 n)).1
    · have hov' := (overlapAtTurn_some E w1 n e hget).2 hov
      by_cases hsh : w1.shieldTimer > 0
      · rw [if_pos hov, if_pos hsh, if_neg (fun h => h.2 hsh)]
        simp [gameOverCalls_append, gameOverCalls, Event.isGameOver]
      · rw [if_pos hov, if_neg hsh, if_pos ⟨hov', hsh⟩]
        simp [gameOverCalls_append, gameOverCalls, Event.isGameOver]
    · rw [if_neg hov, if_neg (fun h => hov ((overlapAtTurn_some E w1 n e hget).1 h.1))]
      simp [gameOverCalls_append, gameOverCalls, Event.isGameOver]

/-- While the shield is off, the gameOver() calls made by the first m turns of the enemy
loop are as many as the turns among them whose enemy overlaps the player. -/
theorem enemyTurns_gameOverCalls (E : Env K) (w1 : World K) (hsh : ¬ 0 < w1.shieldTimer)
    (m : Nat) :
    gameOverCalls (beforeEnemyTurn E w1 m).trace =
      gameOverCalls w1.trace +
        (List.range m).countP (fun n => decide (overlapAtTurn E w1 n)) := by
  induction m with
  | zero => simp [beforeEnemyTurn_zero]
  | succ m ih =>
    rw [enemyTurn_gameOverCalls, ih, List.range_succ, List.countP_append]
    by_cases h : overlapAtTurn E w1 m
    · simp [h, hsh, List.countP_cons, Nat.add_assoc]
    · simp [h, List.countP_cons]

/-- A turn whose enemy overlaps the player while the shield is off leaves the state GameOver. -/
theorem enemyTurn_gameState (E : Env K) (w1 : World K) (hsh : ¬ 0 < w1.shieldTimer) (n : Nat)
    (hov : overlapAtTurn E w1 n) :
    (beforeEnemyTurn E w1 (n + 1)).gameState = GameState.gameOver := by
  rw [beforeEnemyTurn_succ]
  cases hget : (beforeEnemyTurn E w1 n).enemies[n]? with
  | none => exact (overlapAtTurn_none E w1 n hget hov).elim
  | some e =>
    rw [forEachStep_some _ _ _ _ e hget, enemyCallback_eq, beforeEnemyTurn_shieldTimer,
      if_pos ((overlapAtTurn_some E w1 n e hget).1 hov), if_neg hsh]

theorem enemyCallback_gameOver_stays (E : Env K) (a : Enemy K) (k : Nat) (w : World K)
    (h : w.gameState = GameState.gameOver) :
    (enemyCallback E a k w).gameState = GameState.gameOver := by
  rw [enemyCallback_eq]
  split_ifs <;> simp [h]

theorem enemyLoop_gameOver_stays (E : Env K) (n k : Nat) (w : World K)
    (h : w.gameState = GameState.gameOver) :
    (forEachFrom World.enemies (enemyCallback E) n k w).gameState = GameState.gameOver :=
  forEachFrom_invariant World.enemies (enemyCallback E)
    (fun s => s.gameState = GameState.gameOver)
    (fun a j s _ hs => enemyCallback_gameOver_stays E a j s hs) n k w h

/-- The state stays GameOver up to the end of the enemy loop once a turn has set it. -/
theorem updateEnemies_gameState_of_overlap (E : Env K) (w1 : World K)
    (hsh : ¬ 0 < w1.shieldTimer) (n : Nat) (hn : n < w1.enemies.length)
    (hov : overlapAtTurn E w1 n) :
    (updateEnemies E w1).gameState = GameState.gameOver := by
  have h := forEachFrom_add World.enemies (enemyCallback E) (n + 1) (w1.enemies.length - (n + 1)) 0 w1
  have hlen : n + 1 + (w1.enemies.length - (n + 1)) = w1.enemies.length := by omega
  rw [hlen] at h
  unfold updateEnemies forEach
  rw [h]
  exact enemyLoop_gameOver_stays E _ _ _ (enemyTurn_gameState E w1 hsh n hov)

/-- After the enemy loop nothing in the frame assigns gameState. -/
theorem update_gameState (E : Env K) (t : K) (w : World K) (h : w.gameState = GameState.playing) :
    (update E t w).gameState = (updateEnemies E (beginFrame E t w)).gameState := by
  rw [update_playing E t w h]
  obtain ⟨pu, rc, tr, h1⟩ := spawnPowerups_frame E (spawnEnemies E (updateParticles (t - w.lastUpdateTime)
    (updatePowerups E (t - w.lastUpdateTime) (updateEnemies E (beginFrame E t w)))))
  obtain ⟨es, rc', dc, tr', ls, si, bs, h2⟩ := spawnEnemies_frame E (updateParticles (t - w.lastUpdateTime)
    (updatePowerups E (t - w.lastUpdateTime) (updateEnemies E (beginFrame E t w))))
  obtain ⟨ps, h3⟩ := particleLoop_frame (t - w.lastUpdateTime)
    (updatePowerups E (t - w.lastUpdateTime) (updateEnemies E (beginFrame E t w))).particles.length 0
    (updatePowerups E (t - w.lastUpdateTime) (updateEnemies E (beginFrame E t w)))
  obtain ⟨sh, sl, pu', ps', rc'', tr'', h4⟩ := powerupLoop_frame E (t - w.lastUpdateTime)
    (updateEnemies E (beginFrame E t w)).powerups.length 0 (updateEnemies E (beginFrame E t w))
  rw [h1, h2]
  unfold updateParticles forEach
  rw [h3]
  unfold updatePowerups forEach
  rw [h4]

theorem eventsSince_of_append (w w' : World K) (ext : List (Event K))
    (h : w'.trace = w.trace ++ ext) : eventsSince w.trace.length w' = ext := by
  unfold eventsSince
  rw [h, List.drop_left]

/-- The gameOver() calls of a frame are those of its enemy loop. -/
theorem update_gameOverCalls (E : Env K) (t : K) (w : World K)
    (h : w.gameState = GameState.playing) :
    gameOverCalls (eventsSince w.trace.length (update E t w)) + gameOverCalls w.trace =
      gameOverCalls (updateEnemies E (beginFrame E t w)).trace := by
  obtain ⟨a, b, c, ha, -, hc, -, hpb, hpc⟩ := update_trace E t w h
  have hc' : (update E t w).trace = w.trace ++ (a ++ b ++ c) := by
    rw [hc]; simp [List.append_assoc]
  rw [eventsSince_of_append w _ _ hc', ha]
  simp only [gameOverCalls_append]
  rw [gameOverCalls_of_phase b (fun ev hev => by rw [hpb ev hev]; decide),
    gameOverCalls_of_phase c (fun ev hev => by rw [hpc ev hev]; decide)]
  omega

/-! ### Vectors -/

theorem sqrtSpec_real (E : Env ℝ) (hs : E.sqrt = Real.sqrt) : E.SqrtSpec := by
  intro x hx
  rw [hs]
  exact ⟨Real.sqrt_nonneg x, Real.mul_self_sqrt hx⟩

theorem sumSq_nonneg (a b : K) : 0 ≤ a * a + b * b :=
  add_nonneg (mul_self_nonneg a) (mul_self_nonneg b)

/-- A normalized vector has squared length 0 or 1. -/
theorem normalize_sq (E : Env K) (hE : E.SqrtSpec) (v : Vec K) :
    (E.sqrt (v.x * v.x + v.y * v.y) = 0 ∧ normalize E v = { x := 0, y := 0 }) ∨
    (E.sqrt (v.x * v.x + v.y * v.y) ≠ 0 ∧
      (normalize E v).x * (normalize E v).x + (normalize E v).y * (normalize E v).y = 1) := by
  obtain ⟨-, hsq⟩ := hE _ (sumSq_nonneg v.x v.y)
  by_cases h : E.sqrt (v.x * v.x + v.y * v.y) = 0
  · left
    exact ⟨h, by simp [normalize, h]⟩
  · right
    refine ⟨h, ?_⟩
    simp only [normalize, if_neg h]
    field_simp
    rw [hsq]

theorem normalize_sq_le_one (E : Env K) (hE : E.SqrtSpec) (v : Vec K) :
    (normalize E v).x * (normalize E v).x + (normalize E v).y * (normalize E v).y ≤ 1 := by
  rcases normalize_sq E hE v with ⟨-, h⟩ | ⟨-, h⟩
  · rw [h]; norm_num
  · exact h.le

/-- The square root of the environment is below a positive bound when its argument is
below the square of the bound. -/
theorem sqrt_lt_of_lt_sq (E : Env K) (hE : E.SqrtSpec) (x b : K) (hx : 0 ≤ x) (hb : 0 < b)
    (h : x < b * b) : E.sqrt x < b := by
  obtain ⟨h0, hsq⟩ := hE x hx
  by_contra hcon
  have hle : b ≤ E.sqrt x := not_lt.1 hcon
  have : b * b ≤ E.sqrt x * E.sqrt x := mul_le_mul hle hle hb.le h0
  linarith

/-- Enemy.update moves the enemy by at most its speed. -/
theorem Enemy.update_displacement (E : Env K) (e : Enemy K) (w : World K) (hE : E.SqrtSpec) :
    ((Enemy.update E e w).1.x - e.x) ^ 2 + ((Enemy.update E e w).1.y - e.y) ^ 2
      ≤ e.speed ^ 2 ∧ (Enemy.update E e w).1.radius = e.radius ∧
      (Enemy.update E e w).1.speed = e.speed := by
  refine ⟨?_, rfl, rfl⟩
  simp only [Enemy.update]
  generalize hn : normalize E _ = n
  have hle : n.x * n.x + n.y * n.y ≤ 1 := by
    rw [← hn]; exact normalize_sq_le_one E hE _
  have hs2 : 0 ≤ e.speed ^ 2 := sq_nonneg _
  split_ifs
  · have : (e.x + n.x * e.speed * 0.5 - e.x) ^ 2 + (e.y + n.y * e.speed * 0.5 - e.y) ^ 2
        = (n.x * n.x + n.y * n.y) * e.speed ^ 2 * 0.25 := by ring
    rw [this]
    nlinarith [mul_le_mul_of_nonneg_right hle hs2, sumSq_nonneg n.x n.y]
  · have : (e.x + n.x * e.speed * 1.0 - e.x) ^ 2 + (e.y + n.y * e.speed * 1.0 - e.y) ^ 2
        = (n.x * n.x + n.y * n.y) * e.speed ^ 2 := by ring
    rw [this]
    nlinarith [mul_le_mul_of_nonneg_right hle hs2]

/-- An enemy that stands on the player's position still overlaps the player after its
update when its speed is below the sum of the radii. -/
theorem overlaps_of_on_player (E : Env K) (hE : E.SqrtSpec) (e : Enemy K) (w : World K)
    (p : Player K) (hx : e.x = p.x) (hy : e.y = p.y) (hr : 0 < p.radius + e.radius)
    (hs : e.speed ^ 2 < (p.radius + e.radius) * (p.radius + e.radius)) :
    overlaps E p (Enemy.update E e w).1 := by
  obtain ⟨hd, hrad, -⟩ := Enemy.update_displacement E e w hE
  unfold overlaps distance
  rw [hrad]
  apply sqrt_lt_of_lt_sq E hE _ _ (add_nonneg (sq_nonneg _) (sq_nonneg _)) hr
  rw [← hx, ← hy]
  linarith

/-! ### The arena scenario -/

theorem keyDirection_arena (s : K) (es : List (Enemy K)) :
    keyDirection (arena s es) = { x := 0, y := 0 } := by
  simp [keyDirection, arena]

theorem Player.update_arena (E : Env K) (s : K) (es : List (Enemy K)) :
    Player.update E (arena s es) = arena s es := by
  have hk := keyDirection_arena s es
  unfold Player.update Player.moved
  rw [hk]
  simp only [ne_eq, not_true_eq_false, or_self, if_false]
  simp only [arena, Player.new, CONFIG.PLAYER_RADIUS]
  norm_num

theorem beginFrame_arena (E : Env K) (t s : K) (es : List (Enemy K)) :
    beginFrame E t (arena s es) =
      { arena s es with
        lastUpdateTime := t, dateNowCalls := 1,
        timeSurvived := ((Int.floor ((E.dateNow 0 - 0) / 100) : Int) : K),
        shieldTimer := max 0 (s - (t - 0) / 1000),
        slowTimer := max 0 (0 - (t - 0) / 1000) } := by
  have h : ∀ a b c : K, Player.update E
      { arena s es with lastUpdateTime := a, dateNowCalls := 1, timeSurvived := c } =
      { arena s es with lastUpdateTime := a, dateNowCalls := 1, timeSurvived := c } := by
    intro a b c
    have hk : keyDirection { arena s es with lastUpdateTime := a, dateNowCalls := 1, timeSurvived := c }
        = { x := 0, y := 0 } := by simp [keyDirection, arena]
    unfold Player.update Player.moved
    rw [hk]
    simp only [ne_eq, not_true_eq_false, or_self, if_false]
    simp only [arena, Player.new, CONFIG.PLAYER_RADIUS]
    norm_num
  unfold beginFrame
  simp only [dateNow]
  have h' := h t 0 ((Int.floor ((E.dateNow 0 - 0) / 100) : Int) : K)
  simp only [arena] at h' ⊢
  rw [h']

/-! ### Frames with the shield off -/

/-- While the shield is off the enemy loop removes nothing: before turn n the entries from
index n on are the ones the loop started with. -/
theorem beforeEnemyTurn_enemies_unshielded (E : Env K) (w1 : World K)
    (hsh : ¬ 0 < w1.shieldTimer) (n : Nat) :
    ∀ m, n ≤ m → (beforeEnemyTurn E w1 n).enemies[m]? = w1.enemies[m]? := by
  induction n with
  | zero => intro m _; rfl
  | succ n ih =>
    intro m hm
    rw [beforeEnemyTurn_succ]
    cases hget : (beforeEnemyTurn E w1 n).enemies[n]? with
    | none =>
      rw [forEachStep_none _ _ _ _ hget]
      exact ih m (by omega)
    | some e =>
      rw [forEachStep_some _ _ _ _ e hget, enemyCallback_eq, beforeEnemyTurn_shieldTimer,
        if_neg hsh]
      have hne : n ≠ m := by omega
      split_ifs
      · simp only [List.getElem?_set_ne hne]
        exact ih m (by omega)
      · simp only [List.getElem?_set_ne hne]
        exact ih m (by omega)

theorem overlapTurns_pos (E : Env K) (w1 : World K) (n : Nat) (hn : n < w1.enemies.length)
    (hov : overlapAtTurn E w1 n) : 1 ≤ overlapTurns E w1 := by
  unfold overlapTurns
  exact List.countP_pos_iff.2 ⟨n, List.mem_range.2 hn, by simpa using hov⟩

/-- C2 (as amended): in a Playing-state frame whose shield timer is 0 after the decrement and
in which some enemy overlaps the player after its update, the state is GameOver when the
frame ends, and gameOver() is called once for each turn of the enemy loop whose enemy
overlaps the player, hence at least once. -/
theorem unshielded_overlap_gameOver (E : Env K) (t : K) (w : World K) (n : Nat)
    (hplay : w.gameState = GameState.playing)
    (hsh : (beginFrame E t w).shieldTimer = 0)
    (hn : n < (beginFrame E t w).enemies.length)
    (hov : overlapAtTurn E (beginFrame E t w) n) :
    (update E t w).gameState = GameState.gameOver ∧
    gameOverCalls (eventsSince w.trace.length (update E t w))
      = overlapTurns E (beginFrame E t w) ∧
    1 ≤ overlapTurns E (beginFrame E t w) := by
  have hsh' : ¬ 0 < (beginFrame E t w).shieldTimer := by rw [hsh]; exact lt_irrefl 0
  refine ⟨?_, ?_, overlapTurns_pos E _ n hn hov⟩
  · rw [update_gameState E t w hplay]
    exact updateEnemies_gameState_of_overlap E _ hsh' n hn hov
  · have h1 := update_gameOverCalls E t w hplay
    rw [updateEnemies_eq_turn, enemyTurns_gameOverCalls E _ hsh', beginFrame_trace] at h1
    unfold overlapTurns
    omega

/-- In the arena with the shield off, each of two enemies standing on the player overlaps
the player after its update, whatever the random draws. -/
theorem arena_two_overlaps (E : Env K) (hE : E.SqrtSpec) (t : K) (ht : 0 ≤ t) :
    (beginFrame E t (arena 0 [enemyOnPlayer, enemyOnPlayer])).shieldTimer = 0 ∧
    overlapAtTurn E (beginFrame E t (arena 0 [enemyOnPlayer, enemyOnPlayer])) 0 ∧
    overlapAtTurn E (beginFrame E t (arena 0 [enemyOnPlayer, enemyOnPlayer])) 1 := by
  have hsh : (beginFrame E t (arena 0 [enemyOnPlayer, enemyOnPlayer])).shieldTimer = 0 := by
    rw [beginFrame_arena]
    simp only [sub_zero, zero_sub]
    exact max_eq_left (by
      have : 0 ≤ t / 1000 := div_nonneg ht (by norm_num)
      linarith)
  have hsh' : ¬ 0 < (beginFrame E t (arena 0 [enemyOnPlayer, enemyOnPlayer])).shieldTimer := by
    rw [hsh]; exact lt_irrefl 0
  have hget : ∀ n m, n ≤ m → m < 2 →
      (beforeEnemyTurn E (beginFrame E t (arena 0 [enemyOnPlayer, enemyOnPlayer])) n).enemies[m]?
        = some enemyOnPlayer := by
    intro n m hnm hm
    rw [beforeEnemyTurn_enemies_unshielded E _ hsh' n m hnm, beginFrame_arena]
    simp only [arena]
    interval_cases m <;> rfl
  have hov : ∀ n, n < 2 →
      overlapAtTurn E (beginFrame E t (arena 0 [enemyOnPlayer, enemyOnPlayer])) n := by
    intro n hn
    rw [overlapAtTurn_some E _ n enemyOnPlayer (hget n n le_rfl hn), beforeEnemyTurn_player,
      beginFrame_arena]
    apply overlaps_of_on_player E hE
    · rfl
    · rfl
    · simp only [arena, Player.new, enemyOnPlayer, CONFIG.PLAYER_RADIUS, CONFIG.ENEMY_RADIUS]
      norm_num
    · simp only [arena, Player.new, enemyOnPlayer, CONFIG.PLAYER_RADIUS, CONFIG.ENEMY_RADIUS]
      norm_num
  exact ⟨hsh, hov 0 (by norm_num), hov 1 (by norm_num)⟩

/-- In the arena with the shield off and two enemies on the player, gameOver() is called
twice in the frame. -/
theorem arena_unshielded_calls (E : Env K) (hE : E.SqrtSpec) (t : K) (ht : 0 ≤ t) :
    gameOverCalls (eventsSince (arena (0 : K) [enemyOnPlayer, enemyOnPlayer]).trace.length
      (update E t (arena 0 [enemyOnPlayer, enemyOnPlayer]))) = 2 := by
  obtain ⟨hsh, h0, h1⟩ := arena_two_overlaps E hE t ht
  have hsh' : ¬ 0 < (beginFrame E t (arena 0 [enemyOnPlayer, enemyOnPlayer])).shieldTimer := by
    rw [hsh]; exact lt_irrefl 0
  have h := update_gameOverCalls E t (arena 0 [enemyOnPlayer, enemyOnPlayer]) rfl
  rw [updateEnemies_eq_turn, enemyTurns_gameOverCalls _ _ hsh', beginFrame_trace] at h
  have hlen : (beginFrame E t (arena 0 [enemyOnPlayer, enemyOnPlayer])).enemies.length = 2 := by
    rw [beginFrame_arena]; rfl
  rw [hlen] at h
  have hc : (List.range 2).countP (fun n => decide (overlapAtTurn E
      (beginFrame E t (arena 0 [enemyOnPlayer, enemyOnPlayer])) n)) = 2 := by
    simp [List.range_succ, List.countP_cons, h0, h1]
  rw [hc] at h
  omega

/-- C2, counterexample: with the shield off and two enemies overlapping the player, gameOver()
is called twice in the frame, not once. -/
theorem gameOver_twice :
    (arena (0 : ℝ) [enemyOnPlayer, enemyOnPlayer]).gameState = GameState.playing ∧
    (beginFrame (steadyEnv Real.sqrt Real.cos Real.sin Real.pi) 16
      (arena 0 [enemyOnPlayer, enemyOnPlayer])).shieldTimer = 0 ∧
    overlapAtTurn (steadyEnv Real.sqrt Real.cos Real.sin Real.pi)
      (beginFrame (steadyEnv Real.sqrt Real.cos Real.sin Real.pi) 16
        (arena 0 [enemyOnPlayer, enemyOnPlayer])) 0 ∧
    gameOverCalls (eventsSince (arena (0 : ℝ) [enemyOnPlayer, enemyOnPlayer]).trace.length
      (update (steadyEnv Real.sqrt Real.cos Real.sin Real.pi) 16
        (arena 0 [enemyOnPlayer, enemyOnPlayer]))) = 2 ∧
    gameOverCalls (eventsSince (arena (0 : ℝ) [enemyOnPlayer, enemyOnPlayer]).trace.length
      (update (steadyEnv Real.sqrt Real.cos Real.sin Real.pi) 16
        (arena 0 [enemyOnPlayer, enemyOnPlayer]))) ≠ 1 := by
  have hE : (steadyEnv Real.sqrt Real.cos Real.sin Real.pi).SqrtSpec := sqrtSpec_real _ rfl
  obtain ⟨hsh, h0, -⟩ := arena_two_overlaps (steadyEnv Real.sqrt Real.cos Real.sin Real.pi) hE 16
    (by norm_num)
  have h2 := arena_unshielded_calls (steadyEnv Real.sqrt Real.cos Real.sin Real.pi) hE 16
    (by norm_num)
  refine ⟨rfl, hsh, h0, h2, ?_⟩
  rw [h2]
  decide

/-! ### Frames with the shield on -/

theorem eraseIdx_set_self {α : Type} (l : List α) (i : Nat) (a : α) :
    (l.set i a).eraseIdx i = l.eraseIdx i := by
  induction l generalizing i with
  | nil => rfl
  | cons b l ih =>
    cases i with
    | zero => rfl
    | succ i => simp [List.set, ih]

theorem enemyCallback_gameState_shielded (E : Env K) (a : Enemy K) (k : Nat) (w : World K)
    (h : 0 < w.shieldTimer) : (enemyCallback E a k w).gameState = w.gameState := by
  rw [enemyCallback_eq]
  split_ifs <;> rfl

theorem enemyLoop_gameState_shielded (E : Env K) (n k : Nat) (w : World K)
    (h : 0 < w.shieldTimer) :
    (forEachFrom World.enemies (enemyCallback E) n k w).gameState = w.gameState := by
  have := forEachFrom_invariant World.enemies (enemyCallback E)
    (fun s => s.gameState = w.gameState ∧ s.shieldTimer = w.shieldTimer)
    (fun a j s _ hs => by
      obtain ⟨gs, es, ps, rc, tr, hf⟩ := enemyCallback_frame E a j s
      refine ⟨?_, ?_⟩
      · rw [enemyCallback_gameState_shielded E a j s (by rw [hs.2]; exact h)]; exact hs.1
      · rw [hf]; exact hs.2) n k w ⟨rfl, rfl⟩
  exact this.1

/-- C3: in a Playing-state frame, an enemy that the loop processes while the shield timer
(after the decrement of the frame) is positive and that overlaps the player after its update
is removed from the enemy list, the state stays Playing (after the turn and at the end of the
frame), and the particle list becomes the trimmed list of the old particles followed by
exactly PARTICLE_COUNT_COLLISION = 20 new particles placed on the enemy's position. -/
theorem shielded_overlap_removes_enemy (E : Env K) (t : K) (w : World K) (n : Nat) (e : Enemy K)
    (hplay : w.gameState = GameState.playing)
    (hsh : 0 < (beginFrame E t w).shieldTimer)
    (_hn : n < (beginFrame E t w).enemies.length)
    (hget : (beforeEnemyTurn E (beginFrame E t w) n).enemies[n]? = some e)
    (hov : overlaps E (beforeEnemyTurn E (beginFrame E t w) n).player
      (Enemy.update E e (beforeEnemyTurn E (beginFrame E t w) n)).1) :
    (beforeEnemyTurn E (beginFrame E t w) (n + 1)).enemies
      = (beforeEnemyTurn E (beginFrame E t w) n).enemies.eraseIdx n ∧
    (beforeEnemyTurn E (beginFrame E t w) (n + 1)).gameState = GameState.playing ∧
    (update E t w).gameState = GameState.playing ∧
    (beforeEnemyTurn E (beginFrame E t w) (n + 1)).particles
      = shiftParticles ((beforeEnemyTurn E (beginFrame E t w) n).particles ++
          burstList E (Enemy.update E e (beforeEnemyTurn E (beginFrame E t w) n)).1.x
            (Enemy.update E e (beforeEnemyTurn E (beginFrame E t w) n)).1.y "#FFC107"
            CONFIG.PARTICLE_COUNT_COLLISION
            ((beforeEnemyTurn E (beginFrame E t w) n).randomCalls + 2)) ∧
    (burstList E (Enemy.update E e (beforeEnemyTurn E (beginFrame E t w) n)).1.x
        (Enemy.update E e (beforeEnemyTurn E (beginFrame E t w) n)).1.y "#FFC107"
        CONFIG.PARTICLE_COUNT_COLLISION
        ((beforeEnemyTurn E (beginFrame E t w) n).randomCalls + 2)).length = 20 ∧
    (∀ p ∈ burstList E (Enemy.update E e (beforeEnemyTurn E (beginFrame E t w) n)).1.x
        (Enemy.update E e (beforeEnemyTurn E (beginFrame E t w) n)).1.y "#FFC107"
        CONFIG.PARTICLE_COUNT_COLLISION
        ((beforeEnemyTurn E (beginFrame E t w) n).randomCalls + 2),
      p.x = (Enemy.update E e (beforeEnemyTurn E (beginFrame E t w) n)).1.x ∧
      p.y = (Enemy.update E e (beforeEnemyTurn E (beginFrame E t w) n)).1.y) := by
  have hplay1 : (beginFrame E t w).gameState = GameState.playing := hplay
  have hsh' : (beforeEnemyTurn E (beginFrame E t w) n).shieldTimer > 0 := by
    rw [beforeEnemyTurn_shieldTimer]; exact hsh
  have hgs : ∀ m, (beforeEnemyTurn E (beginFrame E t w) m).gameState = GameState.playing := by
    intro m
    unfold beforeEnemyTurn
    rw [enemyLoop_gameState_shielded E m 0 _ hsh, hplay1]
  refine ⟨?_, hgs _, ?_, ?_, ?_, ?_⟩
  · rw [beforeEnemyTurn_succ, forEachStep_some _ _ _ _ e hget, enemyCallback_eq, if_pos hov,
      if_pos hsh']
    exact eraseIdx_set_self _ _ _
  · rw [update_gameState E t w hplay, updateEnemies_eq_turn]
    exact hgs _
  · rw [beforeEnemyTurn_succ, forEachStep_some _ _ _ _ e hget, enemyCallback_eq, if_pos hov,
      if_pos hsh']
  · rw [burstList_length]; rfl
  · intro p hp
    have := burstList_position E _ _ _ _ _ p hp
    exact ⟨this.1, this.2.1⟩

/-! ### Enemy.update calls of a frame -/

theorem filter_enemyUpdate_of_phase (a : List (Event K))
    (h : ∀ ev ∈ a, Event.phase ev ≠ Phase.enemyLoop) : a.filter Event.isEnemyUpdate = [] := by
  rw [List.filter_eq_nil_iff]
  intro ev hev
  have := h ev hev
  cases ev <;> simp_all [Event.isEnemyUpdate, Event.phase]

/-- The Enemy.update calls of a frame are those of its enemy loop. -/
theorem update_enemyUpdates (E : Env K) (t : K) (w : World K)
    (h : w.gameState = GameState.playing) :
    (eventsSince w.trace.length (update E t w)).filter Event.isEnemyUpdate =
      (eventsSince w.trace.length (updateEnemies E (beginFrame E t w))).filter
        Event.isEnemyUpdate := by
  obtain ⟨a, b, c, ha, -, hc, -, hpb, hpc⟩ := update_trace E t w h
  have hc' : (update E t w).trace = w.trace ++ (a ++ b ++ c) := by
    rw [hc]; simp [List.append_assoc]
  rw [eventsSince_of_append w _ _ hc', eventsSince_of_append w _ _ ha]
  simp only [List.filter_append]
  rw [filter_enemyUpdate_of_phase b (fun ev hev => by rw [hpb ev hev]; decide),
    filter_enemyUpdate_of_phase c (fun ev hev => by rw [hpc ev hev]; decide)]
  simp

/-- With the shield on, in the arena with two enemies standing on the player: the first turn
removes the first enemy, and the second turn finds no entry at index 1, so the enemy that
was second is neither updated nor checked. -/
theorem arena_shielded_loop (E : Env K) (hE : E.SqrtSpec) (t : K)
    (ht : t < 1000) :
    (updateEnemies E (beginFrame E t (arena 1 [enemyOnPlayer, enemyOnPlayerMovingDown]))).enemies
      = [enemyOnPlayerMovingDown] ∧
    (updateEnemies E (beginFrame E t (arena 1 [enemyOnPlayer, enemyOnPlayerMovingDown]))).trace
      = [Event.enemyUpdate 0 enemyOnPlayer] := by
  have hw1 := beginFrame_arena E t 1 [enemyOnPlayer, enemyOnPlayerMovingDown]
  have hsh : 0 < (beginFrame E t (arena 1 [enemyOnPlayer, enemyOnPlayerMovingDown])).shieldTimer := by
    rw [hw1]
    simp only [sub_zero]
    apply lt_max_of_lt_right
    have : t / 1000 < 1 := by rw [div_lt_one (by norm_num)]; exact ht
    linarith
  have hget : (beginFrame E t (arena 1 [enemyOnPlayer, enemyOnPlayerMovingDown])).enemies[0]?
      = some enemyOnPlayer := by rw [hw1]; rfl
  have hov : overlaps E (beginFrame E t (arena 1 [enemyOnPlayer, enemyOnPlayerMovingDown])).player
      (Enemy.update E enemyOnPlayer
        (beginFrame E t (arena 1 [enemyOnPlayer, enemyOnPlayerMovingDown]))).1 := by
    rw [hw1]
    apply overlaps_of_on_player E hE
    · rfl
    · rfl
    · simp only [arena, Player.new, enemyOnPlayer, CONFIG.PLAYER_RADIUS, CONFIG.ENEMY_RADIUS]
      norm_num
    · simp only [arena, Player.new, enemyOnPlayer, CONFIG.PLAYER_RADIUS, CONFIG.ENEMY_RADIUS]
      norm_num
  have hlen : (beginFrame E t (arena 1 [enemyOnPlayer, enemyOnPlayerMovingDown])).enemies.length
      = 2 := by rw [hw1]; rfl
  have hen : (beginFrame E t (arena 1 [enemyOnPlayer, enemyOnPlayerMovingDown])).enemies
      = [enemyOnPlayer, enemyOnPlayerMovingDown] := by rw [hw1]; rfl
  have htr : (beginFrame E t (arena 1 [enemyOnPlayer, enemyOnPlayerMovingDown])).trace = [] := rfl
  have h1 : (forEachStep World.enemies (enemyCallback E) 0
      (beginFrame E t (arena 1 [enemyOnPlayer, enemyOnPlayerMovingDown]))).enemies
        = [enemyOnPlayerMovingDown] ∧
      (forEachStep World.enemies (enemyCallback E) 0
      (beginFrame E t (arena 1 [enemyOnPlayer, enemyOnPlayerMovingDown]))).trace
        = [Event.enemyUpdate 0 enemyOnPlayer] := by
    rw [forEachStep_some _ _ _ _ _ hget, enemyCallback_eq, if_pos hov, if_pos hsh]
    simp only [hen, htr]
    exact ⟨rfl, rfl⟩
  have h2 : forEachStep World.enemies (enemyCallback E) 1
      (forEachStep World.enemies (enemyCallback E) 0
        (beginFrame E t (arena 1 [enemyOnPlayer, enemyOnPlayerMovingDown])))
      = forEachStep World.enemies (enemyCallback E) 0
        (beginFrame E t (arena 1 [enemyOnPlayer, enemyOnPlayerMovingDown])) := by
    apply forEachStep_none
    rw [h1.1]; rfl
  have hfull : updateEnemies E (beginFrame E t (arena 1 [enemyOnPlayer, enemyOnPlayerMovingDown]))
      = forEachStep World.enemies (enemyCallback E) 0
        (beginFrame E t (arena 1 [enemyOnPlayer, enemyOnPlayerMovingDown])) := by
    unfold updateEnemies forEach
    rw [hlen]
    exact h2
  rw [hfull]
  exact h1

/-- C4, failing input: in a frame with the shield on and two enemies both overlapping the
player, only the first enemy is updated and checked; the second is skipped and stays. -/
theorem shielded_hit_skips_next_enemy :
    (arena (1 : ℝ) [enemyOnPlayer, enemyOnPlayerMovingDown]).gameState = GameState.playing ∧
    (arena (1 : ℝ) [enemyOnPlayer, enemyOnPlayerMovingDown]).enemies
      = [enemyOnPlayer, enemyOnPlayerMovingDown] ∧
    (eventsSince (arena (1 : ℝ) [enemyOnPlayer, enemyOnPlayerMovingDown]).trace.length
      (update (steadyEnv Real.sqrt Real.cos Real.sin Real.pi) 16
        (arena 1 [enemyOnPlayer, enemyOnPlayerMovingDown]))).filter Event.isEnemyUpdate
      = [Event.enemyUpdate 0 enemyOnPlayer] ∧
    (updateEnemies (steadyEnv Real.sqrt Real.cos Real.sin Real.pi)
      (beginFrame (steadyEnv Real.sqrt Real.cos Real.sin Real.pi) 16
        (arena 1 [enemyOnPlayer, enemyOnPlayerMovingDown]))).enemies
      = [enemyOnPlayerMovingDown] := by
  have hE : (steadyEnv Real.sqrt Real.cos Real.sin Real.pi).SqrtSpec := sqrtSpec_real _ rfl
  obtain ⟨h1, h2⟩ := arena_shielded_loop (steadyEnv Real.sqrt Real.cos Real.sin Real.pi) hE 16
    (by norm_num)
  refine ⟨rfl, rfl, ?_, h1⟩
  rw [update_enemyUpdates _ _ _ rfl]
  unfold eventsSince
  rw [h2]
  rfl

/-! ### Power-up pick-ups -/

theorem powerupCallback_pickups (E : Env K) (dt : K) (a : PowerUp K) (k : Nat) (s : World K) :
    ∃ ext, (powerupCallback E dt a k s).trace = s.trace ++ ext ∧
      (∀ p, Event.pickup p ∈ ext →
        (p.type = "shield" → (powerupCallback E dt a k s).shieldTimer = CONFIG.SHIELD_DURATION_S) ∧
        (p.type = "slow" → (powerupCallback E dt a k s).slowTimer = CONFIG.SLOW_DURATION_S)) ∧
      ((powerupCallback E dt a k s).shieldTimer = s.shieldTimer ∨
        (powerupCallback E dt a k s).shieldTimer = CONFIG.SHIELD_DURATION_S) ∧
      ((powerupCallback E dt a k s).slowTimer = s.slowTimer ∨
        (powerupCallback E dt a k s).slowTimer = CONFIG.SLOW_DURATION_S) := by
  rw [powerupCallback_eq]
  by_cases h1 : (a.update dt).life ≤ 0
  · rw [if_pos h1]
    exact ⟨_, rfl, by simp, Or.inl rfl, Or.inl rfl⟩
  rw [if_neg h1]
  by_cases h2 : distance E s.player.x s.player.y a.x a.y < s.player.radius + a.radius
  swap
  · rw [if_neg h2]
    exact ⟨_, rfl, by simp, Or.inl rfl, Or.inl rfl⟩
  rw [if_pos h2]
  by_cases h3 : a.type = "shield"
  · rw [if_pos h3]
    refine ⟨_, rfl, ?_, Or.inr rfl, Or.inl rfl⟩
    intro p hp
    simp only [List.mem_cons, List.mem_singleton, Event.pickup.injEq, List.not_mem_nil,
      or_false, false_or, reduceCtorEq] at hp
    subst hp
    refine ⟨fun _ => rfl, fun hslow => ?_⟩
    have : (a.update dt).type = a.type := rfl
    rw [this, h3] at hslow
    exact absurd hslow (by decide)
  rw [if_neg h3]
  by_cases h4 : a.type = "slow"
  · rw [if_pos h4]
    refine ⟨_, rfl, ?_, Or.inl rfl, Or.inr rfl⟩
    intro p hp
    simp only [List.mem_cons, List.mem_singleton, Event.pickup.injEq, List.not_mem_nil,
      or_false, false_or, reduceCtorEq] at hp
    subst hp
    exact ⟨fun hsh => absurd hsh h3, fun _ => rfl⟩
  · rw [if_neg h4]
    refine ⟨_, rfl, ?_, Or.inl rfl, Or.inl rfl⟩
    intro p hp
    simp only [List.mem_cons, List.mem_singleton, Event.pickup.injEq, List.not_mem_nil,
      or_false, false_or, reduceCtorEq] at hp
    subst hp
    exact ⟨fun hsh => absurd hsh h3, fun hsl => absurd hsl h4⟩

/-- In the power-up loop every pick-up leaves the timer of its type at the full duration. -/
theorem powerupLoop_pickups (E : Env K) (dt : K) (n k : Nat) (w : World K) :
    ∃ ext, (forEachFrom World.powerups (powerupCallback E dt) n k w).trace = w.trace ++ ext ∧
      ∀ p, Event.pickup p ∈ ext →
        (p.type = "shield" →
          (forEachFrom World.powerups (powerupCallback E dt) n k w).shieldTimer
            = CONFIG.SHIELD_DURATION_S) ∧
        (p.type = "slow" →
          (forEachFrom World.powerups (powerupCallback E dt) n k w).slowTimer
            = CONFIG.SLOW_DURATION_S) := by
  apply forEachFrom_invariant World.powerups (powerupCallback E dt)
    (fun s => ∃ ext, s.trace = w.trace ++ ext ∧ ∀ p, Event.pickup p ∈ ext →
        (p.type = "shield" → s.shieldTimer = CONFIG.SHIELD_DURATION_S) ∧
        (p.type = "slow" → s.slowTimer = CONFIG.SLOW_DURATION_S))
  · rintro a j s - ⟨ext, hs, hext⟩
    obtain ⟨ext', h, hnew, hsh, hsl⟩ := powerupCallback_pickups E dt a j s
    refine ⟨ext ++ ext', by rw [h, hs, List.append_assoc], ?_⟩
    intro p hp
    rcases List.mem_append.1 hp with hp | hp
    · obtain ⟨h1, h2⟩ := hext p hp
      refine ⟨fun ht => ?_, fun ht => ?_⟩
      · rcases hsh with hsh | hsh
        · rw [hsh]; exact h1 ht
        · exact hsh
      · rcases hsl with hsl | hsl
        · rw [hsl]; exact h2 ht
        · exact hsl
    · exact hnew p hp
  · exact ⟨[], by simp, by simp⟩

/-- After the power-up loop nothing in the frame assigns the two timers. -/
theorem update_timers (E : Env K) (t : K) (w : World K) (h : w.gameState = GameState.playing) :
    (update E t w).shieldTimer
      = (updatePowerups E (t - w.lastUpdateTime) (updateEnemies E (beginFrame E t w))).shieldTimer ∧
    (update E t w).slowTimer
      = (updatePowerups E (t - w.lastUpdateTime) (updateEnemies E (beginFrame E t w))).slowTimer := by
  rw [update_playing E t w h]
  obtain ⟨pu, rc, tr, h1⟩ := spawnPowerups_frame E (spawnEnemies E (updateParticles (t - w.lastUpdateTime)
    (updatePowerups E (t - w.lastUpdateTime) (updateEnemies E (beginFrame E t w)))))
  obtain ⟨es, rc', dc, tr', ls, si, bs, h2⟩ := spawnEnemies_frame E (updateParticles (t - w.lastUpdateTime)
    (updatePowerups E (t - w.lastUpdateTime) (updateEnemies E (beginFrame E t w))))
  obtain ⟨ps, h3⟩ := particleLoop_frame (t - w.lastUpdateTime)
    (updatePowerups E (t - w.lastUpdateTime) (updateEnemies E (beginFrame E t w))).particles.length 0
    (updatePowerups E (t - w.lastUpdateTime) (updateEnemies E (beginFrame E t w)))
  rw [h1, h2]
  unfold updateParticles forEach
  rw [h3]
  exact ⟨rfl, rfl⟩

/-- C5: when the player picks up a power-up during a frame, the timer of its type is exactly
the full duration (5) when the frame ends, whatever the timer was before; the duration does
not stack. -/
theorem pickup_resets_timer (E : Env K) (t : K) (w : World K) (p : PowerUp K)
    (hplay : w.gameState = GameState.playing)
    (hpick : Event.pickup p ∈ eventsSince w.trace.length (update E t w)) :
    (p.type = "shield" → (update E t w).shieldTimer = CONFIG.SHIELD_DURATION_S) ∧
    (p.type = "slow" → (update E t w).slowTimer = CONFIG.SLOW_DURATION_S) ∧
    CONFIG.SHIELD_DURATION_S = (5 : K) ∧ CONFIG.SLOW_DURATION_S = (5 : K) := by
  obtain ⟨a, b, c, ha, hb, hc, hpa, -, hpc⟩ := update_trace E t w hplay
  have hc' : (update E t w).trace = w.trace ++ (a ++ b ++ c) := by
    rw [hc]; simp [List.append_assoc]
  rw [eventsSince_of_append w _ _ hc'] at hpick
  obtain ⟨ext, hext, hpk⟩ := powerupLoop_pickups E (t - w.lastUpdateTime)
    (updateEnemies E (beginFrame E t w)).powerups.length 0 (updateEnemies E (beginFrame E t w))
  have hbe : ext = b := by
    have h1 : (updatePowerups E (t - w.lastUpdateTime) (updateEnemies E (beginFrame E t w))).trace
        = (w.trace ++ a) ++ ext := by rw [← ha]; exact hext
    rw [hb] at h1
    exact (List.append_cancel_left h1).symm
  subst hbe
  have hin : Event.pickup p ∈ ext := by
    rcases List.mem_append.1 hpick with h | h
    · rcases List.mem_append.1 h with h | h
      · exact absurd (hpa _ h) (by simp [Event.phase])
      · exact h
    · exact absurd (hpc _ h) (by simp [Event.phase])
  obtain ⟨hsh, hsl⟩ := update_timers E t w hplay
  obtain ⟨k1, k2⟩ := hpk p hin
  refine ⟨fun ht => ?_, fun ht => ?_, rfl, rfl⟩
  · rw [hsh]; exact k1 ht
  · rw [hsl]; exact k2 ht

/-! ### The difficulty ramp -/

/-- Before the enemy spawner nothing in the frame assigns the two difficulty scalars. -/
theorem update_difficulty_eq (E : Env K) (t : K) (w : World K)
    (h : w.gameState = GameState.playing) :
    ∃ w3 : World K, w3.currentSpawnInterval = w.currentSpawnInterval ∧
      w3.ENEMY_BASE_SPEED = w.ENEMY_BASE_SPEED ∧
      (update E t w).currentSpawnInterval = (spawnEnemies E w3).currentSpawnInterval ∧
      (update E t w).ENEMY_BASE_SPEED = (spawnEnemies E w3).ENEMY_BASE_SPEED := by
  refine ⟨updateParticles (t - w.lastUpdateTime)
    (updatePowerups E (t - w.lastUpdateTime) (updateEnemies E (beginFrame E t w))), ?_, ?_, ?_, ?_⟩
  · obtain ⟨ps, h3⟩ := particleLoop_frame (t - w.lastUpdateTime)
      (updatePowerups E (t - w.lastUpdateTime) (updateEnemies E (beginFrame E t w))).particles.length 0
      (updatePowerups E (t - w.lastUpdateTime) (updateEnemies E (beginFrame E t w)))
    obtain ⟨sh, sl, pu', ps', rc'', tr'', h4⟩ := powerupLoop_frame E (t - w.lastUpdateTime)
      (updateEnemies E (beginFrame E t w)).powerups.length 0 (updateEnemies E (beginFrame E t w))
    obtain ⟨gs, es, ps2, rc, tr, h5⟩ := enemyLoop_frame E (beginFrame E t w).enemies.length 0
      (beginFrame E t w)
    unfold updateParticles forEach
    rw [h3]
    unfold updatePowerups forEach
    rw [h4]
    unfold updateEnemies forEach
    rw [h5]
    rfl
  · obtain ⟨ps, h3⟩ := particleLoop_frame (t - w.lastUpdateTime)
      (updatePowerups E (t - w.lastUpdateTime) (updateEnemies E (beginFrame E t w))).particles.length 0
      (updatePowerups E (t - w.lastUpdateTime) (updateEnemies E (beginFrame E t w)))
    obtain ⟨sh, sl, pu', ps', rc'', tr'', h4⟩ := powerupLoop_frame E (t - w.lastUpdateTime)
      (updateEnemies E (beginFrame E t w)).powerups.length 0 (updateEnemies E (beginFrame E t w))
    obtain ⟨gs, es, ps2, rc, tr, h5⟩ := enemyLoop_frame E (beginFrame E t w).enemies.length 0
      (beginFrame E t w)
    unfold updateParticles forEach
    rw [h3]
    unfold updatePowerups forEach
    rw [h4]
    unfold updateEnemies forEach
    rw [h5]
    rfl
  · rw [update_playing E t w h]
    obtain ⟨pu, rc, tr, h1⟩ := spawnPowerups_frame E (spawnEnemies E (updateParticles (t - w.lastUpdateTime)
      (updatePowerups E (t - w.lastUpdateTime) (updateEnemies E (beginFrame E t w)))))
    rw [h1]
  · rw [update_playing E t w h]
    obtain ⟨pu, rc, tr, h1⟩ := spawnPowerups_frame E (spawnEnemies E (updateParticles (t - w.lastUpdateTime)
      (updatePowerups E (t - w.lastUpdateTime) (updateEnemies E (beginFrame E t w)))))
    rw [h1]

theorem spawnEnemies_difficulty (E : Env K) (w : World K) :
    ((spawnEnemies E w).currentSpawnInterval = w.currentSpawnInterval ∧
      (spawnEnemies E w).ENEMY_BASE_SPEED = w.ENEMY_BASE_SPEED) ∨
    ((spawnEnemies E w).currentSpawnInterval =
        max CONFIG.MIN_SPAWN_INTERVAL_MS (w.currentSpawnInterval * CONFIG.DIFFICULTY_FACTOR) ∧
      (spawnEnemies E w).ENEMY_BASE_SPEED =
        min CONFIG.ENEMY_MAX_SPEED (w.ENEMY_BASE_SPEED + 0.005)) := by
  rw [spawnEnemies_eq]
  split_ifs
  · right; exact ⟨rfl, rfl⟩
  · left; exact ⟨rfl, rfl⟩

/-- One frame either keeps both difficulty scalars or lowers the interval by the difficulty
factor down to the floor and raises the base speed by 0.005 up to the ceiling. -/
theorem update_difficulty (E : Env K) (t : K) (w : World K) :
    ((update E t w).currentSpawnInterval = w.currentSpawnInterval ∧
      (update E t w).ENEMY_BASE_SPEED = w.ENEMY_BASE_SPEED) ∨
    ((update E t w).currentSpawnInterval =
        max CONFIG.MIN_SPAWN_INTERVAL_MS (w.currentSpawnInterval * CONFIG.DIFFICULTY_FACTOR) ∧
      (update E t w).ENEMY_BASE_SPEED =
        min CONFIG.ENEMY_MAX_SPEED (w.ENEMY_BASE_SPEED + 0.005)) := by
  by_cases h : w.gameState = GameState.playing
  · obtain ⟨w3, h1, h2, h3, h4⟩ := update_difficulty_eq E t w h
    rw [h3, h4, ← h1, ← h2]
    exact spawnEnemies_difficulty E w3
  · left
    unfold update
    rw [if_pos h]
    exact ⟨rfl, rfl⟩

/-- One frame keeps the difficulty scalars within their bounds and moves them one way only. -/
theorem update_difficulty_step (E : Env K) (t : K) (w : World K)
    (h1 : CONFIG.MIN_SPAWN_INTERVAL_MS ≤ w.currentSpawnInterval)
    (h2 : w.ENEMY_BASE_SPEED ≤ CONFIG.ENEMY_MAX_SPEED) :
    (update E t w).currentSpawnInterval ≤ w.currentSpawnInterval ∧
    CONFIG.MIN_SPAWN_INTERVAL_MS ≤ (update E t w).currentSpawnInterval ∧
    w.ENEMY_BASE_SPEED ≤ (update E t w).ENEMY_BASE_SPEED ∧
    (update E t w).ENEMY_BASE_SPEED ≤ CONFIG.ENEMY_MAX_SPEED := by
  rcases update_difficulty E t w with ⟨h3, h4⟩ | ⟨h3, h4⟩
  · rw [h3, h4]
    exact ⟨le_rfl, h1, le_rfl, h2⟩
  · rw [h3, h4]
    have hpos : (0 : K) ≤ w.currentSpawnInterval := by
      have : (0 : K) ≤ CONFIG.MIN_SPAWN_INTERVAL_MS := by
        unfold CONFIG.MIN_SPAWN_INTERVAL_MS; norm_num
      linarith
    refine ⟨max_le h1 ?_, le_max_left _ _, le_min h2 ?_, min_le_left _ _⟩
    · unfold CONFIG.DIFFICULTY_FACTOR
      nlinarith
    · linarith [show (0 : K) ≤ 0.005 by norm_num]

theorem runFrames_difficulty (E : Env K) (ts : List K) (w : World K)
    (h1 : CONFIG.MIN_SPAWN_INTERVAL_MS ≤ w.currentSpawnInterval)
    (h2 : w.ENEMY_BASE_SPEED ≤ CONFIG.ENEMY_MAX_SPEED) :
    CONFIG.MIN_SPAWN_INTERVAL_MS ≤ (runFrames E ts w).currentSpawnInterval ∧
    (runFrames E ts w).ENEMY_BASE_SPEED ≤ CONFIG.ENEMY_MAX_SPEED := by
  induction ts generalizing w with
  | nil => exact ⟨h1, h2⟩
  | cons t ts ih =>
    obtain ⟨-, k1, -, k2⟩ := update_difficulty_step E t w h1 h2
    exact ih (update E t w) k1 k2

/-- C6: along every sequence of update frames that starts from spawn interval 1500 and a base
speed of at most ENEMY_MAX_SPEED, each frame leaves the spawn interval no larger than before
and at least MIN_SPAWN_INTERVAL_MS = 300, and the base speed no smaller than before and at
most ENEMY_MAX_SPEED = 8. -/
theorem difficulty_ramp_monotone (E : Env K) (w0 : World K) (ts : List K) (t : K)
    (h1 : w0.currentSpawnInterval = CONFIG.SPAWN_INTERVAL_MS)
    (h2 : w0.ENEMY_BASE_SPEED ≤ CONFIG.ENEMY_MAX_SPEED) :
    (update E t (runFrames E ts w0)).currentSpawnInterval
      ≤ (runFrames E ts w0).currentSpawnInterval ∧
    (300 : K) ≤ (update E t (runFrames E ts w0)).currentSpawnInterval ∧
    (runFrames E ts w0).ENEMY_BASE_SPEED
      ≤ (update E t (runFrames E ts w0)).ENEMY_BASE_SPEED ∧
    (update E t (runFrames E ts w0)).ENEMY_BASE_SPEED ≤ (8 : K) := by
  have h0 : CONFIG.MIN_SPAWN_INTERVAL_MS ≤ w0.currentSpawnInterval := by
    rw [h1]; unfold CONFIG.MIN_SPAWN_INTERVAL_MS CONFIG.SPAWN_INTERVAL_MS; norm_num
  obtain ⟨k1, k2⟩ := runFrames_difficulty E ts w0 h0 h2
  exact update_difficulty_step E t (runFrames E ts w0) k1 k2

/-! ### The particle cap -/

theorem enemyCallback_particles_le (E : Env K) (a : Enemy K) (k : Nat) (w : World K)
    (h : w.particles.length ≤ CONFIG.MAX_PARTICLES) :
    (enemyCallback E a k w).particles.length ≤ CONFIG.MAX_PARTICLES := by
  rw [enemyCallback_eq]
  split_ifs
  · exact shiftParticles_length_le _
  · exact shiftParticles_length_le _
  · exact h

theorem powerupCallback_particles_le (E : Env K) (dt : K) (a : PowerUp K) (k : Nat) (w : World K)
    (h : w.particles.length ≤ CONFIG.MAX_PARTICLES) :
    (powerupCallback E dt a k w).particles.length ≤ CONFIG.MAX_PARTICLES := by
  rw [powerupCallback_eq]
  split_ifs
  · exact h
  · exact shiftParticles_length_le _
  · exact shiftParticles_length_le _
  · exact h
  · exact h

theorem particleCallback_particles_le (dt : K) (a : Particle K) (k : Nat) (w : World K) :
    (particleCallback dt a k w).particles.length ≤ w.particles.length := by
  rw [particleCallback_eq]
  split_ifs
  · exact le_trans (List.length_eraseIdx_le _ _) (by simp)
  · simp

/-- One frame keeps the particle list within MAX_PARTICLES. -/
theorem update_particles_le (E : Env K) (t : K) (w : World K)
    (h : w.particles.length ≤ CONFIG.MAX_PARTICLES) :
    (update E t w).particles.length ≤ CONFIG.MAX_PARTICLES := by
  by_cases hp : w.gameState = GameState.playing
  swap
  · unfold update; rw [if_pos hp]; exact h
  rw [update_playing E t w hp]
  have h1 : (updateEnemies E (beginFrame E t w)).particles.length ≤ CONFIG.MAX_PARTICLES :=
    forEach_invariant World.enemies (enemyCallback E)
      (fun s => s.particles.length ≤ CONFIG.MAX_PARTICLES)
      (fun a k s _ hs => enemyCallback_particles_le E a k s hs) _ h
  have h2 : (updatePowerups E (t - w.lastUpdateTime)
      (updateEnemies E (beginFrame E t w))).particles.length ≤ CONFIG.MAX_PARTICLES :=
    forEach_invariant World.powerups (powerupCallback E (t - w.lastUpdateTime))
      (fun s => s.particles.length ≤ CONFIG.MAX_PARTICLES)
      (fun a k s _ hs => powerupCallback_particles_le E _ a k s hs) _ h1
  have h3 : (updateParticles (t - w.lastUpdateTime) (updatePowerups E (t - w.lastUpdateTime)
      (updateEnemies E (beginFrame E t w)))).particles.length ≤ CONFIG.MAX_PARTICLES :=
    forEach_invariant World.particles (particleCallback (t - w.lastUpdateTime))
      (fun s => s.particles.length ≤ CONFIG.MAX_PARTICLES)
      (fun a k s _ hs => le_trans (particleCallback_particles_le _ a k s) hs) _ h2
  obtain ⟨pu, rc, tr, k1⟩ := spawnPowerups_frame E (spawnEnemies E (updateParticles (t - w.lastUpdateTime)
    (updatePowerups E (t - w.lastUpdateTime) (updateEnemies E (beginFrame E t w)))))
  obtain ⟨es, rc', dc, tr', ls, si, bs, k2⟩ := spawnEnemies_frame E (updateParticles (t - w.lastUpdateTime)
    (updatePowerups E (t - w.lastUpdateTime) (updateEnemies E (beginFrame E t w))))
  rw [k1, k2]
  exact h3

theorem runFrames_particles_le (E : Env K) (ts : List K) (w : World K)
    (h : w.particles.length ≤ CONFIG.MAX_PARTICLES) :
    (runFrames E ts w).particles.length ≤ CONFIG.MAX_PARTICLES := by
  induction ts generalizing w with
  | nil => exact h
  | cons t ts ih => exact ih (update E t w) (update_particles_le E t w h)

/-- C8: createParticleBurst leaves the last min(|P| + n, MAX_PARTICLES) entries of the old list
P followed by the n new particles (the oldest entries are dropped), so at most
MAX_PARTICLES = 300; and after startGame the particle list has at most 300 entries after
every frame. -/
theorem particles_capped (E : Env K) (x y : K) (n : Nat) (color : String) (w : World K)
    (clientWidth clientHeight performanceNow : K) (ts : List K) :
    (createParticleBurst E x y n color w).particles
      = (w.particles ++ burstList E x y color n w.randomCalls).drop
          ((w.particles ++ burstList E x y color n w.randomCalls).length
            - min (w.particles.length + n) CONFIG.MAX_PARTICLES) ∧
    (burstList E x y color n w.randomCalls).length = n ∧
    (createParticleBurst E x y n color w).particles.length
      = min (w.particles.length + n) CONFIG.MAX_PARTICLES ∧
    (createParticleBurst E x y n color w).particles.length ≤ 300 ∧
    (runFrames E ts (startGame E clientWidth clientHeight performanceNow w)).particles.length
      ≤ 300 := by
  have hlen : (w.particles ++ burstList E x y color n w.randomCalls).length
      = w.particles.length + n := by
    rw [List.length_append, burstList_length]
  have hp : (createParticleBurst E x y n color w).particles
      = shiftParticles (w.particles ++ burstList E x y color n w.randomCalls) := by
    rw [createParticleBurst_eq]
  refine ⟨?_, burstList_length _ _ _ _ _ _, ?_, ?_, ?_⟩
  · rw [hp, shiftParticles_eq_drop, hlen]
    generalize CONFIG.MAX_PARTICLES = M
    congr 1
    omega
  · rw [hp, shiftParticles_eq_drop, List.length_drop, hlen]
    generalize CONFIG.MAX_PARTICLES = M
    omega
  · rw [hp]
    exact shiftParticles_length_le _
  · exact runFrames_particles_le E ts _ (by
      show ([] : List (Particle K)).length ≤ CONFIG.MAX_PARTICLES
      exact Nat.zero_le _)

/-! ### Enemy speed -/

theorem sqrt_eq_of_sq (E : Env K) (hE : E.SqrtSpec) (x s : K) (hs : 0 ≤ s) (h : x = s * s) :
    E.sqrt x = s := by
  obtain ⟨h0, hsq⟩ := hE x (by rw [h]; exact mul_self_nonneg s)
  rw [h] at hsq h0 ⊢
  exact (mul_self_inj_of_nonneg h0 hs).1 hsq

/-- The velocity after steering and before re-normalization is not the zero vector when the
old velocity is longer than HOMING_STRENGTH / (1 - HOMING_STRENGTH) times the speed. -/
theorem blended_ne_zero (E : Env K) (hE : E.SqrtSpec) (vx vy s tx ty : K) (hs : 0 < s)
    (hT : tx * tx + ty * ty ≤ 1)
    (hv : CONFIG.HOMING_STRENGTH / (1 - CONFIG.HOMING_STRENGTH) * s < E.sqrt (vx ^ 2 + vy ^ 2)) :
    E.sqrt ((vx * (1 - CONFIG.HOMING_STRENGTH) + tx * s * CONFIG.HOMING_STRENGTH) *
        (vx * (1 - CONFIG.HOMING_STRENGTH) + tx * s * CONFIG.HOMING_STRENGTH) +
      (vy * (1 - CONFIG.HOMING_STRENGTH) + ty * s * CONFIG.HOMING_STRENGTH) *
        (vy * (1 - CONFIG.HOMING_STRENGTH) + ty * s * CONFIG.HOMING_STRENGTH)) ≠ 0 := by
  intro hzero
  obtain ⟨-, hsq⟩ := hE _ (sumSq_nonneg
    (vx * (1 - CONFIG.HOMING_STRENGTH) + tx * s * CONFIG.HOMING_STRENGTH)
    (vy * (1 - CONFIG.HOMING_STRENGTH) + ty * s * CONFIG.HOMING_STRENGTH))
  rw [hzero, mul_zero] at hsq
  obtain ⟨m0, msq⟩ := hE (vx ^ 2 + vy ^ 2) (add_nonneg (sq_nonneg _) (sq_nonneg _))
  obtain ⟨hA, hB⟩ := mul_self_add_mul_self_eq_zero.1 hsq.symm
  unfold CONFIG.HOMING_STRENGTH at hv hA hB
  have hvx : vx = -(3 / 97) * s * tx := by linarith
  have hvy : vy = -(3 / 97) * s * ty := by linarith
  have hc : (0.03 : K) / (1 - 0.03) = 3 / 97 := by norm_num
  rw [hc] at hv
  have hcs : 0 < 3 / 97 * s := by positivity
  have hlt : (3 / 97 * s) * (3 / 97 * s) < vx ^ 2 + vy ^ 2 := by
    rw [← msq]
    exact mul_lt_mul'' hv hv hcs.le hcs.le
  rw [hvx, hvy] at hlt
  have : (3 / 97 * s) * (3 / 97 * s) * (tx * tx + ty * ty) ≤ (3 / 97 * s) * (3 / 97 * s) * 1 :=
    mul_le_mul_of_nonneg_left hT (mul_self_nonneg _)
  nlinarith

/-- C9: for an enemy with positive speed whose velocity before the update is longer than
HOMING_STRENGTH / (1 - HOMING_STRENGTH) times its speed, the velocity after Enemy.update has
magnitude sqrt(vx^2 + vy^2) exactly equal to the enemy's speed, for every player position and
every pair of noise draws; the speed field itself is unchanged. -/
theorem enemy_velocity_magnitude (E : Env K) (hE : E.SqrtSpec) (e : Enemy K) (w : World K)
    (hs : 0 < e.speed)
    (hv : CONFIG.HOMING_STRENGTH / (1 - CONFIG.HOMING_STRENGTH) * e.speed
      < E.sqrt (e.vx ^ 2 + e.vy ^ 2)) :
    E.sqrt ((Enemy.update E e w).1.vx ^ 2 + (Enemy.update E e w).1.vy ^ 2) = e.speed ∧
    (Enemy.update E e w).1.speed = e.speed := by
  refine ⟨?_, rfl⟩
  simp only [Enemy.update]
  generalize hT : normalize E
    { x := (normalize E { x := w.player.x - e.x, y := w.player.y - e.y }).x +
        ((random E w).1 - 0.5) * CONFIG.HOMING_NOISE_FACTOR,
      y := (normalize E { x := w.player.x - e.x, y := w.player.y - e.y }).y +
        ((random E (random E w).2).1 - 0.5) * CONFIG.HOMING_NOISE_FACTOR } = T
  have hTle : T.x * T.x + T.y * T.y ≤ 1 := by
    rw [← hT]; exact normalize_sq_le_one E hE _
  have hne := blended_ne_zero E hE e.vx e.vy e.speed T.x T.y hs hTle hv
  rcases normalize_sq E hE
    { x := e.vx * (1 - CONFIG.HOMING_STRENGTH) + T.x * e.speed * CONFIG.HOMING_STRENGTH,
      y := e.vy * (1 - CONFIG.HOMING_STRENGTH) + T.y * e.speed * CONFIG.HOMING_STRENGTH }
    with ⟨h0, -⟩ | ⟨-, h1⟩
  · exact absurd h0 hne
  · apply sqrt_eq_of_sq E hE _ _ hs.le
    generalize normalize E
      { x := e.vx * (1 - CONFIG.HOMING_STRENGTH) + T.x * e.speed * CONFIG.HOMING_STRENGTH,
        y := e.vy * (1 - CONFIG.HOMING_STRENGTH) + T.y * e.speed * CONFIG.HOMING_STRENGTH } = N
      at h1 ⊢
    have : (N.x * e.speed) ^ 2 + (N.y * e.speed) ^ 2
        = (N.x * N.x + N.y * N.y) * (e.speed * e.speed) := by ring
    rw [this, h1, one_mul]

/-! ### The state before the spawners -/

theorem update_eq_spawners (E : Env K) (t : K) (w : World K)
    (h : w.gameState = GameState.playing) :
    update E t w = spawnPowerups E (spawnEnemies E (beforeSpawners E t w)) :=
  update_playing E t w h

theorem enemyCallback_enemies_length (E : Env K) (a : Enemy K) (k : Nat) (w : World K) :
    (enemyCallback E a k w).enemies.length ≤ w.enemies.length := by
  rw [enemyCallback_eq]
  split_ifs
  · exact le_trans (List.length_eraseIdx_le _ _) (by simp)
  · simp
  · simp

theorem updateEnemies_enemies_length (E : Env K) (w : World K) :
    (updateEnemies E w).enemies.length ≤ w.enemies.length :=
  forEach_invariant World.enemies (enemyCallback E)
    (fun s => s.enemies.length ≤ w.enemies.length)
    (fun a k s _ hs => le_trans (enemyCallback_enemies_length E a k s) hs) w le_rfl

/-- What the frame has and has not assigned when the spawners start. -/
theorem beforeSpawners_fields (E : Env K) (t : K) (w : World K) :
    (beforeSpawners E t w).lastSpawnTime = w.lastSpawnTime ∧
    (beforeSpawners E t w).currentSpawnInterval = w.currentSpawnInterval ∧
    (beforeSpawners E t w).ENEMY_BASE_SPEED = w.ENEMY_BASE_SPEED ∧
    (beforeSpawners E t w).dateNowCalls = w.dateNowCalls + 1 ∧
    (beforeSpawners E t w).enemies = (updateEnemies E (beginFrame E t w)).enemies ∧
    (beforeSpawners E t w).gameState = (updateEnemies E (beginFrame E t w)).gameState ∧
    (beforeSpawners E t w).trace
      = (updatePowerups E (t - w.lastUpdateTime) (updateEnemies E (beginFrame E t w))).trace := by
  obtain ⟨ps, h3⟩ := particleLoop_frame (t - w.lastUpdateTime)
    (updatePowerups E (t - w.lastUpdateTime) (updateEnemies E (beginFrame E t w))).particles.length 0
    (updatePowerups E (t - w.lastUpdateTime) (updateEnemies E (beginFrame E t w)))
  obtain ⟨sh, sl, pu', ps', rc'', tr'', h4⟩ := powerupLoop_frame E (t - w.lastUpdateTime)
    (updateEnemies E (beginFrame E t w)).powerups.length 0 (updateEnemies E (beginFrame E t w))
  obtain ⟨gs, es, ps2, rc, tr, h5⟩ := enemyLoop_frame E (beginFrame E t w).enemies.length 0
    (beginFrame E t w)
  have e3 : beforeSpawners E t w = _ := h3
  have e4 : updatePowerups E (t - w.lastUpdateTime) (updateEnemies E (beginFrame E t w)) = _ := h4
  have e5 : updateEnemies E (beginFrame E t w) = _ := h5
  refine ⟨?_, ?_, ?_, ?_, ?_, ?_, ?_⟩
  · rw [e3, e4, e5]; rfl
  · rw [e3, e4, e5]; rfl
  · rw [e3, e4, e5]; rfl
  · rw [e3, e4, e5]; rfl
  · rw [e3, e4]
  · rw [e3, e4]
  · rw [e3]

/-- A frame whose clock has run past the spawn interval, with room for one more enemy,
spawns an enemy and raises the base speed. -/
theorem update_spawns (E : Env K) (t : K) (w : World K) (h : w.gameState = GameState.playing)
    (hclock : E.dateNow (w.dateNowCalls + 1) - w.lastSpawnTime > w.currentSpawnInterval)
    (hroom : w.enemies.length < CONFIG.MAX_ENEMIES) :
    (update E t w).ENEMY_BASE_SPEED = min CONFIG.ENEMY_MAX_SPEED (w.ENEMY_BASE_SPEED + 0.005) ∧
    ∃ e c, (update E t w).trace = (beforeSpawners E t w).trace ++ Event.enemySpawn e :: c := by
  obtain ⟨f1, f2, f3, f4, f5, -, -⟩ := beforeSpawners_fields E t w
  have hcond : E.dateNow (beforeSpawners E t w).dateNowCalls - (beforeSpawners E t w).lastSpawnTime
      > (beforeSpawners E t w).currentSpawnInterval ∧
      (beforeSpawners E t w).enemies.length < CONFIG.MAX_ENEMIES := by
    rw [f1, f2, f4, f5]
    refine ⟨hclock, lt_of_le_of_lt ?_ hroom⟩
    exact updateEnemies_enemies_length E (beginFrame E t w)
  rw [update_eq_spawners E t w h]
  obtain ⟨pu, rc, tr, k1⟩ := spawnPowerups_frame E (spawnEnemies E (beforeSpawners E t w))
  obtain ⟨c, hc, -⟩ := spawnPowerups_trace E (spawnEnemies E (beforeSpawners E t w))
  refine ⟨?_, (Enemy.new E (beforeSpawners E t w)).1, c, ?_⟩
  · rw [k1]
    show (spawnEnemies E (beforeSpawners E t w)).ENEMY_BASE_SPEED = _
    rw [spawnEnemies_eq, if_pos hcond, ← f3]
  · rw [hc, spawnEnemies_eq, if_pos hcond]
    simp

/-! ### Restarting a session -/

/-- What startGame assigns: the state, the canvas size, a fresh player, empty lists, the
clocks, the spawn interval and the timers; CONFIG.ENEMY_BASE_SPEED is not among them. -/
theorem startGame_eq (E : Env K) (cw ch pn : K) (w : World K) :
    startGame E cw ch pn w =
      { w with
        gameState := GameState.playing, canvasWidth := cw, canvasHeight := ch,
        player := Player.new (cw / 2) (ch / 2), enemies := [], powerups := [], particles := [],
        score := 0, startTime := E.dateNow w.dateNowCalls,
        lastSpawnTime := E.dateNow w.dateNowCalls, dateNowCalls := w.dateNowCalls + 1,
        currentSpawnInterval := CONFIG.SPAWN_INTERVAL_MS, shieldTimer := 0, slowTimer := 0,
        lastUpdateTime := pn } := rfl

/-- C7, failing input: a session in which one enemy was spawned ends with base speed 1.505;
startGame resets the spawn interval to 1500 but leaves the base speed at 1.505, not 1.5. -/
theorem restart_keeps_ramped_speed :
    (update (steadyEnv Real.sqrt Real.cos Real.sin Real.pi) 16
      (arena 0 [enemyOnPlayer, enemyOnPlayer])).gameState = GameState.gameOver ∧
    (update (steadyEnv Real.sqrt Real.cos Real.sin Real.pi) 16
      (arena 0 [enemyOnPlayer, enemyOnPlayer])).ENEMY_BASE_SPEED = 1.505 ∧
    (startGame (steadyEnv Real.sqrt Real.cos Real.sin Real.pi) 800 600 3000
      (update (steadyEnv Real.sqrt Real.cos Real.sin Real.pi) 16
        (arena 0 [enemyOnPlayer, enemyOnPlayer]))).currentSpawnInterval
      = CONFIG.SPAWN_INTERVAL_MS ∧
    (startGame (steadyEnv Real.sqrt Real.cos Real.sin Real.pi) 800 600 3000
      (update (steadyEnv Real.sqrt Real.cos Real.sin Real.pi) 16
        (arena 0 [enemyOnPlayer, enemyOnPlayer]))).ENEMY_BASE_SPEED = 1.505 ∧
    (1.505 : ℝ) ≠ CONFIG.ENEMY_BASE_SPEED_INITIAL := by
  have hE : (steadyEnv Real.sqrt Real.cos Real.sin Real.pi).SqrtSpec := sqrtSpec_real _ rfl
  obtain ⟨hsh, h0, -⟩ := arena_two_overlaps (steadyEnv Real.sqrt Real.cos Real.sin Real.pi) hE 16
    (by norm_num)
  have hsh' : ¬ 0 < (beginFrame (steadyEnv Real.sqrt Real.cos Real.sin Real.pi) 16
      (arena 0 [enemyOnPlayer, enemyOnPlayer])).shieldTimer := by
    rw [hsh]; exact lt_irrefl 0
  have hspeed : (update (steadyEnv Real.sqrt Real.cos Real.sin Real.pi) 16
      (arena 0 [enemyOnPlayer, enemyOnPlayer])).ENEMY_BASE_SPEED = 1.505 := by
    rw [(update_spawns (steadyEnv Real.sqrt Real.cos Real.sin Real.pi) 16
      (arena 0 [enemyOnPlayer, enemyOnPlayer]) rfl
      (by simp only [steadyEnv, arena, CONFIG.SPAWN_INTERVAL_MS]; norm_num)
      (by simp [arena, CONFIG.MAX_ENEMIES])).1]
    simp only [arena, CONFIG.ENEMY_MAX_SPEED, CONFIG.ENEMY_BASE_SPEED_INITIAL]
    norm_num
  refine ⟨?_, hspeed, rfl, hspeed, ?_⟩
  · rw [update_gameState _ _ _ rfl]
    exact updateEnemies_gameState_of_overlap _ _ hsh' 0 (by rw [beginFrame_arena]; simp [arena]) h0
  · unfold CONFIG.ENEMY_BASE_SPEED_INITIAL
    norm_num

/-! ### After GameOver -/

theorem update_of_not_playing (E : Env K) (t : K) (w : World K)
    (h : w.gameState ≠ GameState.playing) : update E t w = w := by
  unfold update; rw [if_pos h]

theorem runFrames_of_not_playing (E : Env K) (ts : List K) (w : World K)
    (h : w.gameState ≠ GameState.playing) : runFrames E ts w = w := by
  induction ts with
  | nil => rfl
  | cons t ts ih =>
    show runFrames E ts (update E t w) = w
    rw [update_of_not_playing E t w h]
    exact ih

theorem enemyCallback_fired (E : Env K) (a : Enemy K) (k : Nat) (w : World K) :
    gameOverCalls (enemyCallback E a k w).trace = gameOverCalls w.trace ∨
      (enemyCallback E a k w).gameState = GameState.gameOver := by
  rw [enemyCallback_eq]
  split_ifs
  · left; simp [gameOverCalls_append, gameOverCalls, Event.isGameOver]
  · right; rfl
  · left; simp [gameOverCalls_append, gameOverCalls, Event.isGameOver]

/-- When the enemy loop has called gameOver(), the state is GameOver at its end. -/
theorem updateEnemies_fired (E : Env K) (w : World K) :
    gameOverCalls (updateEnemies E w).trace = gameOverCalls w.trace ∨
      (updateEnemies E w).gameState = GameState.gameOver :=
  forEach_invariant World.enemies (enemyCallback E)
    (fun s => gameOverCalls s.trace = gameOverCalls w.trace ∨ s.gameState = GameState.gameOver)
    (fun a k s _ hs => by
      rcases hs with hs | hs
      · rcases enemyCallback_fired E a k s with h | h
        · left; rw [h, hs]
        · right; exact h
      · right; exact enemyCallback_gameOver_stays E a k s hs) w (Or.inl rfl)

/-- C10 (as amended): once gameOver() has been called in a frame, the state is GameOver when
that frame ends, and every later call of update leaves the whole state as it is: no enemy is
updated and nothing is spawned in any later frame. -/
theorem gameOver_freezes_later_frames (E : Env K) (t : K) (w : World K) (ts : List K)
    (hplay : w.gameState = GameState.playing)
    (hfired : 1 ≤ gameOverCalls (eventsSince w.trace.length (update E t w))) :
    (update E t w).gameState = GameState.gameOver ∧
    runFrames E ts (update E t w) = update E t w ∧
    eventsSince (update E t w).trace.length (runFrames E ts (update E t w)) = [] := by
  have h1 := update_gameOverCalls E t w hplay
  have hgs : (update E t w).gameState = GameState.gameOver := by
    rw [update_gameState E t w hplay]
    rcases updateEnemies_fired E (beginFrame E t w) with h | h
    · rw [beginFrame_trace] at h
      omega
    · exact h
  have hrun : runFrames E ts (update E t w) = update E t w :=
    runFrames_of_not_playing E ts _ (by rw [hgs]; decide)
  refine ⟨hgs, hrun, ?_⟩
  rw [hrun]
  unfold eventsSince
  simp

/-- The log entries of a turn whose enemy overlaps the player while the shield is off. -/
theorem enemyTurn_trace_unshielded (E : Env K) (w1 : World K) (hsh : ¬ 0 < w1.shieldTimer)
    (n : Nat) (e : Enemy K) (hget : (beforeEnemyTurn E w1 n).enemies[n]? = some e)
    (hov : overlapAtTurn E w1 n) :
    (beforeEnemyTurn E w1 (n + 1)).trace =
      (beforeEnemyTurn E w1 n).trace ++
        [Event.enemyUpdate n e, Event.gameOver (w1.timeSurvived / 10)] := by
  have hts : (beforeEnemyTurn E w1 n).timeSurvived = w1.timeSurvived := by
    obtain ⟨gs, es, ps, rc, tr, h⟩ := beforeEnemyTurn_frame E w1 n
    rw [h]
  rw [beforeEnemyTurn_succ, forEachStep_some _ _ _ _ e hget, enemyCallback_eq,
    beforeEnemyTurn_shieldTimer, if_pos ((overlapAtTurn_some E w1 n e hget).1 hov), if_neg hsh,
    ← hts]

/-- The log of the frame in the arena with the shield off and two enemies on the player:
the second enemy is updated after the first gameOver() call, and an enemy is spawned after
both. -/
theorem arena_unshielded_trace (E : Env K) (hE : E.SqrtSpec) (t : K) (ht : 0 ≤ t)
    (hclock : E.dateNow 1 > CONFIG.SPAWN_INTERVAL_MS) :
    ∃ ft e c, (update E t (arena 0 [enemyOnPlayer, enemyOnPlayer])).trace =
      [Event.enemyUpdate 0 enemyOnPlayer, Event.gameOver ft,
       Event.enemyUpdate 1 enemyOnPlayer, Event.gameOver ft, Event.enemySpawn e] ++ c := by
  obtain ⟨hsh, h0, h1⟩ := arena_two_overlaps E hE t ht
  have hsh' : ¬ 0 < (beginFrame E t (arena 0 [enemyOnPlayer, enemyOnPlayer])).shieldTimer := by
    rw [hsh]; exact lt_irrefl 0
  have hget : ∀ n, n < 2 →
      (beforeEnemyTurn E (beginFrame E t (arena 0 [enemyOnPlayer, enemyOnPlayer])) n).enemies[n]?
        = some enemyOnPlayer := by
    intro n hn
    rw [beforeEnemyTurn_enemies_unshielded E _ hsh' n n le_rfl, beginFrame_arena]
    simp only [arena]
    interval_cases n <;> rfl
  have t1 := enemyTurn_trace_unshielded E _ hsh' 0 _ (hget 0 (by norm_num)) h0
  have t2 := enemyTurn_trace_unshielded E _ hsh' 1 _ (hget 1 (by norm_num)) h1
  rw [t1, beforeEnemyTurn_zero, beginFrame_trace] at t2
  have hlen : (beginFrame E t (arena 0 [enemyOnPlayer, enemyOnPlayer])).enemies.length = 2 := by
    rw [beginFrame_arena]; rfl
  obtain ⟨-, -, -, -, -, -, f7⟩ := beforeSpawners_fields E t (arena 0 [enemyOnPlayer, enemyOnPlayer])
  obtain ⟨b, hb, -⟩ := powerupLoop_trace E (t - (arena (0 : K) [enemyOnPlayer, enemyOnPlayer]).lastUpdateTime)
    (updateEnemies E (beginFrame E t (arena 0 [enemyOnPlayer, enemyOnPlayer]))).powerups.length 0
    (updateEnemies E (beginFrame E t (arena 0 [enemyOnPlayer, enemyOnPlayer])))
  have hpu : (updateEnemies E (beginFrame E t (arena 0 [enemyOnPlayer, enemyOnPlayer]))).powerups
      = [] := by
    obtain ⟨gs, es, ps2, rc, tr, h5⟩ := enemyLoop_frame E
      (beginFrame E t (arena 0 [enemyOnPlayer, enemyOnPlayer])).enemies.length 0
      (beginFrame E t (arena 0 [enemyOnPlayer, enemyOnPlayer]))
    have e5 : updateEnemies E (beginFrame E t (arena 0 [enemyOnPlayer, enemyOnPlayer])) = _ := h5
    rw [e5, beginFrame_arena]
    rfl
  have hpt : (updatePowerups E (t - (arena (0 : K) [enemyOnPlayer, enemyOnPlayer]).lastUpdateTime)
      (updateEnemies E (beginFrame E t (arena 0 [enemyOnPlayer, enemyOnPlayer])))).trace
      = (updateEnemies E (beginFrame E t (arena 0 [enemyOnPlayer, enemyOnPlayer]))).trace := by
    unfold updatePowerups forEach
    rw [hpu]
    rfl
  obtain ⟨-, e, c, hc⟩ := update_spawns E t (arena 0 [enemyOnPlayer, enemyOnPlayer]) rfl
    (by simpa [arena] using hclock) (by simp [arena, CONFIG.MAX_ENEMIES])
  refine ⟨(beginFrame E t (arena 0 [enemyOnPlayer, enemyOnPlayer])).timeSurvived / 10, e, c, ?_⟩
  rw [hc, f7, hpt, updateEnemies_eq_turn, hlen, t2]
  simp [arena]

/-! ### The arena with a power-up -/

theorem beginFrame_arenaWithPowerups (E : Env K) (t s : K) (ps : List (PowerUp K)) :
    beginFrame E t (arenaWithPowerups s ps) =
      { arenaWithPowerups s ps with
        lastUpdateTime := t, dateNowCalls := 1,
        timeSurvived := ((Int.floor ((E.dateNow 0 - 0) / 100) : Int) : K),
        shieldTimer := max 0 (s - (t - 0) / 1000),
        slowTimer := max 0 (0 - (t - 0) / 1000) } := by
  have h : ∀ a c : K, Player.update E
      { arenaWithPowerups s ps with lastUpdateTime := a, dateNowCalls := 1, timeSurvived := c } =
      { arenaWithPowerups s ps with lastUpdateTime := a, dateNowCalls := 1, timeSurvived := c } := by
    intro a c
    have hk : keyDirection
        { arenaWithPowerups s ps with lastUpdateTime := a, dateNowCalls := 1, timeSurvived := c }
        = { x := 0, y := 0 } := by simp [keyDirection, arena, arenaWithPowerups]
    unfold Player.update Player.moved
    rw [hk]
    simp only [ne_eq, not_true_eq_false, or_self, if_false]
    simp only [arena, arenaWithPowerups, Player.new, CONFIG.PLAYER_RADIUS]
    norm_num
  unfold beginFrame
  simp only [dateNow]
  have h' := h t ((Int.floor ((E.dateNow 0 - 0) / 100) : Int) : K)
  simp only [arena, arenaWithPowerups] at h' ⊢
  rw [h']

/-- In the arena with a shield power-up on the player, the frame picks the power-up up. -/
theorem arena_pickup (E : Env K) (hE : E.SqrtSpec) (t s : K) (ht : t < 10000) :
    Event.pickup (PowerUp.update shieldOnPlayer (t - 0)) ∈
      eventsSince (arenaWithPowerups s [shieldOnPlayer]).trace.length
        (update E t (arenaWithPowerups s [shieldOnPlayer])) := by
  obtain ⟨a, b, c, -, hb, hc, -, -, -⟩ :=
    update_trace E t (arenaWithPowerups s [shieldOnPlayer]) rfl
  have hw1 := beginFrame_arenaWithPowerups E t s [shieldOnPlayer]
  have hen : updateEnemies E (beginFrame E t (arenaWithPowerups s [shieldOnPlayer]))
      = beginFrame E t (arenaWithPowerups s [shieldOnPlayer]) := by
    unfold updateEnemies forEach
    rw [hw1]
    rfl
  have hget : (beginFrame E t (arenaWithPowerups s [shieldOnPlayer])).powerups[0]?
      = some shieldOnPlayer := by rw [hw1]; rfl
  have hlen : (beginFrame E t (arenaWithPowerups s [shieldOnPlayer])).powerups.length = 1 := by
    rw [hw1]; rfl
  have hlife : ¬ (PowerUp.update shieldOnPlayer (t - 0)).life ≤ 0 := by
    simp only [PowerUp.update, shieldOnPlayer, sub_zero, not_le]
    linarith
  have hdist : distance E (beginFrame E t (arenaWithPowerups s [shieldOnPlayer])).player.x
      (beginFrame E t (arenaWithPowerups s [shieldOnPlayer])).player.y
      (shieldOnPlayer : PowerUp K).x (shieldOnPlayer : PowerUp K).y
      < (beginFrame E t (arenaWithPowerups s [shieldOnPlayer])).player.radius
        + (shieldOnPlayer : PowerUp K).radius := by
    rw [hw1]
    unfold distance
    apply sqrt_lt_of_lt_sq E hE _ _ (add_nonneg (sq_nonneg _) (sq_nonneg _))
    · simp only [arena, arenaWithPowerups, Player.new, shieldOnPlayer, CONFIG.PLAYER_RADIUS]
      norm_num
    · simp only [arena, arenaWithPowerups, Player.new, shieldOnPlayer, CONFIG.PLAYER_RADIUS]
      norm_num
  have htr : (updatePowerups E (t - (arenaWithPowerups s [shieldOnPlayer]).lastUpdateTime)
      (updateEnemies E (beginFrame E t (arenaWithPowerups s [shieldOnPlayer])))).trace
      = [Event.powerupUpdate 0 shieldOnPlayer,
         Event.pickup (PowerUp.update shieldOnPlayer (t - 0))] := by
    rw [hen]
    unfold updatePowerups forEach
    rw [hlen]
    show (forEachStep World.powerups _ 0 _).trace = _
    rw [forEachStep_some _ _ _ _ _ hget, powerupCallback_eq]
    have hlu : (arenaWithPowerups s [shieldOnPlayer]).lastUpdateTime = 0 := rfl
    rw [hlu, if_neg hlife, if_pos hdist, if_pos (by rfl)]
    rfl
  have hmem : Event.pickup (PowerUp.update shieldOnPlayer (t - 0)) ∈
      (update E t (arenaWithPowerups s [shieldOnPlayer])).trace := by
    rw [hc, ← hb, htr]
    simp
  unfold eventsSince
  have h0 : (arenaWithPowerups s [shieldOnPlayer]).trace.length = 0 := rfl
  rw [h0, List.drop_zero]
  exact hmem

/-- With the shield on, the first enemy of the arena is processed in turn 0 and overlaps the
player after its update. -/
theorem arena_shielded_first_turn (E : Env K) (hE : E.SqrtSpec) (t : K) (ht : t < 1000) :
    0 < (beginFrame E t (arena 1 [enemyOnPlayer, enemyOnPlayerMovingDown])).shieldTimer ∧
    (beforeEnemyTurn E (beginFrame E t (arena 1 [enemyOnPlayer, enemyOnPlayerMovingDown]))
      0).enemies[0]? = some enemyOnPlayer ∧
    overlaps E
      (beforeEnemyTurn E (beginFrame E t (arena 1 [enemyOnPlayer, enemyOnPlayerMovingDown]))
        0).player
      (Enemy.update E enemyOnPlayer
        (beforeEnemyTurn E (beginFrame E t (arena 1 [enemyOnPlayer, enemyOnPlayerMovingDown]))
          0)).1 := by
  have hw1 := beginFrame_arena E t 1 [enemyOnPlayer, enemyOnPlayerMovingDown]
  refine ⟨?_, ?_, ?_⟩
  · rw [hw1]
    simp only [sub_zero]
    apply lt_max_of_lt_right
    have : t / 1000 < 1 := by rw [div_lt_one (by norm_num)]; exact ht
    linarith
  · rw [beforeEnemyTurn_zero, hw1]; rfl
  · rw [beforeEnemyTurn_zero, hw1]
    apply overlaps_of_on_player E hE
    · rfl
    · rfl
    · simp only [arena, Player.new, enemyOnPlayer, CONFIG.PLAYER_RADIUS, CONFIG.ENEMY_RADIUS]
      norm_num
    · simp only [arena, Player.new, enemyOnPlayer, CONFIG.PLAYER_RADIUS, CONFIG.ENEMY_RADIUS]
      norm_num

/-! ### The theorems at concrete inputs -/

/-- C1 at the arena: the field is 800 by 600, the radius is 15. -/
theorem player_update_within_bounds_witness :
    2 * (arena (0 : ℝ) []).player.radius ≤ (arena (0 : ℝ) []).canvasWidth ∧
    2 * (arena (0 : ℝ) []).player.radius ≤ (arena (0 : ℝ) []).canvasHeight ∧
    (arena (0 : ℝ) []).player.radius
      ≤ (Player.update (steadyEnv Real.sqrt Real.cos Real.sin Real.pi) (arena 0 [])).player.x ∧
    (Player.update (steadyEnv Real.sqrt Real.cos Real.sin Real.pi) (arena 0 [])).player.x
      ≤ (arena (0 : ℝ) []).canvasWidth - (arena (0 : ℝ) []).player.radius :=
  have h1 : 2 * (arena (0 : ℝ) []).player.radius ≤ (arena (0 : ℝ) []).canvasWidth := by
    simp only [arena, Player.new, CONFIG.PLAYER_RADIUS]; norm_num
  have h2 : 2 * (arena (0 : ℝ) []).player.radius ≤ (arena (0 : ℝ) []).canvasHeight := by
    simp only [arena, Player.new, CONFIG.PLAYER_RADIUS]; norm_num
  have h := player_update_within_bounds (steadyEnv Real.sqrt Real.cos Real.sin Real.pi)
    (arena 0 []) h1 h2
  ⟨h1, h2, h.2.1, h.2.2.1⟩

/-- C2 (as amended) at the arena with the shield off and two enemies on the player. -/
theorem unshielded_overlap_gameOver_witness :
    (update (steadyEnv Real.sqrt Real.cos Real.sin Real.pi) 16
      (arena 0 [enemyOnPlayer, enemyOnPlayer])).gameState = GameState.gameOver ∧
    gameOverCalls (eventsSince (arena (0 : ℝ) [enemyOnPlayer, enemyOnPlayer]).trace.length
      (update (steadyEnv Real.sqrt Real.cos Real.sin Real.pi) 16
        (arena 0 [enemyOnPlayer, enemyOnPlayer])))
      = overlapTurns (steadyEnv Real.sqrt Real.cos Real.sin Real.pi)
          (beginFrame (steadyEnv Real.sqrt Real.cos Real.sin Real.pi) 16
            (arena 0 [enemyOnPlayer, enemyOnPlayer])) ∧
    1 ≤ overlapTurns (steadyEnv Real.sqrt Real.cos Real.sin Real.pi)
          (beginFrame (steadyEnv Real.sqrt Real.cos Real.sin Real.pi) 16
            (arena 0 [enemyOnPlayer, enemyOnPlayer])) := by
  have hE : (steadyEnv Real.sqrt Real.cos Real.sin Real.pi).SqrtSpec := sqrtSpec_real _ rfl
  obtain ⟨hsh, h0, -⟩ := arena_two_overlaps (steadyEnv Real.sqrt Real.cos Real.sin Real.pi) hE 16
    (by norm_num)
  exact unshielded_overlap_gameOver (steadyEnv Real.sqrt Real.cos Real.sin Real.pi) 16
    (arena 0 [enemyOnPlayer, enemyOnPlayer]) 0 rfl hsh
    (by rw [beginFrame_arena]; simp [arena]) h0

/-- C3 at the arena with the shield on and two enemies on the player: the first enemy is
removed and the state stays Playing. -/
theorem shielded_overlap_removes_enemy_witness :
    (beforeEnemyTurn (steadyEnv Real.sqrt Real.cos Real.sin Real.pi)
      (beginFrame (steadyEnv Real.sqrt Real.cos Real.sin Real.pi) 16
        (arena 1 [enemyOnPlayer, enemyOnPlayerMovingDown])) (0 + 1)).enemies
      = (beforeEnemyTurn (steadyEnv Real.sqrt Real.cos Real.sin Real.pi)
          (beginFrame (steadyEnv Real.sqrt Real.cos Real.sin Real.pi) 16
            (arena 1 [enemyOnPlayer, enemyOnPlayerMovingDown])) 0).enemies.eraseIdx 0 ∧
    (update (steadyEnv Real.sqrt Real.cos Real.sin Real.pi) 16
      (arena 1 [enemyOnPlayer, enemyOnPlayerMovingDown])).gameState = GameState.playing := by
  have hE : (steadyEnv Real.sqrt Real.cos Real.sin Real.pi).SqrtSpec := sqrtSpec_real _ rfl
  obtain ⟨hsh, hget, hov⟩ := arena_shielded_first_turn
    (steadyEnv Real.sqrt Real.cos Real.sin Real.pi) hE 16 (by norm_num)
  have h := shielded_overlap_removes_enemy (steadyEnv Real.sqrt Real.cos Real.sin Real.pi) 16
    (arena 1 [enemyOnPlayer, enemyOnPlayerMovingDown]) 0 enemyOnPlayer rfl hsh
    (by rw [beginFrame_arena]; simp [arena]) hget hov
  exact ⟨h.1, h.2.2.1⟩

/-- C5 at the arena with a shield power-up on the player and 3 seconds of shield left: the
timer is 5 after the frame. -/
theorem pickup_resets_timer_witness :
    (update (steadyEnv Real.sqrt Real.cos Real.sin Real.pi) 16
      (arenaWithPowerups 3 [shieldOnPlayer])).shieldTimer = 5 := by
  have hE : (steadyEnv Real.sqrt Real.cos Real.sin Real.pi).SqrtSpec := sqrtSpec_real _ rfl
  have hp := arena_pickup (steadyEnv Real.sqrt Real.cos Real.sin Real.pi) hE 16 3 (by norm_num)
  exact (pickup_resets_timer (steadyEnv Real.sqrt Real.cos Real.sin Real.pi) 16
    (arenaWithPowerups 3 [shieldOnPlayer]) _ rfl hp).1 rfl

/-- C6 at the arena: two frames in a row. -/
theorem difficulty_ramp_monotone_witness :
    (arena (0 : ℝ) []).currentSpawnInterval = CONFIG.SPAWN_INTERVAL_MS ∧
    (arena (0 : ℝ) []).ENEMY_BASE_SPEED ≤ CONFIG.ENEMY_MAX_SPEED ∧
    (update (steadyEnv Real.sqrt Real.cos Real.sin Real.pi) 32
        (runFrames (steadyEnv Real.sqrt Real.cos Real.sin Real.pi) [16]
          (arena 0 []))).currentSpawnInterval
      ≤ (runFrames (steadyEnv Real.sqrt Real.cos Real.sin Real.pi) [16]
          (arena 0 [])).currentSpawnInterval ∧
    (update (steadyEnv Real.sqrt Real.cos Real.sin Real.pi) 32
        (runFrames (steadyEnv Real.sqrt Real.cos Real.sin Real.pi) [16]
          (arena 0 []))).ENEMY_BASE_SPEED ≤ 8 :=
  have h2 : (arena (0 : ℝ) []).ENEMY_BASE_SPEED ≤ CONFIG.ENEMY_MAX_SPEED := by
    simp only [arena, CONFIG.ENEMY_BASE_SPEED_INITIAL, CONFIG.ENEMY_MAX_SPEED]; norm_num
  have h := difficulty_ramp_monotone (steadyEnv Real.sqrt Real.cos Real.sin Real.pi)
    (arena 0 []) [16] 32 rfl h2
  ⟨rfl, h2, h.1, h.2.2.2⟩

/-- C9 at an enemy of speed 1.5 and velocity (1.5, 0), the in-particular case of the claim. -/
theorem enemy_velocity_magnitude_witness :
    (0 : ℝ) < (enemyOnPlayer : Enemy ℝ).speed ∧
    Real.sqrt ((Enemy.update (steadyEnv Real.sqrt Real.cos Real.sin Real.pi) enemyOnPlayer
        (arena 0 [enemyOnPlayer])).1.vx ^ 2 +
      (Enemy.update (steadyEnv Real.sqrt Real.cos Real.sin Real.pi) enemyOnPlayer
        (arena 0 [enemyOnPlayer])).1.vy ^ 2) = 1.5 := by
  have hE : (steadyEnv Real.sqrt Real.cos Real.sin Real.pi).SqrtSpec := sqrtSpec_real _ rfl
  have hs : (0 : ℝ) < (enemyOnPlayer : Enemy ℝ).speed := by
    simp only [enemyOnPlayer]; norm_num
  have hm : (steadyEnv Real.sqrt Real.cos Real.sin Real.pi).sqrt
      ((enemyOnPlayer : Enemy ℝ).vx ^ 2 + (enemyOnPlayer : Enemy ℝ).vy ^ 2) = 1.5 :=
    sqrt_eq_of_sq _ hE _ _ (by norm_num) (by simp only [enemyOnPlayer]; norm_num)
  have hv : CONFIG.HOMING_STRENGTH / (1 - CONFIG.HOMING_STRENGTH) * (enemyOnPlayer : Enemy ℝ).speed
      < (steadyEnv Real.sqrt Real.cos Real.sin Real.pi).sqrt
        ((enemyOnPlayer : Enemy ℝ).vx ^ 2 + (enemyOnPlayer : Enemy ℝ).vy ^ 2) := by
    rw [hm]
    simp only [enemyOnPlayer, CONFIG.HOMING_STRENGTH]
    norm_num
  exact ⟨hs, (enemy_velocity_magnitude (steadyEnv Real.sqrt Real.cos Real.sin Real.pi) hE
    enemyOnPlayer (arena 0 [enemyOnPlayer]) hs hv).1⟩

/-- C10, counterexample: in the frame in which gameOver() is first called, the second enemy is
updated after that call and an enemy is spawned after it. -/
theorem updates_and_spawns_after_gameOver :
    ∃ ft e c,
      eventsSince (arena (0 : ℝ) [enemyOnPlayer, enemyOnPlayer]).trace.length
        (update (steadyEnv Real.sqrt Real.cos Real.sin Real.pi) 16
          (arena 0 [enemyOnPlayer, enemyOnPlayer])) =
      [Event.enemyUpdate 0 enemyOnPlayer, Event.gameOver ft,
       Event.enemyUpdate 1 enemyOnPlayer, Event.gameOver ft, Event.enemySpawn e] ++ c := by
  have hE : (steadyEnv Real.sqrt Real.cos Real.sin Real.pi).SqrtSpec := sqrtSpec_real _ rfl
  obtain ⟨ft, e, c, h⟩ := arena_unshielded_trace (steadyEnv Real.sqrt Real.cos Real.sin Real.pi)
    hE 16 (by norm_num) (by simp only [steadyEnv, CONFIG.SPAWN_INTERVAL_MS]; norm_num)
  refine ⟨ft, e, c, ?_⟩
  unfold eventsSince
  rw [h]
  rfl

/-- C10 (as amended) at the arena with the shield off and two enemies on the player: two
later frames change nothing. -/
theorem gameOver_freezes_later_frames_witness :
    runFrames (steadyEnv Real.sqrt Real.cos Real.sin Real.pi) [32, 48]
      (update (steadyEnv Real.sqrt Real.cos Real.sin Real.pi) 16
        (arena 0 [enemyOnPlayer, enemyOnPlayer]))
      = update (steadyEnv Real.sqrt Real.cos Real.sin Real.pi) 16
        (arena 0 [enemyOnPlayer, enemyOnPlayer]) := by
  have hE : (steadyEnv Real.sqrt Real.cos Real.sin Real.pi).SqrtSpec := sqrtSpec_real _ rfl
  have h2 := arena_unshielded_calls (steadyEnv Real.sqrt Real.cos Real.sin Real.pi) hE 16
    (by norm_num)
  exact (gameOver_freezes_later_frames (steadyEnv Real.sqrt Real.cos Real.sin Real.pi) 16
    (arena 0 [enemyOnPlayer, enemyOnPlayer]) [32, 48] rfl (by rw [h2]; decide)).2.1

/-! ### Frames outside the playing state -/

/-- C11: in a state that is not Playing (Start or GameOver), update(timestamp) leaves the
whole state as it is: player, lists, timers, timeSurvived, spawn interval, base speed and
lastUpdateTime; so the survived time is frozen after GameOver, over any number of calls. -/
theorem update_frozen_when_not_playing (E : Env K) (t : K) (ts : List K) (w : World K)
    (h : w.gameState ≠ GameState.playing) :
    update E t w = w ∧ runFrames E ts w = w ∧
    (runFrames E ts w).timeSurvived = w.timeSurvived := by
  have h2 := runFrames_of_not_playing E ts w h
  exact ⟨update_of_not_playing E t w h, h2, by rw [h2]⟩

/-! ### What a frame does to the player and the input variables -/

/-- The variables a frame in the playing state assigns at all; the player is the one
Player.update produces, and the input variables and the canvas size are not among them. -/
theorem update_playing_frame (E : Env K) (t : K) (w : World K)
    (h : w.gameState = GameState.playing) :
    ∃ gs es pu ps ts ls si sh sl bs rc dc tr, update E t w =
      { w with
        lastUpdateTime := t, gameState := gs, player := (Player.update E w).player,
        enemies := es, powerups := pu, particles := ps, timeSurvived := ts,
        lastSpawnTime := ls, currentSpawnInterval := si, shieldTimer := sh, slowTimer := sl,
        ENEMY_BASE_SPEED := bs, randomCalls := rc, dateNowCalls := dc, trace := tr } := by
  rw [update_playing E t w h]
  obtain ⟨pu, rc, tr, h1⟩ := spawnPowerups_frame E (spawnEnemies E (updateParticles (t - w.lastUpdateTime)
    (updatePowerups E (t - w.lastUpdateTime) (updateEnemies E (beginFrame E t w)))))
  obtain ⟨es, rc', dc, tr', ls, si, bs, h2⟩ := spawnEnemies_frame E (updateParticles (t - w.lastUpdateTime)
    (updatePowerups E (t - w.lastUpdateTime) (updateEnemies E (beginFrame E t w))))
  obtain ⟨ps, h3⟩ := particleLoop_frame (t - w.lastUpdateTime)
    (updatePowerups E (t - w.lastUpdateTime) (updateEnemies E (beginFrame E t w))).particles.length 0
    (updatePowerups E (t - w.lastUpdateTime) (updateEnemies E (beginFrame E t w)))
  obtain ⟨sh, sl, pu', ps', rc'', tr'', h4⟩ := powerupLoop_frame E (t - w.lastUpdateTime)
    (updateEnemies E (beginFrame E t w)).powerups.length 0 (updateEnemies E (beginFrame E t w))
  obtain ⟨gs, es', ps2, rc3, tr3, h5⟩ := enemyLoop_frame E (beginFrame E t w).enemies.length 0
    (beginFrame E t w)
  have e3 : updateParticles (t - w.lastUpdateTime)
    (updatePowerups E (t - w.lastUpdateTime) (updateEnemies E (beginFrame E t w))) = _ := h3
  have e4 : updatePowerups E (t - w.lastUpdateTime) (updateEnemies E (beginFrame E t w)) = _ := h4
  have e5 : updateEnemies E (beginFrame E t w) = _ := h5
  refine ⟨gs, es, pu, ps, ((Int.floor ((E.dateNow w.dateNowCalls - w.startTime) / 100) : Int) : K),
    ls, si, sh, sl, bs, rc, dc, tr, ?_⟩
  rw [h1, h2, e3, e4, e5]
  rfl

theorem update_input_fields (E : Env K) (t : K) (w : World K) :
    (update E t w).keys = w.keys ∧ (update E t w).mousePos = w.mousePos ∧
    (update E t w).canvasWidth = w.canvasWidth ∧ (update E t w).canvasHeight = w.canvasHeight ∧
    (update E t w).player =
      if w.gameState = GameState.playing then (Player.update E w).player else w.player := by
  by_cases h : w.gameState = GameState.playing
  · obtain ⟨gs, es, pu, ps, ts, ls, si, sh, sl, bs, rc, dc, tr, hu⟩ := update_playing_frame E t w h
    rw [hu, if_pos h]
    exact ⟨rfl, rfl, rfl, rfl, rfl⟩
  · rw [update_of_not_playing E t w h, if_neg h]
    exact ⟨rfl, rfl, rfl, rfl, rfl⟩

theorem keyDirection_of_noKeyHeld (w : World K) (h : noKeyHeld w) :
    keyDirection w = { x := 0, y := 0 } := by
  simp [keyDirection, h "w", h "W", h "ArrowUp", h "s", h "S", h "ArrowDown", h "a", h "A",
    h "ArrowLeft", h "d", h "D", h "ArrowRight"]

/-- With no key held, the pointer target on the player and the player inside the clamp
range, Player.update leaves the player where it is. -/
theorem Player.update_still (E : Env K) (w : World K) (hk : noKeyHeld w)
    (hmx : w.mousePos.x = w.player.x) (hmy : w.mousePos.y = w.player.y)
    (hx1 : w.player.radius ≤ w.player.x) (hx2 : w.player.x ≤ w.canvasWidth - w.player.radius)
    (hy1 : w.player.radius ≤ w.player.y) (hy2 : w.player.y ≤ w.canvasHeight - w.player.radius) :
    (Player.update E w).player = w.player := by
  unfold Player.update Player.moved
  rw [keyDirection_of_noKeyHeld w hk]
  simp only [ne_eq, not_true_eq_false, or_self, if_false, hmx, hmy, sub_self, zero_mul, add_zero]
  rw [min_eq_right hx2, max_eq_right hx1, min_eq_right hy2, max_eq_right hy1]

/-! ### Frames without input -/

theorem update_keeps_centred (E : Env K) (t cw ch : K) (w : World K)
    (hw : 2 * CONFIG.PLAYER_RADIUS ≤ cw) (hh : 2 * CONFIG.PLAYER_RADIUS ≤ ch)
    (hk : noKeyHeld w) (hm : w.mousePos = { x := cw / 2, y := ch / 2 })
    (hp : w.player = Player.new (cw / 2) (ch / 2))
    (hcw : w.canvasWidth = cw) (hch : w.canvasHeight = ch) :
    noKeyHeld (update E t w) ∧ (update E t w).mousePos = { x := cw / 2, y := ch / 2 } ∧
    (update E t w).player = Player.new (cw / 2) (ch / 2) ∧
    (update E t w).canvasWidth = cw ∧ (update E t w).canvasHeight = ch := by
  obtain ⟨f1, f2, f3, f4, f5⟩ := update_input_fields E t w
  refine ⟨?_, by rw [f2, hm], ?_, by rw [f3, hcw], by rw [f4, hch]⟩
  · intro k; rw [f1]; exact hk k
  · rw [f5]
    split_ifs
    · rw [← hp]
      apply Player.update_still E w hk
      · rw [hm, hp]; rfl
      · rw [hm, hp]; rfl
      · rw [hp]; show CONFIG.PLAYER_RADIUS ≤ cw / 2; linarith
      · rw [hp, hcw]; show cw / 2 ≤ cw - CONFIG.PLAYER_RADIUS; linarith
      · rw [hp]; show CONFIG.PLAYER_RADIUS ≤ ch / 2; linarith
      · rw [hp, hch]; show ch / 2 ≤ ch - CONFIG.PLAYER_RADIUS; linarith
    · exact hp

theorem runFrames_keeps_centred (E : Env K) (ts : List K) (cw ch : K) (w : World K)
    (hw : 2 * CONFIG.PLAYER_RADIUS ≤ cw) (hh : 2 * CONFIG.PLAYER_RADIUS ≤ ch)
    (hk : noKeyHeld w) (hm : w.mousePos = { x := cw / 2, y := ch / 2 })
    (hp : w.player = Player.new (cw / 2) (ch / 2))
    (hcw : w.canvasWidth = cw) (hch : w.canvasHeight = ch) :
    (runFrames E ts w).player = Player.new (cw / 2) (ch / 2) := by
  induction ts generalizing w with
  | nil => exact hp
  | cons t ts ih =>
    obtain ⟨k1, k2, k3, k4, k5⟩ := update_keeps_centred E t cw ch w hw hh hk hm hp hcw hch
    exact ih (update E t w) k1 k2 k3 k4 k5

/-- C13 (as amended): after startGame on a field at least two radii wide and high, when no key
is held and the pointer target rests on the field centre, any number of update frames leaves
the player on the position it was created at, the field centre. -/
theorem no_drift_with_pointer_on_centre (E : Env K) (cw ch pn : K) (w0 : World K)
    (ts : List K) (hw : 2 * CONFIG.PLAYER_RADIUS ≤ cw) (hh : 2 * CONFIG.PLAYER_RADIUS ≤ ch)
    (hk : noKeyHeld w0) (hm : w0.mousePos = { x := cw / 2, y := ch / 2 }) :
    (startGame E cw ch pn w0).player.x = cw / 2 ∧
    (startGame E cw ch pn w0).player.y = ch / 2 ∧
    (runFrames E ts (startGame E cw ch pn w0)).player.x = cw / 2 ∧
    (runFrames E ts (startGame E cw ch pn w0)).player.y = ch / 2 := by
  have h := runFrames_keeps_centred E ts cw ch (startGame E cw ch pn w0) hw hh hk hm rfl rfl rfl
  refine ⟨rfl, rfl, ?_, ?_⟩
  · rw [h]; rfl
  · rw [h]; rfl

/-- One frame after startGame from the freshly loaded page on a field of 800 by 600, with no
input at all: the player has moved from (400, 300) to (320, 240), a fifth of the way to the
initial pointer target (0, 0). -/
theorem initial_drift (E : Env K) (pn t : K) :
    (runFrames E [t] (startGame E 800 600 pn (initialWorld 800 600))).player.x = 320 ∧
    (runFrames E [t] (startGame E 800 600 pn (initialWorld 800 600))).player.y = 240 := by
  have hk : noKeyHeld (startGame E 800 600 pn (initialWorld (800 : K) 600)) := fun _ => rfl
  obtain ⟨-, -, -, -, f5⟩ := update_input_fields E t (startGame E 800 600 pn (initialWorld 800 600))
  have hrun : runFrames E [t] (startGame E 800 600 pn (initialWorld 800 600))
      = update E t (startGame E 800 600 pn (initialWorld 800 600)) := rfl
  have hpl : (startGame E 800 600 pn (initialWorld (800 : K) 600)).gameState = GameState.playing := rfl
  rw [hrun, f5, if_pos hpl]
  unfold Player.update Player.moved
  rw [keyDirection_of_noKeyHeld _ hk]
  simp only [ne_eq, not_true_eq_false, or_self, if_false]
  simp only [startGame, resizeCanvas, initGame, initialWorld, Player.new, dateNow,
    CONFIG.PLAYER_RADIUS]
  norm_num

/-- C13, counterexample: started from the freshly loaded page (no pointer event received, no
key held), one frame moves the player away from the field centre (400, 300). -/
theorem player_drifts_without_input :
    noKeyHeld (startGame (steadyEnv Real.sqrt Real.cos Real.sin Real.pi) 800 600 0
      (initialWorld 800 600)) ∧
    (startGame (steadyEnv Real.sqrt Real.cos Real.sin Real.pi) 800 600 0
      (initialWorld 800 600)).player.x = 400 ∧
    (runFrames (steadyEnv Real.sqrt Real.cos Real.sin Real.pi) [16]
      (startGame (steadyEnv Real.sqrt Real.cos Real.sin Real.pi) 800 600 0
        (initialWorld 800 600))).player.x = 320 ∧
    (runFrames (steadyEnv Real.sqrt Real.cos Real.sin Real.pi) [16]
      (startGame (steadyEnv Real.sqrt Real.cos Real.sin Real.pi) 800 600 0
        (initialWorld 800 600))).player.x ≠
    (startGame (steadyEnv Real.sqrt Real.cos Real.sin Real.pi) 800 600 0
      (initialWorld 800 600)).player.x := by
  have h := initial_drift (steadyEnv Real.sqrt Real.cos Real.sin Real.pi) 0 16
  have h0 : (startGame (steadyEnv Real.sqrt Real.cos Real.sin Real.pi) 800 600 0
      (initialWorld 800 600)).player.x = 400 := by
    show (800 : ℝ) / 2 = 400
    norm_num
  refine ⟨fun _ => rfl, h0, h.1, ?_⟩
  rw [h.1, h0]
  norm_num

/-- C13 (as amended) on a field of 200 by 200 started from the arena, whose pointer target
(100, 100) is the centre of that field. -/
theorem no_drift_with_pointer_on_centre_witness :
    (runFrames (steadyEnv Real.sqrt Real.cos Real.sin Real.pi) [16, 32, 48]
      (startGame (steadyEnv Real.sqrt Real.cos Real.sin Real.pi) 200 200 0
        (arena 0 []))).player.x = 200 / 2 :=
  (no_drift_with_pointer_on_centre (steadyEnv Real.sqrt Real.cos Real.sin Real.pi) 200 200 0
    (arena 0 []) [16, 32, 48]
    (by unfold CONFIG.PLAYER_RADIUS; norm_num) (by unfold CONFIG.PLAYER_RADIUS; norm_num)
    (fun _ => rfl) (by simp only [arena]; norm_num)).2.2.1

/-! ### normalize -/

theorem sqrt_zero_of_spec (E : Env K) (hE : E.SqrtSpec) : E.sqrt 0 = 0 := by
  obtain ⟨-, h⟩ := hE 0 le_rfl
  exact mul_self_eq_zero.1 h

theorem normalize_of_mag_zero (E : Env K) (v : Vec K)
    (h : E.sqrt (v.x * v.x + v.y * v.y) = 0) : normalize E v = { x := 0, y := 0 } := by
  simp [normalize, h]

theorem normalize_of_mag_ne_zero (E : Env K) (v : Vec K)
    (h : E.sqrt (v.x * v.x + v.y * v.y) ≠ 0) :
    normalize E v = { x := v.x / E.sqrt (v.x * v.x + v.y * v.y),
                      y := v.y / E.sqrt (v.x * v.x + v.y * v.y) } := by
  simp [normalize, h]

/-- A normalized vector of a vector of non-zero magnitude has magnitude 1. -/
theorem normalize_mag_one (E : Env K) (hE : E.SqrtSpec) (v : Vec K)
    (h : E.sqrt (v.x * v.x + v.y * v.y) ≠ 0) :
    E.sqrt ((normalize E v).x * (normalize E v).x + (normalize E v).y * (normalize E v).y) = 1 := by
  rcases normalize_sq E hE v with ⟨h0, -⟩ | ⟨-, h1⟩
  · exact absurd h0 h
  · rw [h1]
    exact sqrt_eq_of_sq E hE 1 1 zero_le_one (by norm_num)

theorem normalize_idempotent (E : Env K) (hE : E.SqrtSpec) (v : Vec K) :
    normalize E (normalize E v) = normalize E v := by
  by_cases h : E.sqrt (v.x * v.x + v.y * v.y) = 0
  · rw [normalize_of_mag_zero E v h]
    apply normalize_of_mag_zero
    simp [sqrt_zero_of_spec E hE]
  · have h1 := normalize_mag_one E hE v h
    rw [normalize_of_mag_ne_zero E (normalize E v) (by rw [h1]; exact one_ne_zero), h1]
    simp

/-- C14: normalize(v) is the zero vector when the magnitude sqrt(x*x + y*y) of v is exactly
zero; otherwise it is v divided by its magnitude, which has magnitude 1 and is a positive
multiple of v; and normalize is idempotent. -/
theorem normalize_contract (E : Env K) (hE : E.SqrtSpec) (v : Vec K) :
    (E.sqrt (v.x * v.x + v.y * v.y) = 0 → normalize E v = { x := 0, y := 0 }) ∧
    (E.sqrt (v.x * v.x + v.y * v.y) ≠ 0 →
      normalize E v = { x := v.x / E.sqrt (v.x * v.x + v.y * v.y),
                        y := v.y / E.sqrt (v.x * v.x + v.y * v.y) } ∧
      E.sqrt ((normalize E v).x * (normalize E v).x + (normalize E v).y * (normalize E v).y)
        = 1 ∧
      ∃ c : K, 0 < c ∧ (normalize E v).x = c * v.x ∧ (normalize E v).y = c * v.y) ∧
    normalize E (normalize E v) = normalize E v := by
  refine ⟨normalize_of_mag_zero E v, fun h => ⟨normalize_of_mag_ne_zero E v h,
    normalize_mag_one E hE v h, ?_⟩, normalize_idempotent E hE v⟩
  obtain ⟨h0, -⟩ := hE _ (sumSq_nonneg v.x v.y)
  have hpos : 0 < E.sqrt (v.x * v.x + v.y * v.y) := lt_of_le_of_ne h0 (Ne.symm h)
  refine ⟨(E.sqrt (v.x * v.x + v.y * v.y))⁻¹, inv_pos.2 hpos, ?_, ?_⟩
  · rw [normalize_of_mag_ne_zero E v h]
    simp only [div_eq_inv_mul]
  · rw [normalize_of_mag_ne_zero E v h]
    simp only [div_eq_inv_mul]

/-- C14 on the vector (3, 4) over the reals. -/
theorem normalize_contract_witness :
    normalize (steadyEnv Real.sqrt Real.cos Real.sin Real.pi)
      (normalize (steadyEnv Real.sqrt Real.cos Real.sin Real.pi) { x := 3, y := 4 })
      = normalize (steadyEnv Real.sqrt Real.cos Real.sin Real.pi) { x := 3, y := 4 } :=
  (normalize_contract (steadyEnv Real.sqrt Real.cos Real.sin Real.pi) (sqrtSpec_real _ rfl)
    { x := 3, y := 4 }).2.2

/-! ### The slow effect -/

/-- C18: Enemy.update with the slow timer positive and with the slow timer zero gives the same
velocity vector, and the displacement with slow active is exactly 0.5 times the displacement
without it, for every enemy, player position and pair of noise draws. -/
theorem slow_halves_displacement (E : Env K) (e : Enemy K) (w : World K)
    (hslow : 0 < w.slowTimer) :
    (Enemy.update E e w).1.vx = (Enemy.update E e { w with slowTimer := 0 }).1.vx ∧
    (Enemy.update E e w).1.vy = (Enemy.update E e { w with slowTimer := 0 }).1.vy ∧
    (Enemy.update E e w).1.x - e.x
      = 0.5 * ((Enemy.update E e { w with slowTimer := 0 }).1.x - e.x) ∧
    (Enemy.update E e w).1.y - e.y
      = 0.5 * ((Enemy.update E e { w with slowTimer := 0 }).1.y - e.y) := by
  simp only [Enemy.update, random]
  rw [if_pos hslow, if_neg (lt_irrefl (0 : K))]
  refine ⟨trivial, trivial, ?_, ?_⟩ <;> ring

/-- C18 on the enemy of the arena with 3 seconds of slow left. -/
theorem slow_halves_displacement_witness :
    (Enemy.update (steadyEnv Real.sqrt Real.cos Real.sin Real.pi) enemyOnPlayer
        { arena 0 [] with slowTimer := 3 }).1.x - (enemyOnPlayer : Enemy ℝ).x
      = 0.5 * ((Enemy.update (steadyEnv Real.sqrt Real.cos Real.sin Real.pi) enemyOnPlayer
        { arena 0 [] with slowTimer := 0 }).1.x - (enemyOnPlayer : Enemy ℝ).x) :=
  (slow_halves_displacement (steadyEnv Real.sqrt Real.cos Real.sin Real.pi) enemyOnPlayer
    { arena 0 [] with slowTimer := 3 } (by show (0 : ℝ) < 3; norm_num)).2.2.1

/-! ### Keyboard movement -/

theorem keyDirection_mousePos (w : World K) (m : Vec K) :
    keyDirection { w with mousePos := m } = keyDirection w := rfl

theorem Player.moved_keyboard (E : Env K) (w : World K)
    (hd : (keyDirection w).x ≠ 0 ∨ (keyDirection w).y ≠ 0) :
    Player.moved E w =
      { w.player with
        x := w.player.x + (normalize E (keyDirection w)).x * KEYBOARD_SPEED,
        y := w.player.y + (normalize E (keyDirection w)).y * KEYBOARD_SPEED } := by
  unfold Player.moved
  simp only []
  rw [if_pos hd]

theorem directionalKeyHeld_of_keyDirection (w : World K)
    (hd : (keyDirection w).x ≠ 0 ∨ (keyDirection w).y ≠ 0) : directionalKeyHeld w := by
  by_contra hn
  simp only [directionalKeyHeld, not_or, Bool.not_eq_true] at hn
  obtain ⟨h1, h2, h3, h4, h5, h6, h7, h8, h9, h10, h11, h12⟩ := hn
  simp [keyDirection, h1, h2, h3, h4, h5, h6, h7, h8, h9, h10, h11, h12] at hd

/-- C16 (as amended): when the sum of the direction flags of the held keys is not the zero
vector (so at least one directional key is held and opposite keys do not cancel out),
Player.update is keyboard-driven: the position before clamping is the old position plus
KEYBOARD_SPEED = 4 times normalize(sum of the flags), and the pointer target has no influence
on the resulting player. -/
theorem keyboard_movement (E : Env K) (w : World K) (m : Vec K)
    (hd : (keyDirection w).x ≠ 0 ∨ (keyDirection w).y ≠ 0) :
    directionalKeyHeld w ∧
    (Player.moved E w).x = w.player.x + (normalize E (keyDirection w)).x * 4 ∧
    (Player.moved E w).y = w.player.y + (normalize E (keyDirection w)).y * 4 ∧
    (Player.update E { w with mousePos := m }).player = (Player.update E w).player := by
  refine ⟨directionalKeyHeld_of_keyDirection w hd, ?_, ?_, ?_⟩
  · rw [Player.moved_keyboard E w hd]; rfl
  · rw [Player.moved_keyboard E w hd]; rfl
  · unfold Player.update
    rw [Player.moved_keyboard E w hd,
      Player.moved_keyboard E { w with mousePos := m } (by rw [keyDirection_mousePos]; exact hd)]
    rfl

theorem keyDirection_left_right :
    keyDirection (arenaWithKeys ["a", "d"] : World K) = { x := 0, y := 0 } := by
  simp [keyDirection, arenaWithKeys, arena]

theorem keyDirection_right :
    keyDirection (arenaWithKeys ["d"] : World K) = { x := 1, y := 0 } := by
  simp [keyDirection, arenaWithKeys, arena]

/-- With the keys a and d both held the flags cancel and the player follows the pointer. -/
theorem Player.update_left_right (E : Env K) (m : Vec K)
    (hx1 : 15 ≤ 100 + (m.x - 100) * 0.2) (hx2 : 100 + (m.x - 100) * 0.2 ≤ 785) :
    (Player.moved E { (arenaWithKeys ["a", "d"] : World K) with mousePos := m }).x
      = 100 + (m.x - 100) * 0.2 ∧
    (Player.update E { (arenaWithKeys ["a", "d"] : World K) with mousePos := m }).player.x
      = 100 + (m.x - 100) * 0.2 := by
  have hk : keyDirection { (arenaWithKeys ["a", "d"] : World K) with mousePos := m }
      = { x := 0, y := 0 } := by
    rw [keyDirection_mousePos]; exact keyDirection_left_right
  have hm : (Player.moved E { (arenaWithKeys ["a", "d"] : World K) with mousePos := m }).x
      = 100 + (m.x - 100) * 0.2 := by
    unfold Player.moved
    rw [hk]
    simp only [ne_eq, not_true_eq_false, or_self, if_false]
    rfl
  refine ⟨hm, ?_⟩
  have hr : (Player.moved E { (arenaWithKeys ["a", "d"] : World K) with mousePos := m }).radius
      = 15 := by
    unfold Player.moved
    rw [hk]
    simp only [ne_eq, not_true_eq_false, or_self, if_false]
    rfl
  unfold Player.update
  simp only [hm, hr]
  have hc : ({ (arenaWithKeys ["a", "d"] : World K) with mousePos := m }).canvasWidth = 800 := rfl
  rw [hc]
  rw [min_eq_right (by linarith), max_eq_right hx1]

/-- C16, counterexample: with the keys a and d both held (directional keys are held) the
position before clamping is not the old position plus 4 times normalize(sum of the flags),
and the pointer target decides where the player goes. -/
theorem opposite_keys_follow_pointer :
    directionalKeyHeld (arenaWithKeys ["a", "d"] : World ℝ) ∧
    (arenaWithKeys ["a", "d"] : World ℝ).player.x +
      (normalize (steadyEnv Real.sqrt Real.cos Real.sin Real.pi)
        (keyDirection (arenaWithKeys ["a", "d"] : World ℝ))).x * 4 = 100 ∧
    (Player.moved (steadyEnv Real.sqrt Real.cos Real.sin Real.pi)
      { (arenaWithKeys ["a", "d"] : World ℝ) with mousePos := { x := 200, y := 100 } }).x = 120 ∧
    (Player.update (steadyEnv Real.sqrt Real.cos Real.sin Real.pi)
      { (arenaWithKeys ["a", "d"] : World ℝ) with mousePos := { x := 200, y := 100 } }).player.x
      = 120 ∧
    (Player.update (steadyEnv Real.sqrt Real.cos Real.sin Real.pi)
      { (arenaWithKeys ["a", "d"] : World ℝ) with mousePos := { x := 300, y := 100 } }).player.x
      = 140 := by
  have h1 := Player.update_left_right (steadyEnv Real.sqrt Real.cos Real.sin Real.pi)
    { x := (200 : ℝ), y := 100 } (by norm_num) (by norm_num)
  have h2 := Player.update_left_right (steadyEnv Real.sqrt Real.cos Real.sin Real.pi)
    { x := (300 : ℝ), y := 100 } (by norm_num) (by norm_num)
  refine ⟨?_, ?_, ?_, ?_, ?_⟩
  · simp [directionalKeyHeld, arenaWithKeys, arena]
  · rw [keyDirection_left_right,
      normalize_of_mag_zero _ _ (by simp [steadyEnv])]
    simp [arenaWithKeys, arena, Player.new]
  · rw [h1.1]; norm_num
  · rw [h1.2]; norm_num
  · rw [h2.2]; norm_num

/-- C16 (as amended) with the key d held. -/
theorem keyboard_movement_witness :
    (Player.moved (steadyEnv Real.sqrt Real.cos Real.sin Real.pi)
      (arenaWithKeys ["d"] : World ℝ)).x
      = (arenaWithKeys ["d"] : World ℝ).player.x +
        (normalize (steadyEnv Real.sqrt Real.cos Real.sin Real.pi)
          (keyDirection (arenaWithKeys ["d"] : World ℝ))).x * 4 :=
  (keyboard_movement (steadyEnv Real.sqrt Real.cos Real.sin Real.pi)
    (arenaWithKeys ["d"] : World ℝ) { x := 0, y := 0 }
    (by rw [keyDirection_right]; exact Or.inl one_ne_zero)).2.1

/-! ### Releasing a key -/

/-- Player.update assigns the player only: the pointer target mousePos stays as it was. -/
theorem Player.update_mousePos (E : Env K) (w : World K) :
    (Player.update E w).mousePos = w.mousePos := rfl

theorem normalize_unit_x (E : Env K) (hE : E.SqrtSpec) :
    normalize E { x := 1, y := 0 } = { x := 1, y := 0 } := by
  have h1 : E.sqrt ((1 : K) * 1 + 0 * 0) = 1 :=
    sqrt_eq_of_sq E hE _ 1 zero_le_one (by norm_num)
  rw [normalize_of_mag_ne_zero E _ (by simp only [h1]; exact one_ne_zero)]
  simp only [h1]
  norm_num

/-- With the key d held the player of the arena moves from (100, 100) to (104, 100). -/
theorem Player.update_key_right (E : Env K) (hE : E.SqrtSpec) :
    (Player.update E (arenaWithKeys ["d"])).player = Player.new 104 100 := by
  unfold Player.update
  rw [Player.moved_keyboard E _ (by rw [keyDirection_right]; exact Or.inl one_ne_zero),
    keyDirection_right, normalize_unit_x E hE]
  simp only [arenaWithKeys, arena, Player.new, KEYBOARD_SPEED, CONFIG.PLAYER_RADIUS]
  norm_num

/-- With no direction from the keys the player follows the pointer target. -/
theorem Player.update_pointer (E : Env K) (w : World K)
    (hk : keyDirection w = { x := 0, y := 0 }) :
    (Player.update E w).player =
      { w.player with
        x := max w.player.radius (min (w.canvasWidth - w.player.radius)
          (w.player.x + (w.mousePos.x - w.player.x) * 0.2)),
        y := max w.player.radius (min (w.canvasHeight - w.player.radius)
          (w.player.y + (w.mousePos.y - w.player.y) * 0.2)) } := by
  unfold Player.update Player.moved
  rw [hk]
  simp only [ne_eq, not_true_eq_false, or_self, if_false]

theorem Player.update_canvasWidth (E : Env K) (w : World K) :
    (Player.update E w).canvasWidth = w.canvasWidth := rfl

/-- After that, with the key released, the next Player.update pulls the player towards the
pointer target, which is still (200, 100). -/
theorem Player.update_after_release (E : Env K) (hE : E.SqrtSpec) :
    (Player.update E
      { Player.update E (arenaWithKeys ["d"]) with keys := fun _ => false }).player.x
      = 123.2 := by
  have hp := Player.update_key_right E hE
  rw [Player.update_pointer E _ (keyDirection_of_noKeyHeld _ (fun _ => rfl))]
  dsimp only
  rw [hp, Player.update_mousePos, Player.update_canvasWidth]
  simp only [arenaWithKeys, arena, Player.new, CONFIG.PLAYER_RADIUS]
  norm_num

/-- C17, failing input: after a keyboard-driven Player.update the pointer target is still the
old one, not the player's new position, and the next update with the key released moves the
player from x = 104 to x = 123.2. -/
theorem key_release_snaps_back :
    (Player.update (steadyEnv Real.sqrt Real.cos Real.sin Real.pi)
      (arenaWithKeys ["d"])).player.x = 104 ∧
    (Player.update (steadyEnv Real.sqrt Real.cos Real.sin Real.pi)
      (arenaWithKeys ["d"])).player.y = 100 ∧
    (Player.update (steadyEnv Real.sqrt Real.cos Real.sin Real.pi)
      (arenaWithKeys ["d"])).mousePos = { x := 200, y := 100 } ∧
    (Player.update (steadyEnv Real.sqrt Real.cos Real.sin Real.pi)
      { Player.update (steadyEnv Real.sqrt Real.cos Real.sin Real.pi) (arenaWithKeys ["d"]) with
        keys := fun _ => false }).player.x = 123.2 := by
  have hE : (steadyEnv Real.sqrt Real.cos Real.sin Real.pi).SqrtSpec := sqrtSpec_real _ rfl
  have hp := Player.update_key_right (steadyEnv Real.sqrt Real.cos Real.sin Real.pi) hE
  refine ⟨by rw [hp]; rfl, by rw [hp]; rfl, rfl, Player.update_after_release _ hE⟩

/-! ### A frame with no enemy and a single power-up -/

theorem beginFrame_player (E : Env K) (t : K) (w : World K) :
    (beginFrame E t w).player = (Player.update E w).player := rfl

theorem beginFrame_lists (E : Env K) (t : K) (w : World K) :
    (beginFrame E t w).enemies = w.enemies ∧ (beginFrame E t w).powerups = w.powerups ∧
    (beginFrame E t w).particles = w.particles := ⟨rfl, rfl, rfl⟩

theorem updateEnemies_nil (E : Env K) (w : World K) (h : w.enemies = []) :
    updateEnemies E w = w := by
  unfold updateEnemies forEach
  rw [h]
  rfl

/-- With no enemy and a single power-up in the lists, the two loops amount to one call of the
power-up callback. -/
theorem single_powerup_loops (E : Env K) (t : K) (w : World K) (p : PowerUp K)
    (hen : w.enemies = []) (hpu : w.powerups = [p]) :
    updatePowerups E (t - w.lastUpdateTime) (updateEnemies E (beginFrame E t w))
      = powerupCallback E (t - w.lastUpdateTime) p 0 (beginFrame E t w) := by
  rw [updateEnemies_nil E _ (by rw [(beginFrame_lists E t w).1]; exact hen)]
  have hp : (beginFrame E t w).powerups = [p] := by rw [(beginFrame_lists E t w).2.1]; exact hpu
  unfold updatePowerups forEach
  rw [hp]
  show forEachStep World.powerups _ 0 _ = _
  exact forEachStep_some _ _ _ _ p (by rw [hp]; rfl)

/-- What the power-up list looks like when a frame ends: the entries left before the spawners,
then at most one freshly spawned power-up, whose construction is in the log of the frame. -/
theorem update_powerups_end (E : Env K) (t : K) (w : World K)
    (h : w.gameState = GameState.playing) :
    (∀ q ∈ (beforeSpawners E t w).powerups, q ∈ (update E t w).powerups) ∧
    (∀ q ∈ (update E t w).powerups, q ∈ (beforeSpawners E t w).powerups ∨
      Event.powerupSpawn q ∈ eventsSince w.trace.length (update E t w)) := by
  obtain ⟨a, b, c, -, hb, hc, -, -, -⟩ := update_trace E t w h
  obtain ⟨-, -, -, -, -, -, f7⟩ := beforeSpawners_fields E t w
  obtain ⟨es, rc', dc, tr', ls, si, bs, k2⟩ := spawnEnemies_frame E (beforeSpawners E t w)
  obtain ⟨c1, hc1, -⟩ := spawnEnemies_trace E (beforeSpawners E t w)
  have hpu2 : (spawnEnemies E (beforeSpawners E t w)).powerups = (beforeSpawners E t w).powerups := by
    rw [k2]
  have hT : (spawnEnemies E (beforeSpawners E t w)).trace = w.trace ++ (a ++ b ++ c1) := by
    rw [hc1, f7, hb]; simp [List.append_assoc]
  rw [update_eq_spawners E t w h, spawnPowerups_eq]
  by_cases hs : E.random (spawnEnemies E (beforeSpawners E t w)).randomCalls
      < CONFIG.POWERUP_SPAWN_CHANCE ∧ (spawnEnemies E (beforeSpawners E t w)).powerups.length < 2
  · rw [if_pos hs]
    refine ⟨?_, ?_⟩
    · intro q hq
      show q ∈ (spawnEnemies E (beforeSpawners E t w)).powerups ++ _
      rw [hpu2]
      exact List.mem_append_left _ hq
    · intro q hq
      have hq' : q ∈ (spawnEnemies E (beforeSpawners E t w)).powerups ++ _ := hq
      rw [hpu2] at hq'
      rcases List.mem_append.1 hq' with hq' | hq'
      · exact Or.inl hq'
      · right
        rw [List.mem_singleton] at hq'
        unfold eventsSince
        show _ ∈ List.drop _ ((spawnEnemies E (beforeSpawners E t w)).trace ++ _)
        rw [hT, List.append_assoc, List.drop_left, hq']
        exact List.mem_append_right _ (List.mem_singleton.2 rfl)
  · rw [if_neg hs]
    refine ⟨?_, ?_⟩
    · intro q hq
      show q ∈ (spawnEnemies E (beforeSpawners E t w)).powerups
      rw [hpu2]; exact hq
    · intro q hq
      have hq' : q ∈ (spawnEnemies E (beforeSpawners E t w)).powerups := hq
      rw [hpu2] at hq'
      exact Or.inl hq'

theorem beforeSpawners_powerups (E : Env K) (t : K) (w : World K) :
    (beforeSpawners E t w).powerups
      = (updatePowerups E (t - w.lastUpdateTime) (updateEnemies E (beginFrame E t w))).powerups := by
  obtain ⟨ps, h3⟩ := particleLoop_frame (t - w.lastUpdateTime)
    (updatePowerups E (t - w.lastUpdateTime) (updateEnemies E (beginFrame E t w))).particles.length 0
    (updatePowerups E (t - w.lastUpdateTime) (updateEnemies E (beginFrame E t w)))
  have e3 : beforeSpawners E t w = _ := h3
  rw [e3]

theorem powerupCallback_shield (E : Env K) (dt : K) (p : PowerUp K) (k : Nat) (w : World K)
    (hlife : ¬ (p.update dt).life ≤ 0)
    (hdist : distance E w.player.x w.player.y p.x p.y < w.player.radius + p.radius)
    (htype : p.type = "shield") :
    (powerupCallback E dt p k w).shieldTimer = CONFIG.SHIELD_DURATION_S ∧
    (powerupCallback E dt p k w).powerups = (w.powerups.set k (p.update dt)).eraseIdx k := by
  rw [powerupCallback_eq, if_neg hlife, if_pos hdist, if_pos htype]
  exact ⟨rfl, rfl⟩

theorem powerupCallback_missed (E : Env K) (dt : K) (p : PowerUp K) (k : Nat) (w : World K)
    (hlife : ¬ (p.update dt).life ≤ 0)
    (hdist : ¬ distance E w.player.x w.player.y p.x p.y < w.player.radius + p.radius) :
    (powerupCallback E dt p k w).shieldTimer = w.shieldTimer ∧
    (powerupCallback E dt p k w).powerups = w.powerups.set k (p.update dt) := by
  rw [powerupCallback_eq, if_neg hlife, if_neg hdist]
  exact ⟨rfl, rfl⟩

/-- C12 (as amended): in a freshly started session with no enemies and a single shield power-up
on the player's position, one update tick whose frame delta is below the life of the power-up
(10000 ms) and after whose player update the player is still within pick-up distance of the
power-up sets shieldTimer to SHIELD_DURATION_S and removes the power-up: the list is empty
before the spawners run, and at the end of the tick it holds at most a power-up spawned in
this very tick. -/
theorem shield_pickup_after_start (E : Env K) (cw ch pn t : K) (w0 : World K)
    (hdt : t - pn < 10000)
    (hnear : distance E (Player.update E (startedWithShield E cw ch pn w0)).player.x
        (Player.update E (startedWithShield E cw ch pn w0)).player.y (cw / 2) (ch / 2)
      < (Player.update E (startedWithShield E cw ch pn w0)).player.radius + 12) :
    (update E t (startedWithShield E cw ch pn w0)).shieldTimer = CONFIG.SHIELD_DURATION_S ∧
    (beforeSpawners E t (startedWithShield E cw ch pn w0)).powerups = [] ∧
    ∀ q ∈ (update E t (startedWithShield E cw ch pn w0)).powerups,
      Event.powerupSpawn q ∈
        eventsSince (startedWithShield E cw ch pn w0).trace.length
          (update E t (startedWithShield E cw ch pn w0)) := by
  have hplay : (startedWithShield E cw ch pn w0).gameState = GameState.playing := rfl
  have hlu : (startedWithShield E cw ch pn w0).lastUpdateTime = pn := rfl
  have hloops := single_powerup_loops E t (startedWithShield E cw ch pn w0)
    (shieldAt (cw / 2) (ch / 2)) rfl rfl
  have hlife : ¬ (PowerUp.update (shieldAt (cw / 2) (ch / 2)) (t - pn)).life ≤ 0 := by
    simp only [PowerUp.update, shieldAt, not_le]
    linarith
  obtain ⟨hcb1, hcb2⟩ := powerupCallback_shield E (t - pn) (shieldAt (cw / 2) (ch / 2)) 0
    (beginFrame E t (startedWithShield E cw ch pn w0)) hlife
    (by rw [beginFrame_player]; exact hnear) rfl
  rw [hlu] at hloops
  have hsh : (update E t (startedWithShield E cw ch pn w0)).shieldTimer
      = CONFIG.SHIELD_DURATION_S := by
    rw [(update_timers E t _ hplay).1, hlu, hloops, hcb1]
  have hbs : (beforeSpawners E t (startedWithShield E cw ch pn w0)).powerups = [] := by
    rw [beforeSpawners_powerups, hlu, hloops, hcb2, (beginFrame_lists E t _).2.1]
    rfl
  refine ⟨hsh, hbs, ?_⟩
  intro q hq
  rcases (update_powerups_end E t _ hplay).2 q hq with h | h
  · rw [hbs] at h; exact absurd h (List.not_mem_nil q)
  · exact h

theorem le_sqrt_of_sq_le (E : Env K) (hE : E.SqrtSpec) (x b : K) (hx : 0 ≤ x)
    (h : b * b ≤ x) : b ≤ E.sqrt x := by
  obtain ⟨h0, hsq⟩ := hE x hx
  by_contra hcon
  have hlt : E.sqrt x < b := not_le.1 hcon
  have : E.sqrt x * E.sqrt x < b * b := mul_lt_mul'' hlt hlt h0 h0
  linarith

/-- The session started from the arena on a field of 800 by 600 with a shield power-up on the
centre: the pointer target (100, 100) pulls the player to (340, 260) before the power-up is
checked, out of pick-up distance. -/
theorem startedWithShield_far (E : Env K) (hE : E.SqrtSpec) (t : K) (ht : 0 ≤ t)
    (ht2 : t < 10000) :
    (update E t (startedWithShield E 800 600 0 (arena 0 []))).shieldTimer = 0 ∧
    PowerUp.update (shieldAt (800 / 2) (600 / 2)) (t - 0) ∈
      (update E t (startedWithShield E 800 600 0 (arena 0 []))).powerups := by
  have hplay : (startedWithShield E 800 600 0 (arena (0 : K) [])).gameState
      = GameState.playing := rfl
  have hlu : (startedWithShield E 800 600 0 (arena (0 : K) [])).lastUpdateTime = 0 := rfl
  have hloops := single_powerup_loops E t (startedWithShield E 800 600 0 (arena 0 []))
    (shieldAt (800 / 2) (600 / 2)) rfl rfl
  rw [hlu] at hloops
  have hlife : ¬ (PowerUp.update (shieldAt ((800 : K) / 2) (600 / 2)) (t - 0)).life ≤ 0 := by
    simp only [PowerUp.update, shieldAt, not_le]
    linarith
  have hpl : (Player.update E (startedWithShield E 800 600 0 (arena (0 : K) []))).player
      = { Player.new (800 / 2) (600 / 2) with x := 340, y := 260 } := by
    rw [Player.update_pointer E _ (keyDirection_of_noKeyHeld _ (fun _ => rfl))]
    simp only [startedWithShield, startGame, resizeCanvas, initGame, dateNow, arena, Player.new,
      CONFIG.PLAYER_RADIUS]
    norm_num
  have hfar : ¬ distance E (beginFrame E t (startedWithShield E 800 600 0 (arena 0 []))).player.x
      (beginFrame E t (startedWithShield E 800 600 0 (arena 0 []))).player.y
      (shieldAt ((800 : K) / 2) (600 / 2)).x (shieldAt ((800 : K) / 2) (600 / 2)).y
      < (beginFrame E t (startedWithShield E 800 600 0 (arena 0 []))).player.radius
        + (shieldAt ((800 : K) / 2) (600 / 2)).radius := by
    rw [beginFrame_player, hpl, not_lt]
    unfold distance
    refine le_trans ?_ (le_sqrt_of_sq_le E hE _ 27 (add_nonneg (sq_nonneg _) (sq_nonneg _)) ?_)
    · simp only [Player.new, shieldAt, CONFIG.PLAYER_RADIUS]; norm_num
    · simp only [Player.new, shieldAt]; norm_num
  obtain ⟨hcb1, hcb2⟩ := powerupCallback_missed E (t - 0) (shieldAt (800 / 2) (600 / 2)) 0
    (beginFrame E t (startedWithShield E 800 600 0 (arena 0 []))) hlife hfar
  refine ⟨?_, ?_⟩
  · rw [(update_timers E t _ hplay).1, hlu, hloops, hcb1]
    show max 0 ((0 : K) - (t - 0) / 1000) = 0
    apply max_eq_left
    have : 0 ≤ t / 1000 := div_nonneg ht (by norm_num)
    linarith
  · apply (update_powerups_end E t _ hplay).1
    rw [beforeSpawners_powerups, hlu, hloops, hcb2, (beginFrame_lists E t _).2.1]
    exact List.mem_singleton.2 rfl

/-- C12, counterexample: a freshly started session with a single shield power-up on the
player's position, pointer target (100, 100), frame delta 16: after the tick shieldTimer is 0,
not 5, and the power-up is still in the list. -/
theorem shield_not_picked_up :
    (startedWithShield (steadyEnv Real.sqrt Real.cos Real.sin Real.pi) 800 600 0
      (arena 0 [])).enemies = [] ∧
    (startedWithShield (steadyEnv Real.sqrt Real.cos Real.sin Real.pi) 800 600 0
      (arena 0 [])).powerups = [shieldAt (800 / 2) (600 / 2)] ∧
    (shieldAt ((800 : ℝ) / 2) (600 / 2)).x
      = (startedWithShield (steadyEnv Real.sqrt Real.cos Real.sin Real.pi) 800 600 0
          (arena 0 [])).player.x ∧
    (shieldAt ((800 : ℝ) / 2) (600 / 2)).y
      = (startedWithShield (steadyEnv Real.sqrt Real.cos Real.sin Real.pi) 800 600 0
          (arena 0 [])).player.y ∧
    (update (steadyEnv Real.sqrt Real.cos Real.sin Real.pi) 16
      (startedWithShield (steadyEnv Real.sqrt Real.cos Real.sin Real.pi) 800 600 0
        (arena 0 []))).shieldTimer = 0 ∧
    (update (steadyEnv Real.sqrt Real.cos Real.sin Real.pi) 16
      (startedWithShield (steadyEnv Real.sqrt Real.cos Real.sin Real.pi) 800 600 0
        (arena 0 []))).shieldTimer ≠ CONFIG.SHIELD_DURATION_S ∧
    PowerUp.update (shieldAt (800 / 2) (600 / 2)) (16 - 0) ∈
      (update (steadyEnv Real.sqrt Real.cos Real.sin Real.pi) 16
        (startedWithShield (steadyEnv Real.sqrt Real.cos Real.sin Real.pi) 800 600 0
          (arena 0 []))).powerups := by
  have hE : (steadyEnv Real.sqrt Real.cos Real.sin Real.pi).SqrtSpec := sqrtSpec_real _ rfl
  obtain ⟨h1, h2⟩ := startedWithShield_far (steadyEnv Real.sqrt Real.cos Real.sin Real.pi) hE 16
    (by norm_num) (by norm_num)
  refine ⟨rfl, rfl, rfl, rfl, h1, ?_, h2⟩
  rw [h1]
  unfold CONFIG.SHIELD_DURATION_S
  norm_num

/-- C12 (as amended) on a field of 200 by 200 started from the arena, whose pointer target
(100, 100) is the centre of that field. -/
theorem shield_pickup_after_start_witness :
    (update (steadyEnv Real.sqrt Real.cos Real.sin Real.pi) 16
      (startedWithShield (steadyEnv Real.sqrt Real.cos Real.sin Real.pi) 200 200 0
        (arena 0 []))).shieldTimer = CONFIG.SHIELD_DURATION_S ∧
    (beforeSpawners (steadyEnv Real.sqrt Real.cos Real.sin Real.pi) 16
      (startedWithShield (steadyEnv Real.sqrt Real.cos Real.sin Real.pi) 200 200 0
        (arena 0 []))).powerups = [] := by
  have hE : (steadyEnv Real.sqrt Real.cos Real.sin Real.pi).SqrtSpec := sqrtSpec_real _ rfl
  have hpl : (Player.update (steadyEnv Real.sqrt Real.cos Real.sin Real.pi)
      (startedWithShield (steadyEnv Real.sqrt Real.cos Real.sin Real.pi) 200 200 0
        (arena 0 []))).player = Player.new (200 / 2) (200 / 2) := by
    apply Player.update_still _ _ (fun _ => rfl)
    · show (100 : ℝ) = 200 / 2; norm_num
    · show (100 : ℝ) = 200 / 2; norm_num
    · show (15 : ℝ) ≤ 200 / 2; norm_num
    · show (200 : ℝ) / 2 ≤ 200 - 15; norm_num
    · show (15 : ℝ) ≤ 200 / 2; norm_num
    · show (200 : ℝ) / 2 ≤ 200 - 15; norm_num
  have h := shield_pickup_after_start (steadyEnv Real.sqrt Real.cos Real.sin Real.pi)
    200 200 0 16 (arena 0 []) (by norm_num) (by
      rw [hpl]
      unfold distance
      apply sqrt_lt_of_lt_sq _ hE _ _ (add_nonneg (sq_nonneg _) (sq_nonneg _))
      · simp only [Player.new, CONFIG.PLAYER_RADIUS]; norm_num
      · simp only [Player.new, CONFIG.PLAYER_RADIUS]; norm_num)
  exact ⟨h.1, h.2.1⟩

/-! ### The caps on enemies and power-ups -/

theorem spawnEnemies_enemies_length (E : Env K) (w : World K)
    (h : w.enemies.length ≤ CONFIG.MAX_ENEMIES) :
    (spawnEnemies E w).enemies.length ≤ CONFIG.MAX_ENEMIES := by
  rw [spawnEnemies_eq]
  by_cases hc : E.dateNow w.dateNowCalls - w.lastSpawnTime > w.currentSpawnInterval ∧
      w.enemies.length < CONFIG.MAX_ENEMIES
  · rw [if_pos hc]
    show (List.map _ (w.enemies ++ _)).length ≤ _
    rw [List.length_map, List.length_append]
    exact hc.2
  · rw [if_neg hc]
    exact h

theorem spawnPowerups_powerups_length (E : Env K) (w : World K) (h : w.powerups.length ≤ 2) :
    (spawnPowerups E w).powerups.length ≤ 2 := by
  rw [spawnPowerups_eq]
  by_cases hc : E.random w.randomCalls < CONFIG.POWERUP_SPAWN_CHANCE ∧ w.powerups.length < 2
  · rw [if_pos hc]
    show (w.powerups ++ _).length ≤ 2
    rw [List.length_append]
    exact hc.2
  · rw [if_neg hc]
    exact h

theorem powerupCallback_powerups_length (E : Env K) (dt : K) (a : PowerUp K) (k : Nat)
    (w : World K) : (powerupCallback E dt a k w).powerups.length ≤ w.powerups.length := by
  rw [powerupCallback_eq]
  split_ifs
  · exact le_trans (List.length_eraseIdx_le _ _) (by simp)
  · exact le_trans (List.length_eraseIdx_le _ _) (by simp)
  · exact le_trans (List.length_eraseIdx_le _ _) (by simp)
  · exact le_trans (List.length_eraseIdx_le _ _) (by simp)
  · simp

theorem updatePowerups_powerups_length (E : Env K) (dt : K) (w : World K) :
    (updatePowerups E dt w).powerups.length ≤ w.powerups.length :=
  forEach_invariant World.powerups (powerupCallback E dt)
    (fun s => s.powerups.length ≤ w.powerups.length)
    (fun a k s _ hs => le_trans (powerupCallback_powerups_length E dt a k s) hs) w le_rfl

theorem updateEnemies_powerups (E : Env K) (w : World K) :
    (updateEnemies E w).powerups = w.powerups := by
  obtain ⟨gs, es, ps2, rc, tr, h5⟩ := enemyLoop_frame E w.enemies.length 0 w
  have e5 : updateEnemies E w = _ := h5
  rw [e5]

/-- One frame keeps both lists within their caps. -/
theorem update_list_bounds (E : Env K) (t : K) (w : World K)
    (h1 : w.enemies.length ≤ CONFIG.MAX_ENEMIES) (h2 : w.powerups.length ≤ 2) :
    (update E t w).enemies.length ≤ CONFIG.MAX_ENEMIES ∧ (update E t w).powerups.length ≤ 2 := by
  by_cases hp : w.gameState = GameState.playing
  swap
  · rw [update_of_not_playing E t w hp]; exact ⟨h1, h2⟩
  obtain ⟨-, -, -, -, f5, -, -⟩ := beforeSpawners_fields E t w
  have g1 : (beforeSpawners E t w).enemies.length ≤ CONFIG.MAX_ENEMIES := by
    rw [f5]
    exact le_trans (updateEnemies_enemies_length E (beginFrame E t w)) h1
  have g2 : (beforeSpawners E t w).powerups.length ≤ 2 := by
    rw [beforeSpawners_powerups]
    refine le_trans (updatePowerups_powerups_length E _ _) ?_
    rw [updateEnemies_powerups, (beginFrame_lists E t w).2.1]
    exact h2
  obtain ⟨pu, rc, tr, k1⟩ := spawnPowerups_frame E (spawnEnemies E (beforeSpawners E t w))
  obtain ⟨es, rc', dc, tr', ls, si, bs, k2⟩ := spawnEnemies_frame E (beforeSpawners E t w)
  rw [update_eq_spawners E t w hp]
  refine ⟨?_, ?_⟩
  · have := spawnEnemies_enemies_length E _ g1
    rw [k1]
    exact this
  · apply spawnPowerups_powerups_length
    rw [k2]
    exact g2

theorem runFrames_list_bounds (E : Env K) (ts : List K) (w : World K)
    (h1 : w.enemies.length ≤ CONFIG.MAX_ENEMIES) (h2 : w.powerups.length ≤ 2) :
    (runFrames E ts w).enemies.length ≤ CONFIG.MAX_ENEMIES ∧
    (runFrames E ts w).powerups.length ≤ 2 := by
  induction ts generalizing w with
  | nil => exact ⟨h1, h2⟩
  | cons t ts ih =>
    obtain ⟨k1, k2⟩ := update_list_bounds E t w h1 h2
    exact ih (update E t w) k1 k2

/-- C15: the bound 'at most MAX_ENEMIES = 100 enemies and at most 2 power-ups' holds after
startGame, is preserved by every update frame, and so holds after every run of frames of a
started session, for all timestamps and random draws. -/
theorem lists_capped (E : Env K) (t : K) (w : World K) (cw ch pn : K) (w0 : World K)
    (ts : List K)
    (h1 : w.enemies.length ≤ CONFIG.MAX_ENEMIES) (h2 : w.powerups.length ≤ 2) :
    ((update E t w).enemies.length ≤ 100 ∧ (update E t w).powerups.length ≤ 2) ∧
    ((startGame E cw ch pn w0).enemies.length ≤ 100 ∧
      (startGame E cw ch pn w0).powerups.length ≤ 2) ∧
    ((runFrames E ts (startGame E cw ch pn w0)).enemies.length ≤ 100 ∧
      (runFrames E ts (startGame E cw ch pn w0)).powerups.length ≤ 2) := by
  have hs1 : (startGame E cw ch pn w0).enemies.length ≤ CONFIG.MAX_ENEMIES := Nat.zero_le _
  have hs2 : (startGame E cw ch pn w0).powerups.length ≤ 2 := Nat.zero_le _
  exact ⟨update_list_bounds E t w h1 h2, ⟨hs1, hs2⟩, runFrames_list_bounds E ts _ hs1 hs2⟩

/-- C15 on the arena with two enemies. -/
theorem lists_capped_witness :
    (update (steadyEnv Real.sqrt Real.cos Real.sin Real.pi) 16
      (arena 0 [enemyOnPlayer, enemyOnPlayer])).enemies.length ≤ 100 ∧
    (update (steadyEnv Real.sqrt Real.cos Real.sin Real.pi) 16
      (arena 0 [enemyOnPlayer, enemyOnPlayer])).powerups.length ≤ 2 :=
  (lists_capped (steadyEnv Real.sqrt Real.cos Real.sin Real.pi) 16
    (arena 0 [enemyOnPlayer, enemyOnPlayer]) 800 600 0 (initialWorld 800 600) [16]
    (by simp [arena, CONFIG.MAX_ENEMIES]) (by simp [arena])).1

/-! ### Enemy speeds and the base speed -/

theorem Enemy.update_speed (E : Env K) (e : Enemy K) (w : World K) :
    (Enemy.update E e w).1.speed = e.speed := rfl

theorem enemyCallback_speeds (E : Env K) (a : Enemy K) (k : Nat) (w : World K)
    (hget : w.enemies[k]? = some a)
    (h : ∀ e ∈ w.enemies, e.speed = w.ENEMY_BASE_SPEED) :
    ∀ e ∈ (enemyCallback E a k w).enemies, e.speed = (enemyCallback E a k w).ENEMY_BASE_SPEED := by
  have ha : a.speed = w.ENEMY_BASE_SPEED := h a (List.getElem?_mem hget)
  have hset : ∀ e ∈ w.enemies.set k (Enemy.update E a w).1, e.speed = w.ENEMY_BASE_SPEED := by
    intro e he
    rcases List.mem_or_eq_of_mem_set he with he | he
    · exact h e he
    · rw [he, Enemy.update_speed]; exact ha
  rw [enemyCallback_eq]
  split_ifs
  · intro e he
    exact hset e (List.mem_of_mem_eraseIdx he)
  · exact hset
  · exact hset

theorem updateEnemies_speeds (E : Env K) (w : World K)
    (h : ∀ e ∈ w.enemies, e.speed = w.ENEMY_BASE_SPEED) :
    ∀ e ∈ (updateEnemies E w).enemies, e.speed = (updateEnemies E w).ENEMY_BASE_SPEED :=
  forEach_invariant World.enemies (enemyCallback E)
    (fun s => ∀ e ∈ s.enemies, e.speed = s.ENEMY_BASE_SPEED)
    (fun a k s hget hs => enemyCallback_speeds E a k s hget hs) w h

theorem spawnEnemies_speeds (E : Env K) (w : World K)
    (h : ∀ e ∈ w.enemies, e.speed = w.ENEMY_BASE_SPEED) :
    ∀ e ∈ (spawnEnemies E w).enemies, e.speed = (spawnEnemies E w).ENEMY_BASE_SPEED := by
  rw [spawnEnemies_eq]
  by_cases hc : E.dateNow w.dateNowCalls - w.lastSpawnTime > w.currentSpawnInterval ∧
      w.enemies.length < CONFIG.MAX_ENEMIES
  · rw [if_pos hc]
    intro e he
    have he' : e ∈ List.map _ (w.enemies ++ _) := he
    obtain ⟨e0, -, rfl⟩ := List.mem_map.1 he'
    rfl
  · rw [if_neg hc]
    exact h

/-- One frame keeps every enemy's speed field equal to the base speed. -/
theorem update_speeds (E : Env K) (t : K) (w : World K)
    (h : ∀ e ∈ w.enemies, e.speed = w.ENEMY_BASE_SPEED) :
    ∀ e ∈ (update E t w).enemies, e.speed = (update E t w).ENEMY_BASE_SPEED := by
  by_cases hp : w.gameState = GameState.playing
  swap
  · rw [update_of_not_playing E t w hp]; exact h
  obtain ⟨-, -, f3, -, f5, -, -⟩ := beforeSpawners_fields E t w
  have hloop := updateEnemies_speeds E (beginFrame E t w) h
  have hb : (updateEnemies E (beginFrame E t w)).ENEMY_BASE_SPEED = w.ENEMY_BASE_SPEED := by
    obtain ⟨gs, es, ps2, rc, tr, h5⟩ := enemyLoop_frame E (beginFrame E t w).enemies.length 0
      (beginFrame E t w)
    have e5 : updateEnemies E (beginFrame E t w) = _ := h5
    rw [e5]
    rfl
  have g : ∀ e ∈ (beforeSpawners E t w).enemies, e.speed = (beforeSpawners E t w).ENEMY_BASE_SPEED := by
    rw [f5, f3, ← hb]
    exact hloop
  have g2 := spawnEnemies_speeds E _ g
  obtain ⟨pu, rc, tr, k1⟩ := spawnPowerups_frame E (spawnEnemies E (beforeSpawners E t w))
  rw [update_eq_spawners E t w hp, k1]
  exact g2

theorem runFrames_speeds (E : Env K) (ts : List K) (w : World K)
    (h : ∀ e ∈ w.enemies, e.speed = w.ENEMY_BASE_SPEED) :
    ∀ e ∈ (runFrames E ts w).enemies, e.speed = (runFrames E ts w).ENEMY_BASE_SPEED := by
  induction ts generalizing w with
  | nil => exact h
  | cons t ts ih => exact ih (update E t w) (update_speeds E t w h)

/-- C20: after every update frame of a session started by startGame every live enemy's speed
field equals the current CONFIG.ENEMY_BASE_SPEED; the equality is preserved by each frame, and
a frame that spawns an enemy raises the base speed to min(ENEMY_MAX_SPEED, old + 0.005), which
is then the speed of every enemy in the list, old and new. -/
theorem enemy_speeds_follow_base (E : Env K) (t : K) (w : World K) (cw ch pn : K)
    (w0 : World K) (ts : List K)
    (h : ∀ e ∈ w.enemies, e.speed = w.ENEMY_BASE_SPEED) :
    (∀ e ∈ (update E t w).enemies, e.speed = (update E t w).ENEMY_BASE_SPEED) ∧
    (∀ e ∈ (runFrames E ts (startGame E cw ch pn w0)).enemies,
      e.speed = (runFrames E ts (startGame E cw ch pn w0)).ENEMY_BASE_SPEED) ∧
    (w.gameState = GameState.playing →
      E.dateNow (w.dateNowCalls + 1) - w.lastSpawnTime > w.currentSpawnInterval →
      w.enemies.length < CONFIG.MAX_ENEMIES →
      (update E t w).ENEMY_BASE_SPEED
        = min CONFIG.ENEMY_MAX_SPEED (w.ENEMY_BASE_SPEED + 0.005) ∧
      (∃ e, Event.enemySpawn e ∈ eventsSince w.trace.length (update E t w)) ∧
      ∀ e ∈ (update E t w).enemies,
        e.speed = min CONFIG.ENEMY_MAX_SPEED (w.ENEMY_BASE_SPEED + 0.005)) := by
  have h1 := update_speeds E t w h
  refine ⟨h1, runFrames_speeds E ts _ (fun e he => absurd he (List.not_mem_nil e)), ?_⟩
  intro hp hclock hroom
  obtain ⟨hs, e, c, htr⟩ := update_spawns E t w hp hclock hroom
  refine ⟨hs, ⟨e, ?_⟩, fun e' he' => by rw [← hs]; exact h1 e' he'⟩
  obtain ⟨a, b, c', -, hb, -, -, -, -⟩ := update_trace E t w hp
  obtain ⟨-, -, -, -, -, -, f7⟩ := beforeSpawners_fields E t w
  unfold eventsSince
  rw [htr, f7, hb, List.append_assoc, List.append_assoc, List.drop_left]
  simp

/-- C20 on the arena with two enemies, in a frame that spawns a third. -/
theorem enemy_speeds_follow_base_witness :
    (∀ e ∈ (arena (0 : ℝ) [enemyOnPlayer, enemyOnPlayer]).enemies,
      e.speed = (arena (0 : ℝ) [enemyOnPlayer, enemyOnPlayer]).ENEMY_BASE_SPEED) ∧
    ∀ e ∈ (update (steadyEnv Real.sqrt Real.cos Real.sin Real.pi) 16
        (arena 0 [enemyOnPlayer, enemyOnPlayer])).enemies,
      e.speed = (update (steadyEnv Real.sqrt Real.cos Real.sin Real.pi) 16
        (arena 0 [enemyOnPlayer, enemyOnPlayer])).ENEMY_BASE_SPEED :=
  have h : ∀ e ∈ (arena (0 : ℝ) [enemyOnPlayer, enemyOnPlayer]).enemies,
      e.speed = (arena (0 : ℝ) [enemyOnPlayer, enemyOnPlayer]).ENEMY_BASE_SPEED := by
    intro e he
    simp only [arena, List.mem_cons, List.mem_singleton, List.not_mem_nil, or_false,
      or_self] at he
    rw [he]
    rfl
  ⟨h, (enemy_speeds_follow_base (steadyEnv Real.sqrt Real.cos Real.sin Real.pi) 16
    (arena 0 [enemyOnPlayer, enemyOnPlayer]) 800 600 0 (initialWorld 800 600) [16] h).1⟩

/-! ### Expired power-ups and particles -/

/-- A particle of a burst starts with a positive life: randomInt(500, 1500) is at least 500
when Math.random() is not negative. -/
theorem particleAt_life_pos (E : Env K) (hR : E.RandomSpec) (x y : K) (color : String)
    (i : Nat) : 0 < (particleAt E x y color i).life := by
  have hr := (hR (i + 1 + 1)).1
  have hfl : (0 : K) ≤ ((Int.floor (E.random (i + 1 + 1) * (1500 - 500 + 1)) : Int) : K) := by
    have : (0 : Int) ≤ Int.floor (E.random (i + 1 + 1) * (1500 - 500 + 1)) :=
      Int.floor_nonneg.2 (mul_nonneg hr (by norm_num))
    exact_mod_cast this
  simp only [particleAt, burstParticle, Particle.new, randomInt, random]
  split_ifs with h0
  · norm_num
  · linarith

theorem burstList_life_pos (E : Env K) (hR : E.RandomSpec) (x y : K) (color : String)
    (count i : Nat) : ∀ p ∈ burstList E x y color count i, 0 < p.life := by
  induction count generalizing i with
  | zero => simp [burstList]
  | succ n ih =>
    intro p hp
    simp only [burstList, List.mem_cons] at hp
    rcases hp with rfl | hp
    · exact particleAt_life_pos E hR x y color i
    · exact ih _ p hp

theorem mem_of_mem_shiftParticles {α : Type} (ps : List α) (p : α)
    (h : p ∈ shiftParticles ps) : p ∈ ps := by
  rw [shiftParticles_eq_drop] at h
  exact List.mem_of_mem_drop h

theorem burst_life_pos (E : Env K) (hR : E.RandomSpec) (x y : K) (color : String)
    (count i : Nat) (ps : List (Particle K)) (h : ∀ q ∈ ps, 0 < q.life) :
    ∀ q ∈ shiftParticles (ps ++ burstList E x y color count i), 0 < q.life := by
  intro q hq
  rcases List.mem_append.1 (mem_of_mem_shiftParticles _ q hq) with hq | hq
  · exact h q hq
  · exact burstList_life_pos E hR x y color count i q hq

/-- The enemy callback puts no entry without positive life into the two lists. -/
theorem enemyCallback_lives (E : Env K) (hR : E.RandomSpec) (a : Enemy K) (k : Nat)
    (w : World K)
    (h : (∀ p ∈ w.powerups, 0 < p.life) ∧ (∀ q ∈ w.particles, 0 < q.life)) :
    (∀ p ∈ (enemyCallback E a k w).powerups, 0 < p.life) ∧
    (∀ q ∈ (enemyCallback E a k w).particles, 0 < q.life) := by
  rw [enemyCallback_eq]
  split_ifs
  · exact ⟨h.1, burst_life_pos E hR _ _ _ _ _ _ h.2⟩
  · exact ⟨h.1, burst_life_pos E hR _ _ _ _ _ _ h.2⟩
  · exact h

theorem powerupCallback_lives (E : Env K) (hR : E.RandomSpec) (dt : K) (a : PowerUp K)
    (k : Nat) (w : World K)
    (h : (∀ p ∈ w.powerups, 0 < p.life) ∧ (∀ q ∈ w.particles, 0 < q.life)) :
    (∀ p ∈ (powerupCallback E dt a k w).powerups, 0 < p.life) ∧
    (∀ q ∈ (powerupCallback E dt a k w).particles, 0 < q.life) := by
  have herase : ∀ p ∈ (w.powerups.set k (a.update dt)).eraseIdx k, 0 < p.life := by
    intro p hp
    rw [eraseIdx_set_self] at hp
    exact h.1 p (List.mem_of_mem_eraseIdx hp)
  rw [powerupCallback_eq]
  by_cases h1 : (a.update dt).life ≤ 0
  · rw [if_pos h1]
    exact ⟨herase, h.2⟩
  rw [if_neg h1]
  split_ifs
  · exact ⟨herase, burst_life_pos E hR _ _ _ _ _ _ h.2⟩
  · exact ⟨herase, burst_life_pos E hR _ _ _ _ _ _ h.2⟩
  · exact ⟨herase, h.2⟩
  · refine ⟨?_, h.2⟩
    intro p hp
    rcases List.mem_or_eq_of_mem_set hp with hp | hp
    · exact h.1 p hp
    · rw [hp]; exact not_le.1 h1

theorem particleCallback_lives (dt : K) (a : Particle K) (k : Nat) (w : World K)
    (h : (∀ p ∈ w.powerups, 0 < p.life) ∧ (∀ q ∈ w.particles, 0 < q.life)) :
    (∀ p ∈ (particleCallback dt a k w).powerups, 0 < p.life) ∧
    (∀ q ∈ (particleCallback dt a k w).particles, 0 < q.life) := by
  rw [particleCallback_eq]
  refine ⟨h.1, ?_⟩
  intro q hq
  have hq' : q ∈ (if (a.update dt).life ≤ 0 then (w.particles.set k (a.update dt)).eraseIdx k
      else w.particles.set k (a.update dt)) := hq
  by_cases h1 : (a.update dt).life ≤ 0
  · rw [if_pos h1, eraseIdx_set_self] at hq'
    exact h.2 q (List.mem_of_mem_eraseIdx hq')
  · rw [if_neg h1] at hq'
    rcases List.mem_or_eq_of_mem_set hq' with hq' | hq'
    · exact h.2 q hq'
    · rw [hq']; exact not_le.1 h1

theorem spawnPowerups_lives (E : Env K) (w : World K)
    (h : (∀ p ∈ w.powerups, 0 < p.life) ∧ (∀ q ∈ w.particles, 0 < q.life)) :
    (∀ p ∈ (spawnPowerups E w).powerups, 0 < p.life) ∧
    (∀ q ∈ (spawnPowerups E w).particles, 0 < q.life) := by
  rw [spawnPowerups_eq]
  by_cases hc : E.random w.randomCalls < CONFIG.POWERUP_SPAWN_CHANCE ∧ w.powerups.length < 2
  · rw [if_pos hc]
    refine ⟨?_, h.2⟩
    intro p hp
    have hp' : p ∈ w.powerups ++ _ := hp
    rcases List.mem_append.1 hp' with hp' | hp'
    · exact h.1 p hp'
    · rw [List.mem_singleton] at hp'
      rw [hp']
      show (0 : K) < 10000
      norm_num
  · rw [if_neg hc]
    exact h

/-- One frame leaves no expired power-up and no expired particle in the lists, given that
there was none before. -/
theorem update_lives (E : Env K) (hR : E.RandomSpec) (t : K) (w : World K)
    (h : (∀ p ∈ w.powerups, 0 < p.life) ∧ (∀ q ∈ w.particles, 0 < q.life)) :
    (∀ p ∈ (update E t w).powerups, 0 < p.life) ∧
    (∀ q ∈ (update E t w).particles, 0 < q.life) := by
  by_cases hp : w.gameState = GameState.playing
  swap
  · rw [update_of_not_playing E t w hp]; exact h
  have h1 : (∀ p ∈ (updateEnemies E (beginFrame E t w)).powerups, 0 < p.life) ∧
      (∀ q ∈ (updateEnemies E (beginFrame E t w)).particles, 0 < q.life) :=
    forEach_invariant World.enemies (enemyCallback E)
      (fun s => (∀ p ∈ s.powerups, 0 < p.life) ∧ (∀ q ∈ s.particles, 0 < q.life))
      (fun a k s _ hs => enemyCallback_lives E hR a k s hs) _ h
  have h2 := forEach_invariant World.powerups (powerupCallback E (t - w.lastUpdateTime))
      (fun s => (∀ p ∈ s.powerups, 0 < p.life) ∧ (∀ q ∈ s.particles, 0 < q.life))
      (fun a k s _ hs => powerupCallback_lives E hR _ a k s hs) _ h1
  have h3 := forEach_invariant World.particles (particleCallback (t - w.lastUpdateTime))
      (fun s => (∀ p ∈ s.powerups, 0 < p.life) ∧ (∀ q ∈ s.particles, 0 < q.life))
      (fun a k s _ hs => particleCallback_lives _ a k s hs) _ h2
  obtain ⟨es, rc', dc, tr', ls, si, bs, k2⟩ := spawnEnemies_frame E (beforeSpawners E t w)
  rw [update_eq_spawners E t w hp]
  apply spawnPowerups_lives
  rw [k2]
  exact h3

theorem runFrames_lives (E : Env K) (hR : E.RandomSpec) (ts : List K) (w : World K)
    (h : (∀ p ∈ w.powerups, 0 < p.life) ∧ (∀ q ∈ w.particles, 0 < q.life)) :
    (∀ p ∈ (runFrames E ts w).powerups, 0 < p.life) ∧
    (∀ q ∈ (runFrames E ts w).particles, 0 < q.life) := by
  induction ts generalizing w with
  | nil => exact h
  | cons t ts ih => exact ih (update E t w) (update_lives E hR t w h)

/-- C19: in every state reached from startGame by update frames, whatever the timestamps and
the draws of Math.random() (numbers from 0 up to 1), no power-up and no particle with life
0 or less is in its list: every entry has positive life. -/
theorem no_expired_entries (E : Env K) (hR : E.RandomSpec) (cw ch pn : K) (w0 : World K)
    (ts : List K) :
    (∀ p ∈ (runFrames E ts (startGame E cw ch pn w0)).powerups, ¬ p.life ≤ 0) ∧
    (∀ q ∈ (runFrames E ts (startGame E cw ch pn w0)).particles, ¬ q.life ≤ 0) := by
  have h := runFrames_lives E hR ts (startGame E cw ch pn w0)
    ⟨fun p hp => absurd hp (List.not_mem_nil p), fun q hq => absurd hq (List.not_mem_nil q)⟩
  exact ⟨fun p hp => not_le.2 (h.1 p hp), fun q hq => not_le.2 (h.2 q hq)⟩

/-- C11 on the freshly loaded page (state Start) and on a finished session (state GameOver). -/
theorem update_frozen_when_not_playing_witness :
    update (steadyEnv Real.sqrt Real.cos Real.sin Real.pi) 16 (initialWorld 800 600)
      = initialWorld 800 600 ∧
    (runFrames (steadyEnv Real.sqrt Real.cos Real.sin Real.pi) [32, 48]
      { arena (0 : ℝ) [] with gameState := GameState.gameOver, timeSurvived := 57 }).timeSurvived
      = 57 :=
  ⟨(update_frozen_when_not_playing (steadyEnv Real.sqrt Real.cos Real.sin Real.pi) 16 []
      (initialWorld 800 600) (by simp [initialWorld])).1,
   (update_frozen_when_not_playing (steadyEnv Real.sqrt Real.cos Real.sin Real.pi) 16 [32, 48]
      { arena (0 : ℝ) [] with gameState := GameState.gameOver, timeSurvived := 57 }
      (by simp)).2.2⟩

/-! ### The range of the power-up timers -/

theorem updateEnemies_timers (E : Env K) (w : World K) :
    (updateEnemies E w).shieldTimer = w.shieldTimer ∧
    (updateEnemies E w).slowTimer = w.slowTimer := by
  obtain ⟨gs, es, ps, rc, tr, h⟩ := enemyLoop_frame E w.enemies.length 0 w
  unfold updateEnemies forEach
  rw [h]
  exact ⟨rfl, rfl⟩

/-- One turn of the power-up loop: a timer changes only through a pick-up of its type,
and then to the full duration. -/
theorem powerupCallback_timers (E : Env K) (dt : K) (a : PowerUp K) (k : Nat) (s : World K) :
    ∃ ext, (powerupCallback E dt a k s).trace = s.trace ++ ext ∧
      ((∀ p, Event.pickup p ∈ ext → p.type ≠ "shield") →
        (powerupCallback E dt a k s).shieldTimer = s.shieldTimer) ∧
      ((∀ p, Event.pickup p ∈ ext → p.type ≠ "slow") →
        (powerupCallback E dt a k s).slowTimer = s.slowTimer) ∧
      ((powerupCallback E dt a k s).shieldTimer = s.shieldTimer ∨
        (powerupCallback E dt a k s).shieldTimer = CONFIG.SHIELD_DURATION_S) ∧
      ((powerupCallback E dt a k s).slowTimer = s.slowTimer ∨
        (powerupCallback E dt a k s).slowTimer = CONFIG.SLOW_DURATION_S) := by
  rw [powerupCallback_eq]
  by_cases h1 : (a.update dt).life ≤ 0
  · rw [if_pos h1]
    exact ⟨_, rfl, fun _ => rfl, fun _ => rfl, Or.inl rfl, Or.inl rfl⟩
  rw [if_neg h1]
  by_cases h2 : distance E s.player.x s.player.y a.x a.y < s.player.radius + a.radius
  swap
  · rw [if_neg h2]
    exact ⟨_, rfl, fun _ => rfl, fun _ => rfl, Or.inl rfl, Or.inl rfl⟩
  rw [if_pos h2]
  have hty : (a.update dt).type = a.type := rfl
  by_cases h3 : a.type = "shield"
  · rw [if_pos h3]
    refine ⟨_, rfl, fun hno => ?_, fun _ => rfl, Or.inr rfl, Or.inl rfl⟩
    exact absurd (hty.trans h3)
      (hno (a.update dt) (List.mem_cons_of_mem _ (List.mem_singleton.2 rfl)))
  rw [if_neg h3]
  by_cases h4 : a.type = "slow"
  · rw [if_pos h4]
    refine ⟨_, rfl, fun _ => rfl, fun hno => ?_, Or.inl rfl, Or.inr rfl⟩
    exact absurd (hty.trans h4)
      (hno (a.update dt) (List.mem_cons_of_mem _ (List.mem_singleton.2 rfl)))
  · rw [if_neg h4]
    exact ⟨_, rfl, fun _ => rfl, fun _ => rfl, Or.inl rfl, Or.inl rfl⟩

/-- The power-up loop: a timer changes only through a pick-up of its type, and then to the
full duration. -/
theorem powerupLoop_timers (E : Env K) (dt : K) (n k : Nat) (w : World K) :
    ∃ ext, (forEachFrom World.powerups (powerupCallback E dt) n k w).trace = w.trace ++ ext ∧
      ((∀ p, Event.pickup p ∈ ext → p.type ≠ "shield") →
        (forEachFrom World.powerups (powerupCallback E dt) n k w).shieldTimer = w.shieldTimer) ∧
      ((∀ p, Event.pickup p ∈ ext → p.type ≠ "slow") →
        (forEachFrom World.powerups (powerupCallback E dt) n k w).slowTimer = w.slowTimer) ∧
      ((forEachFrom World.powerups (powerupCallback E dt) n k w).shieldTimer = w.shieldTimer ∨
        (forEachFrom World.powerups (powerupCallback E dt) n k w).shieldTimer
          = CONFIG.SHIELD_DURATION_S) ∧
      ((forEachFrom World.powerups (powerupCallback E dt) n k w).slowTimer = w.slowTimer ∨
        (forEachFrom World.powerups (powerupCallback E dt) n k w).slowTimer
          = CONFIG.SLOW_DURATION_S) := by
  apply forEachFrom_invariant World.powerups (powerupCallback E dt)
    (fun s => ∃ ext, s.trace = w.trace ++ ext ∧
      ((∀ p, Event.pickup p ∈ ext → p.type ≠ "shield") → s.shieldTimer = w.shieldTimer) ∧
      ((∀ p, Event.pickup p ∈ ext → p.type ≠ "slow") → s.slowTimer = w.slowTimer) ∧
      (s.shieldTimer = w.shieldTimer ∨ s.shieldTimer = CONFIG.SHIELD_DURATION_S) ∧
      (s.slowTimer = w.slowTimer ∨ s.slowTimer = CONFIG.SLOW_DURATION_S))
  · rintro a j s - ⟨ext, hs, hsh, hsl, osh, osl⟩
    obtain ⟨ext', h, hsh', hsl', osh', osl'⟩ := powerupCallback_timers E dt a j s
    refine ⟨ext ++ ext', by rw [h, hs, List.append_assoc], ?_, ?_, ?_, ?_⟩
    · intro hno
      rw [hsh' (fun p hp => hno p (List.mem_append_right _ hp))]
      exact hsh (fun p hp => hno p (List.mem_append_left _ hp))
    · intro hno
      rw [hsl' (fun p hp => hno p (List.mem_append_right _ hp))]
      exact hsl (fun p hp => hno p (List.mem_append_left _ hp))
    · rcases osh' with e | e
      · rw [e]; exact osh
      · exact Or.inr e
    · rcases osl' with e | e
      · rw [e]; exact osl
      · exact Or.inr e
  · exact ⟨[], by simp, fun _ => rfl, fun _ => rfl, Or.inl rfl, Or.inl rfl⟩

/-- The timers at the end of a frame in the playing state: each is the decremented value
max(0, old - deltaTime / 1000) or the full duration, and it is the decremented value when
the frame logged no pick-up of its type. -/
theorem update_timers_cases (E : Env K) (t : K) (w : World K)
    (h : w.gameState = GameState.playing) :
    ((∀ p, Event.pickup p ∈ eventsSince w.trace.length (update E t w) → p.type ≠ "shield") →
      (update E t w).shieldTimer = max 0 (w.shieldTimer - (t - w.lastUpdateTime) / 1000)) ∧
    ((∀ p, Event.pickup p ∈ eventsSince w.trace.length (update E t w) → p.type ≠ "slow") →
      (update E t w).slowTimer = max 0 (w.slowTimer - (t - w.lastUpdateTime) / 1000)) ∧
    ((update E t w).shieldTimer = max 0 (w.shieldTimer - (t - w.lastUpdateTime) / 1000) ∨
      (update E t w).shieldTimer = CONFIG.SHIELD_DURATION_S) ∧
    ((update E t w).slowTimer = max 0 (w.slowTimer - (t - w.lastUpdateTime) / 1000) ∨
      (update E t w).slowTimer = CONFIG.SLOW_DURATION_S) := by
  obtain ⟨a, b, c, ha, hb, hc, -, -, -⟩ := update_trace E t w h
  obtain ⟨ext, he, hsh, hsl, osh, osl⟩ := powerupLoop_timers E (t - w.lastUpdateTime)
    (updateEnemies E (beginFrame E t w)).powerups.length 0 (updateEnemies E (beginFrame E t w))
  have hb' : (forEachFrom World.powerups (powerupCallback E (t - w.lastUpdateTime))
      (updateEnemies E (beginFrame E t w)).powerups.length 0
      (updateEnemies E (beginFrame E t w))).trace = w.trace ++ a ++ b := hb
  rw [hb', ha] at he
  have hext : ext = b := (List.append_cancel_left he).symm
  subst hext
  have hev : eventsSince w.trace.length (update E t w) = a ++ ext ++ c :=
    eventsSince_of_append w _ _ (by rw [hc, List.append_assoc, List.append_assoc,
      List.append_assoc])
  obtain ⟨e1, e2⟩ := updateEnemies_timers E (beginFrame E t w)
  have b1 : (beginFrame E t w).shieldTimer
      = max 0 (w.shieldTimer - (t - w.lastUpdateTime) / 1000) := rfl
  have b2 : (beginFrame E t w).slowTimer
      = max 0 (w.slowTimer - (t - w.lastUpdateTime) / 1000) := rfl
  obtain ⟨u1, u2⟩ := update_timers E t w h
  have f1 : (update E t w).shieldTimer = (forEachFrom World.powerups
      (powerupCallback E (t - w.lastUpdateTime))
      (updateEnemies E (beginFrame E t w)).powerups.length 0
      (updateEnemies E (beginFrame E t w))).shieldTimer := u1
  have f2 : (update E t w).slowTimer = (forEachFrom World.powerups
      (powerupCallback E (t - w.lastUpdateTime))
      (updateEnemies E (beginFrame E t w)).powerups.length 0
      (updateEnemies E (beginFrame E t w))).slowTimer := u2
  rw [e1, b1] at hsh osh
  rw [e2, b2] at hsl osl
  rw [← f1] at hsh osh
  rw [← f2] at hsl osl
  refine ⟨fun hno => hsh (fun p hp => hno p ?_), fun hno => hsl (fun p hp => hno p ?_),
    osh, osl⟩
  · rw [hev]; exact List.mem_append_left _ (List.mem_append_right _ hp)
  · rw [hev]; exact List.mem_append_left _ (List.mem_append_right _ hp)

theorem decremented_in_range (x d top : K) (hd : 0 ≤ d) (h0 : 0 ≤ x) (h1 : x ≤ top) :
    0 ≤ max 0 (x - d / 1000) ∧ max 0 (x - d / 1000) ≤ top := by
  refine ⟨le_max_left _ _, max_le (le_trans h0 h1) ?_⟩
  have : 0 ≤ d / 1000 := div_nonneg hd (by norm_num)
  linarith

theorem timersInRange_startGame (E : Env K) (cw ch pn : K) (w : World K) :
    timersInRange (startGame E cw ch pn w) := by
  rw [startGame_eq]
  unfold timersInRange CONFIG.SHIELD_DURATION_S CONFIG.SLOW_DURATION_S
  simp

/-- One frame keeps the timers in range; in the playing state the frame must not go back in
time. -/
theorem timersInRange_update (E : Env K) (t : K) (w : World K)
    (hdt : w.gameState = GameState.playing → 0 ≤ t - w.lastUpdateTime)
    (hw : timersInRange w) : timersInRange (update E t w) := by
  by_cases h : w.gameState = GameState.playing
  swap
  · rw [update_of_not_playing E t w h]; exact hw
  obtain ⟨-, -, osh, osl⟩ := update_timers_cases E t w h
  obtain ⟨h1, h2, h3, h4⟩ := hw
  obtain ⟨a1, a2⟩ := decremented_in_range w.shieldTimer (t - w.lastUpdateTime)
    CONFIG.SHIELD_DURATION_S (hdt h) h1 h2
  obtain ⟨a3, a4⟩ := decremented_in_range w.slowTimer (t - w.lastUpdateTime)
    CONFIG.SLOW_DURATION_S (hdt h) h3 h4
  have p1 : (0 : K) ≤ CONFIG.SHIELD_DURATION_S := by unfold CONFIG.SHIELD_DURATION_S; norm_num
  have p2 : (0 : K) ≤ CONFIG.SLOW_DURATION_S := by unfold CONFIG.SLOW_DURATION_S; norm_num
  unfold timersInRange
  refine ⟨?_, ?_, ?_, ?_⟩
  · rcases osh with e | e <;> rw [e] <;> assumption
  · rcases osh with e | e <;> rw [e]
    · exact a2
  · rcases osl with e | e <;> rw [e] <;> assumption
  · rcases osl with e | e <;> rw [e]
    · exact a4

theorem update_lastUpdateTime (E : Env K) (t : K) (w : World K)
    (h : (update E t w).gameState = GameState.playing) :
    (update E t w).lastUpdateTime = t := by
  by_cases hw : w.gameState = GameState.playing
  · obtain ⟨gs, es, pu, ps, ts, ls, si, sh, sl, bs, rc, dc, tr, e⟩ := update_playing_frame E t w hw
    rw [e]
  · rw [update_of_not_playing E t w hw] at h
    exact absurd h hw

/-- A run of frames whose timestamps never go back keeps the timers in range. -/
theorem timersInRange_runFrames (E : Env K) (ts : List K) (start : K) (w : World K)
    (hord : framesInOrder start ts)
    (hstart : w.gameState = GameState.playing → w.lastUpdateTime ≤ start)
    (hw : timersInRange w) : timersInRange (runFrames E ts w) := by
  induction ts generalizing start w with
  | nil => exact hw
  | cons t ts ih =>
    unfold framesInOrder at hord
    rw [List.chain_cons] at hord
    show timersInRange (runFrames E ts (update E t w))
    apply ih t (update E t w) hord.2
    · intro hp
      rw [update_lastUpdateTime E t w hp]
    · exact timersInRange_update E t w
        (fun hp => sub_nonneg.2 (le_trans (hstart hp) hord.1)) hw

/-- A frame that starts with no power-up on the field logs no pick-up. -/
theorem update_no_pickup_of_no_powerups (E : Env K) (t : K) (w : World K)
    (h : w.gameState = GameState.playing) (hp : w.powerups = []) :
    ∀ p, Event.pickup p ∉ eventsSince w.trace.length (update E t w) := by
  obtain ⟨a, b, c, ha, hb, hc, hpa, -, hpc⟩ := update_trace E t w h
  have hnil : (updateEnemies E (beginFrame E t w)).powerups = [] := by
    rw [updateEnemies_powerups, (beginFrame_lists E t w).2.1, hp]
  have hloop : updatePowerups E (t - w.lastUpdateTime) (updateEnemies E (beginFrame E t w))
      = updateEnemies E (beginFrame E t w) := by
    unfold updatePowerups forEach
    rw [hnil]
    rfl
  rw [hloop, ha] at hb
  have hb0 : b = [] := by
    exact (List.append_cancel_left ((List.append_nil _).trans hb)).symm
  subst hb0
  have hev : eventsSince w.trace.length (update E t w) = a ++ c :=
    eventsSince_of_append w _ _ (by rw [hc, List.append_nil, List.append_assoc])
  intro p hmem
  rw [hev] at hmem
  rcases List.mem_append.1 hmem with hm | hm
  · exact absurd (hpa _ hm) (by simp [Event.phase])
  · exact absurd (hpc _ hm) (by simp [Event.phase])

/-- C21: both power-up timers are in range (0 to the full duration, 5) after startGame,
and one update frame keeps them in range when its deltaTime (timestamp minus the time of
the last update) is not negative; so does any run of frames after startGame whose timestamps
never go back.  A frame in the playing state that logs no pick-up leaves each timer at
max(0, old - deltaTime / 1000) (for one timer it is enough that no power-up of its type
was picked up); outside the playing state update returns before deltaTime is computed and
leaves both timers as they were. -/
theorem timers_stay_in_range (E : Env K) (cw ch pn t : K) (ts : List K) (w0 w : World K)
    (hdt : 0 ≤ t - w.lastUpdateTime) (hw : timersInRange w) (hord : framesInOrder pn ts) :
    timersInRange (startGame E cw ch pn w0) ∧
    timersInRange (update E t w) ∧
    timersInRange (runFrames E ts (startGame E cw ch pn w0)) ∧
    (w.gameState = GameState.playing →
      (∀ p, Event.pickup p ∉ eventsSince w.trace.length (update E t w)) →
      (update E t w).shieldTimer = max 0 (w.shieldTimer - (t - w.lastUpdateTime) / 1000) ∧
      (update E t w).slowTimer = max 0 (w.slowTimer - (t - w.lastUpdateTime) / 1000)) ∧
    (w.gameState = GameState.playing →
      (∀ p, Event.pickup p ∈ eventsSince w.trace.length (update E t w) → p.type ≠ "shield") →
      (update E t w).shieldTimer = max 0 (w.shieldTimer - (t - w.lastUpdateTime) / 1000)) ∧
    (w.gameState = GameState.playing →
      (∀ p, Event.pickup p ∈ eventsSince w.trace.length (update E t w) → p.type ≠ "slow") →
      (update E t w).slowTimer = max 0 (w.slowTimer - (t - w.lastUpdateTime) / 1000)) ∧
    (w.gameState ≠ GameState.playing →
      (update E t w).shieldTimer = w.shieldTimer ∧ (update E t w).slowTimer = w.slowTimer) ∧
    CONFIG.SHIELD_DURATION_S = (5 : K) ∧ CONFIG.SLOW_DURATION_S = (5 : K) := by
  refine ⟨timersInRange_startGame E cw ch pn w0, timersInRange_update E t w (fun _ => hdt) hw,
    timersInRange_runFrames E ts pn _ hord (fun _ => le_of_eq rfl)
      (timersInRange_startGame E cw ch pn w0), ?_, ?_, ?_, ?_, rfl, rfl⟩
  · intro hp hno
    obtain ⟨h1, h2, -, -⟩ := update_timers_cases E t w hp
    exact ⟨h1 (fun p hm => absurd hm (hno p)), h2 (fun p hm => absurd hm (hno p))⟩
  · intro hp hno
    exact (update_timers_cases E t w hp).1 hno
  · intro hp hno
    exact (update_timers_cases E t w hp).2.1 hno
  · intro hp
    rw [update_of_not_playing E t w hp]
    exact ⟨rfl, rfl⟩

/-- C21 on the arena with the shield timer at 3 and no power-up on the field, for a frame
one second after the last update: the shield timer goes to 2, the slow timer stays 0, and
the timers stay in range, also over the frames at 16 and 32 after a start at time 0. -/
theorem timers_stay_in_range_witness :
    (0 : ℝ) ≤ 1000 - (arenaWithPowerups (3 : ℝ) []).lastUpdateTime ∧
    timersInRange (arenaWithPowerups (3 : ℝ) []) ∧
    framesInOrder (0 : ℝ) [16, 32] ∧
    timersInRange (update (steadyEnv Real.sqrt Real.cos Real.sin Real.pi) 1000
      (arenaWithPowerups 3 [])) ∧
    timersInRange (runFrames (steadyEnv Real.sqrt Real.cos Real.sin Real.pi) [16, 32]
      (startGame (steadyEnv Real.sqrt Real.cos Real.sin Real.pi) 800 600 0
        (initialWorld 800 600))) ∧
    (update (steadyEnv Real.sqrt Real.cos Real.sin Real.pi) 1000
      (arenaWithPowerups 3 [])).shieldTimer = 2 ∧
    (update (steadyEnv Real.sqrt Real.cos Real.sin Real.pi) 1000
      (arenaWithPowerups 3 [])).slowTimer = 0 := by
  have hdt : (0 : ℝ) ≤ 1000 - (arenaWithPowerups (3 : ℝ) []).lastUpdateTime := by
    simp [arenaWithPowerups, arena]
  have hw : timersInRange (arenaWithPowerups (3 : ℝ) []) := by
    simp only [timersInRange, arenaWithPowerups, arena, CONFIG.SHIELD_DURATION_S,
      CONFIG.SLOW_DURATION_S]
    norm_num
  have hord : framesInOrder (0 : ℝ) [16, 32] := by
    unfold framesInOrder
    norm_num
  obtain ⟨-, h2, h3, h4, -⟩ := timers_stay_in_range
    (steadyEnv Real.sqrt Real.cos Real.sin Real.pi) 800 600 0 1000 [16, 32]
    (initialWorld 800 600) (arenaWithPowerups 3 []) hdt hw hord
  obtain ⟨e1, e2⟩ := h4 rfl (update_no_pickup_of_no_powerups _ 1000 (arenaWithPowerups 3 [])
    rfl rfl)
  refine ⟨hdt, hw, hord, h2, h3, ?_, ?_⟩
  · rw [e1]
    simp only [arenaWithPowerups, arena]
    norm_num
  · rw [e2]
    simp only [arenaWithPowerups, arena]
    norm_num

/-! ### A run that holds a power-up and particles -/

theorem updatePowerups_nil (E : Env K) (dt : K) (w : World K) (h : w.powerups = []) :
    updatePowerups E dt w = w := by
  unfold updatePowerups forEach
  rw [h]
  rfl

theorem updateParticles_nil (dt : K) (w : World K) (h : w.particles = []) :
    updateParticles dt w = w := by
  unfold updateParticles forEach
  rw [h]
  rfl

/-- A frame that starts with all three lists empty reaches the spawners as beginFrame
left it. -/
theorem beforeSpawners_of_empty (E : Env K) (t : K) (w : World K) (he : w.enemies = [])
    (hp : w.powerups = []) (hq : w.particles = []) :
    beforeSpawners E t w = beginFrame E t w := by
  unfold beforeSpawners
  rw [updateEnemies_nil E _ (by rw [(beginFrame_lists E t w).1]; exact he),
    updatePowerups_nil E _ _ (by rw [(beginFrame_lists E t w).2.1]; exact hp),
    updateParticles_nil _ _ (by rw [(beginFrame_lists E t w).2.2]; exact hq)]

/-- The particle loop removes nothing when every particle outlives the frame. -/
theorem particleLoop_length (dt : K) (n k : Nat) (s : World K)
    (h : ∀ i q, k ≤ i → s.particles[i]? = some q → dt < q.life) :
    (forEachFrom World.particles (particleCallback dt) n k s).particles.length
      = s.particles.length := by
  induction n generalizing k s with
  | zero => rfl
  | succ n ih =>
    show (forEachFrom World.particles (particleCallback dt) n (k + 1)
      (forEachStep World.particles (particleCallback dt) k s)).particles.length = _
    cases hk : s.particles[k]? with
    | none =>
      rw [forEachStep_none _ _ _ _ hk]
      exact ih (k + 1) s (fun i q hi hq => h i q (Nat.le_of_succ_le hi) hq)
    | some a =>
      have hlife : ¬ (a.update dt).life ≤ 0 := by
        have := h k a le_rfl hk
        show ¬ a.life - dt ≤ 0
        linarith
      rw [forEachStep_some _ _ _ _ a hk, particleCallback_eq, if_neg hlife]
      rw [ih]
      · simp
      · intro i q hi hq
        have hne : k ≠ i := by omega
        have hq' : (s.particles.set k (a.update dt))[i]? = some q := hq
        rw [List.getElem?_set_ne hne] at hq'
        exact h i q (Nat.le_of_succ_le hi) hq'

theorem updateParticles_length (dt : K) (w : World K) (h : ∀ q ∈ w.particles, dt < q.life) :
    (updateParticles dt w).particles.length = w.particles.length :=
  particleLoop_length dt _ 0 w (fun _ q _ hq => h q (List.getElem?_mem hq))

/-- A particle of a burst starts with a life of at least 500. -/
theorem particleAt_life_ge (E : Env K) (hR : E.RandomSpec) (x y : K) (color : String)
    (i : Nat) : 500 ≤ (particleAt E x y color i).life := by
  have hr := (hR (i + 1 + 1)).1
  have hfl : (0 : K) ≤ ((Int.floor (E.random (i + 1 + 1) * (1500 - 500 + 1)) : Int) : K) := by
    have : (0 : Int) ≤ Int.floor (E.random (i + 1 + 1) * (1500 - 500 + 1)) :=
      Int.floor_nonneg.2 (mul_nonneg hr (by norm_num))
    exact_mod_cast this
  simp only [particleAt, burstParticle, Particle.new, randomInt, random]
  split_ifs with h0
  · norm_num
  · linarith

theorem burstList_life_ge (E : Env K) (hR : E.RandomSpec) (x y : K) (color : String)
    (count i : Nat) : ∀ p ∈ burstList E x y color count i, 500 ≤ p.life := by
  induction count generalizing i with
  | zero => simp [burstList]
  | succ n ih =>
    intro p hp
    simp only [burstList, List.mem_cons] at hp
    rcases hp with rfl | hp
    · exact particleAt_life_ge E hR x y color i
    · exact ih _ p hp

theorem spawningEnv_randomSpec (sqrt cos sin : K → K) (pi : K) :
    (spawningEnv sqrt cos sin pi).RandomSpec := by
  intro n
  show (0 : K) ≤ (if n % 4 = 0 then 0 else 1 / 2) ∧ (if n % 4 = 0 then (0 : K) else 1 / 2) < 1
  split_ifs <;> norm_num

/-- The power-up that the spawner builds on a field of 200 by 200 when both position draws
are 1/2: it lies on the field centre. -/
theorem PowerUp.new_centre (E : Env K) (type : String) (w : World K)
    (hcw : w.canvasWidth = 200) (hch : w.canvasHeight = 200)
    (hx : E.random w.randomCalls = 1 / 2) (hy : E.random (w.randomCalls + 1) = 1 / 2) :
    (PowerUp.new E type w).1 =
      { type := type, radius := 12, x := 100, y := 100,
        color := if type = "slow" then "#2196F3" else "#FFC107", life := 10000 } := by
  have hfl : Int.floor ((1 / 2 : K) * (200 - 12 - 12 + 1)) = 88 := by
    rw [Int.floor_eq_iff]
    constructor <;> norm_num
  simp only [PowerUp.new, randomInt, random, hcw, hch, hx, hy, hfl]
  norm_num

/-- The power-up spawner on a field of 200 by 200 when the chance draw is below the spawn
chance, the type draw is not below 0.5 and both position draws are 1/2: it appends a slow
power-up on the field centre. -/
theorem spawnPowerups_slow_centre (E : Env K) (w : World K)
    (hcw : w.canvasWidth = 200) (hch : w.canvasHeight = 200)
    (h0 : E.random w.randomCalls < CONFIG.POWERUP_SPAWN_CHANCE) (hl : w.powerups.length < 2)
    (h1 : ¬ E.random (w.randomCalls + 1) < 0.5)
    (h2 : E.random (w.randomCalls + 2) = 1 / 2) (h3 : E.random (w.randomCalls + 2 + 1) = 1 / 2) :
    spawnPowerups E w =
      { w with powerups := w.powerups ++ [slowAt 100 100], randomCalls := w.randomCalls + 4,
               trace := w.trace ++ [Event.powerupSpawn (slowAt 100 100)] } := by
  rw [spawnPowerups_eq, if_pos ⟨h0, hl⟩, if_neg h1,
    PowerUp.new_centre E "slow" { w with randomCalls := w.randomCalls + 2 } hcw hch h2 h3]
  rfl

theorem spawnEnemies_not_due (E : Env K) (w : World K)
    (h : ¬ E.dateNow w.dateNowCalls - w.lastSpawnTime > w.currentSpawnInterval) :
    spawnEnemies E w = { w with dateNowCalls := w.dateNowCalls + 1 } := by
  rw [spawnEnemies_eq, if_neg (fun hc => h hc.1)]

theorem spawningEnv_draws (sqrt cos sin : K → K) (pi : K) (n : Nat) (hn : n % 4 = 0) :
    (spawningEnv sqrt cos sin pi).random n < CONFIG.POWERUP_SPAWN_CHANCE ∧
    ¬ (spawningEnv sqrt cos sin pi).random (n + 1) < 0.5 ∧
    (spawningEnv sqrt cos sin pi).random (n + 2) = 1 / 2 ∧
    (spawningEnv sqrt cos sin pi).random (n + 2 + 1) = 1 / 2 := by
  have e1 : (n + 1) % 4 ≠ 0 := by omega
  have e2 : (n + 2) % 4 ≠ 0 := by omega
  have e3 : (n + 2 + 1) % 4 ≠ 0 := by omega
  simp only [spawningEnv, hn, e1, e2, e3, if_true, if_false, CONFIG.POWERUP_SPAWN_CHANCE]
  norm_num

theorem spawningEnv_not_due (sqrt cos sin : K → K) (pi : K) (w : World K)
    (h1 : w.lastSpawnTime = 2000) (h2 : w.currentSpawnInterval = CONFIG.SPAWN_INTERVAL_MS) :
    ¬ (spawningEnv sqrt cos sin pi).dateNow w.dateNowCalls - w.lastSpawnTime
      > w.currentSpawnInterval := by
  rw [h1, h2]
  show ¬ (2000 : K) - 2000 > CONFIG.SPAWN_INTERVAL_MS
  unfold CONFIG.SPAWN_INTERVAL_MS
  norm_num

/-- The first frame of the run: nothing is on the field, the enemy spawner is not due, and
the power-up spawner puts a slow power-up on the field centre, where the player stands. -/
theorem spawning_first_frame (sqrt cos sin : K → K) (pi : K) :
    update (spawningEnv sqrt cos sin pi) 16
        (startGame (spawningEnv sqrt cos sin pi) 200 200 0 (arena 0 [])) =
      { beginFrame (spawningEnv sqrt cos sin pi) 16
          (startGame (spawningEnv sqrt cos sin pi) 200 200 0 (arena 0 [])) with
        dateNowCalls := 3, randomCalls := 4, powerups := [slowAt 100 100],
        trace := [Event.powerupSpawn (slowAt 100 100)] } := by
  obtain ⟨d0, d1, d2, d3⟩ := spawningEnv_draws sqrt cos sin pi 0 rfl
  rw [update_eq_spawners _ _ _ rfl, beforeSpawners_of_empty _ _ _ rfl rfl rfl,
    spawnEnemies_not_due _ _ (spawningEnv_not_due sqrt cos sin pi _ rfl rfl),
    spawnPowerups_slow_centre _ _ rfl rfl d0 (by show 0 < 2; norm_num) d1 d2 d3]
  rfl

theorem shiftParticles_of_le {α : Type} (ps : List α) (h : ps.length ≤ CONFIG.MAX_PARTICLES) :
    shiftParticles ps = ps := by
  rw [shiftParticles_eq_drop, Nat.sub_eq_zero_of_le h, List.drop_zero]

/-- A frame that starts with no enemy, no particle and a single slow power-up on the spot
where the player stands after its own update: the power-up is picked up, its burst of ten
particles survives the particle loop, and the slow timer is at the full duration when the
spawners start. -/
theorem beforeSpawners_slow_pickup (E : Env K) (hE : E.SqrtSpec) (hR : E.RandomSpec) (t x y : K)
    (w : World K) (hen : w.enemies = []) (hpu : w.powerups = [slowAt x y])
    (hpa : w.particles = []) (hpl : (Player.update E w).player = Player.new x y)
    (hdt : t - w.lastUpdateTime < 500) :
    ∃ ps : List (Particle K), ps.length = CONFIG.PARTICLE_COUNT_POWERUP ∧
      beforeSpawners E t w =
        { beginFrame E t w with
          slowTimer := CONFIG.SLOW_DURATION_S, powerups := [], particles := ps,
          randomCalls := w.randomCalls + 4 * CONFIG.PARTICLE_COUNT_POWERUP,
          trace := w.trace ++ [Event.powerupUpdate 0 (slowAt x y),
            Event.pickup (PowerUp.update (slowAt x y) (t - w.lastUpdateTime))] } := by
  have hlife : ¬ (PowerUp.update (slowAt x y) (t - w.lastUpdateTime)).life ≤ 0 := by
    simp only [PowerUp.update, slowAt, not_le]
    linarith
  have hdist : distance E (beginFrame E t w).player.x (beginFrame E t w).player.y
      (slowAt x y).x (slowAt x y).y < (beginFrame E t w).player.radius + (slowAt x y).radius := by
    rw [beginFrame_player, hpl]
    show E.sqrt ((x - x) ^ 2 + (y - y) ^ 2) < CONFIG.PLAYER_RADIUS + 12
    have h0 : (x - x) ^ 2 + (y - y) ^ 2 = (0 : K) := by ring
    rw [h0, sqrt_zero_of_spec E hE]
    unfold CONFIG.PLAYER_RADIUS
    norm_num
  have hty : ¬ (slowAt x y).type = "shield" := by
    show ¬ "slow" = "shield"
    decide
  have hty2 : (slowAt x y).type = "slow" := rfl
  have hbp : (beginFrame E t w).particles = [] := hpa
  have hbu : (beginFrame E t w).powerups = [slowAt x y] := hpu
  unfold beforeSpawners
  rw [single_powerup_loops E t w _ hen hpu, powerupCallback_eq, if_neg hlife, if_pos hdist,
    if_neg hty, if_pos hty2, hbp, hbu, List.nil_append,
    shiftParticles_of_le _ (by rw [burstList_length]; simp [CONFIG.MAX_PARTICLES,
      CONFIG.PARTICLE_COUNT_POWERUP])]
  obtain ⟨ps, hps⟩ := particleLoop_frame (t - w.lastUpdateTime)
    (burstList E (slowAt x y).x (slowAt x y).y "#2196F3" CONFIG.PARTICLE_COUNT_POWERUP
      (beginFrame E t w).randomCalls).length 0
    { beginFrame E t w with
      slowTimer := CONFIG.SLOW_DURATION_S,
      powerups := ([slowAt x y].set 0 (PowerUp.update (slowAt x y) (t - w.lastUpdateTime))).eraseIdx 0,
      particles := burstList E (slowAt x y).x (slowAt x y).y "#2196F3"
        CONFIG.PARTICLE_COUNT_POWERUP (beginFrame E t w).randomCalls,
      randomCalls := (beginFrame E t w).randomCalls + 4 * CONFIG.PARTICLE_COUNT_POWERUP,
      trace := (beginFrame E t w).trace ++ [Event.powerupUpdate 0 (slowAt x y),
        Event.pickup (PowerUp.update (slowAt x y) (t - w.lastUpdateTime))] }
  have hlen := updateParticles_length (t - w.lastUpdateTime)
    { beginFrame E t w with
      slowTimer := CONFIG.SLOW_DURATION_S,
      powerups := ([slowAt x y].set 0 (PowerUp.update (slowAt x y) (t - w.lastUpdateTime))).eraseIdx 0,
      particles := burstList E (slowAt x y).x (slowAt x y).y "#2196F3"
        CONFIG.PARTICLE_COUNT_POWERUP (beginFrame E t w).randomCalls,
      randomCalls := (beginFrame E t w).randomCalls + 4 * CONFIG.PARTICLE_COUNT_POWERUP,
      trace := (beginFrame E t w).trace ++ [Event.powerupUpdate 0 (slowAt x y),
        Event.pickup (PowerUp.update (slowAt x y) (t - w.lastUpdateTime))] }
    (fun q hq => lt_of_lt_of_le hdt (burstList_life_ge E hR _ _ _ _ _ q hq))
  unfold updateParticles forEach at hlen ⊢
  rw [hps] at hlen ⊢
  refine ⟨ps, ?_, rfl⟩
  rw [← burstList_length E (slowAt x y).x (slowAt x y).y "#2196F3" CONFIG.PARTICLE_COUNT_POWERUP
    (beginFrame E t w).randomCalls]
  exact hlen

/-- The run of two frames (timestamps 16 and 32) after startGame on a field of 200 by 200,
started from the arena (pointer on the field centre, no key held), under spawningEnv: the
first frame spawns a slow power-up on the player, the second picks it up, which leaves the
ten particles of its burst in the list, and spawns the next power-up. -/
theorem spawning_run (sqrt cos sin : K → K) (pi : K)
    (hE : (spawningEnv sqrt cos sin pi).SqrtSpec) :
    (runFrames (spawningEnv sqrt cos sin pi) [16, 32]
      (startGame (spawningEnv sqrt cos sin pi) 200 200 0 (arena 0 []))).powerups
        = [slowAt 100 100] ∧
    (runFrames (spawningEnv sqrt cos sin pi) [16, 32]
      (startGame (spawningEnv sqrt cos sin pi) 200 200 0 (arena 0 []))).particles.length
        = 10 := by
  have hR := spawningEnv_randomSpec sqrt cos sin pi
  have hw2 := spawning_first_frame sqrt cos sin pi
  obtain ⟨k1, k2, k3, k4, k5⟩ := update_keeps_centred (spawningEnv sqrt cos sin pi) 16 200 200
    (startGame (spawningEnv sqrt cos sin pi) 200 200 0 (arena 0 []))
    (by unfold CONFIG.PLAYER_RADIUS; norm_num) (by unfold CONFIG.PLAYER_RADIUS; norm_num)
    (fun _ => rfl)
    (by show ({ x := 100, y := 100 } : Vec K) = { x := 200 / 2, y := 200 / 2 }; norm_num)
    rfl rfl rfl
  show (update (spawningEnv sqrt cos sin pi) 32 (update (spawningEnv sqrt cos sin pi) 16
      (startGame (spawningEnv sqrt cos sin pi) 200 200 0 (arena 0 [])))).powerups = _ ∧
    (update (spawningEnv sqrt cos sin pi) 32 (update (spawningEnv sqrt cos sin pi) 16
      (startGame (spawningEnv sqrt cos sin pi) 200 200 0 (arena 0 [])))).particles.length = _
  generalize hw : update (spawningEnv sqrt cos sin pi) 16
      (startGame (spawningEnv sqrt cos sin pi) 200 200 0 (arena 0 [])) = w2 at hw2 k1 k2 k3 k4 k5
  have hplay : w2.gameState = GameState.playing := by rw [hw2]; rfl
  have hen : w2.enemies = [] := by rw [hw2]; rfl
  have hpu : w2.powerups = [slowAt 100 100] := by rw [hw2]
  have hpa : w2.particles = [] := by rw [hw2]; rfl
  have hlu : w2.lastUpdateTime = 16 := by rw [hw2]; rfl
  have hrc : w2.randomCalls = 4 := by rw [hw2]
  have hls : w2.lastSpawnTime = 2000 := by rw [hw2]; rfl
  have hsi : w2.currentSpawnInterval = CONFIG.SPAWN_INTERVAL_MS := by rw [hw2]; rfl
  have h100 : (200 : K) / 2 = 100 := by norm_num
  rw [h100] at k2 k3
  have hpl : (Player.update (spawningEnv sqrt cos sin pi) w2).player = Player.new 100 100 := by
    rw [← k3]
    apply Player.update_still _ w2 k1
    · rw [k2, k3]; rfl
    · rw [k2, k3]; rfl
    · rw [k3]; show CONFIG.PLAYER_RADIUS ≤ (100 : K); unfold CONFIG.PLAYER_RADIUS; norm_num
    · rw [k3, k4]; show (100 : K) ≤ 200 - CONFIG.PLAYER_RADIUS
      unfold CONFIG.PLAYER_RADIUS; norm_num
    · rw [k3]; show CONFIG.PLAYER_RADIUS ≤ (100 : K); unfold CONFIG.PLAYER_RADIUS; norm_num
    · rw [k3, k5]; show (100 : K) ≤ 200 - CONFIG.PLAYER_RADIUS
      unfold CONFIG.PLAYER_RADIUS; norm_num
  obtain ⟨ps, hlen, hbs⟩ := beforeSpawners_slow_pickup (spawningEnv sqrt cos sin pi) hE hR 32
    100 100 w2 hen hpu hpa hpl (by rw [hlu]; norm_num)
  have b1 : (beforeSpawners (spawningEnv sqrt cos sin pi) 32 w2).randomCalls
      = w2.randomCalls + 4 * CONFIG.PARTICLE_COUNT_POWERUP := by rw [hbs]
  have b2 : (beforeSpawners (spawningEnv sqrt cos sin pi) 32 w2).lastSpawnTime = 2000 := by
    rw [hbs]; exact hls
  have b3 : (beforeSpawners (spawningEnv sqrt cos sin pi) 32 w2).currentSpawnInterval
      = CONFIG.SPAWN_INTERVAL_MS := by rw [hbs]; exact hsi
  have b4 : (beforeSpawners (spawningEnv sqrt cos sin pi) 32 w2).canvasWidth = 200 := by
    rw [hbs]; exact k4
  have b5 : (beforeSpawners (spawningEnv sqrt cos sin pi) 32 w2).canvasHeight = 200 := by
    rw [hbs]; exact k5
  have b6 : (beforeSpawners (spawningEnv sqrt cos sin pi) 32 w2).powerups = [] := by rw [hbs]
  have b7 : (beforeSpawners (spawningEnv sqrt cos sin pi) 32 w2).particles = ps := by rw [hbs]
  have hmod : (beforeSpawners (spawningEnv sqrt cos sin pi) 32 w2).randomCalls % 4 = 0 := by
    rw [b1, hrc, Nat.add_mul_mod_self_left]
  obtain ⟨d0, d1, d2, d3⟩ := spawningEnv_draws sqrt cos sin pi _ hmod
  rw [update_eq_spawners _ _ _ hplay,
    spawnEnemies_not_due (spawningEnv sqrt cos sin pi)
      (beforeSpawners (spawningEnv sqrt cos sin pi) 32 w2)
      (spawningEnv_not_due sqrt cos sin pi _ b2 b3),
    spawnPowerups_slow_centre (spawningEnv sqrt cos sin pi)
      { beforeSpawners (spawningEnv sqrt cos sin pi) 32 w2 with
        dateNowCalls := (beforeSpawners (spawningEnv sqrt cos sin pi) 32 w2).dateNowCalls + 1 }
      b4 b5 d0 (by show (beforeSpawners (spawningEnv sqrt cos sin pi) 32 w2).powerups.length < 2
                   rw [b6]; exact Nat.zero_lt_two) d1 d2 d3]
  constructor
  · show (beforeSpawners (spawningEnv sqrt cos sin pi) 32 w2).powerups ++ [slowAt 100 100] = _
    rw [b6]
    rfl
  · show (beforeSpawners (spawningEnv sqrt cos sin pi) 32 w2).particles.length = 10
    rw [b7, hlen]
    rfl

/-- C19 on a run that holds entries, over the reals: after startGame on a field of 200 by
200 and the frames at 16 and 32, with a clock that stands still and every fourth draw 0
(the others 1/2), the lists hold a slow power-up and the ten particles of a pick-up burst,
and none of these entries has life 0 or less. -/
theorem no_expired_entries_witness :
    (spawningEnv Real.sqrt Real.cos Real.sin Real.pi).RandomSpec ∧
    (runFrames (spawningEnv Real.sqrt Real.cos Real.sin Real.pi) [16, 32]
      (startGame (spawningEnv Real.sqrt Real.cos Real.sin Real.pi) 200 200 0
        (arena 0 []))).powerups = [slowAt 100 100] ∧
    (runFrames (spawningEnv Real.sqrt Real.cos Real.sin Real.pi) [16, 32]
      (startGame (spawningEnv Real.sqrt Real.cos Real.sin Real.pi) 200 200 0
        (arena 0 []))).particles.length = 10 ∧
    (∀ p ∈ (runFrames (spawningEnv Real.sqrt Real.cos Real.sin Real.pi) [16, 32]
      (startGame (spawningEnv Real.sqrt Real.cos Real.sin Real.pi) 200 200 0
        (arena 0 []))).powerups, ¬ p.life ≤ 0) ∧
    (∀ q ∈ (runFrames (spawningEnv Real.sqrt Real.cos Real.sin Real.pi) [16, 32]
      (startGame (spawningEnv Real.sqrt Real.cos Real.sin Real.pi) 200 200 0
        (arena 0 []))).particles, ¬ q.life ≤ 0) :=
  ⟨spawningEnv_randomSpec _ _ _ _,
   (spawning_run Real.sqrt Real.cos Real.sin Real.pi (sqrtSpec_real _ rfl)).1,
   (spawning_run Real.sqrt Real.cos Real.sin Real.pi (sqrtSpec_real _ rfl)).2,
   no_expired_entries (spawningEnv Real.sqrt Real.cos Real.sin Real.pi)
     (spawningEnv_randomSpec _ _ _ _) 200 200 0 (arena 0 []) [16, 32]⟩

end Dodgeball
